import Mathlib

/-!
VulkanApp: swapchain selection, device selection, orbit camera and frame loop

A shallow embedding of the decision logic of `src/VulkanApp.cpp` / `src/VulkanApp.h`.

* 32-bit unsigned values are natural numbers; arithmetic that can wrap is reduced
  modulo `2 ^ 32` explicitly.
* Vulkan handles are natural numbers; `std::vector` indexing is `List` lookup, and an
  index outside the vector (undefined behaviour in C++) is reported as a failure.
* What the driver reports (device properties, call results, acquired image index) is
  an explicit argument of the function that queries it.
* The camera scalars live in an arbitrary linearly ordered field (exact arithmetic);
  the rationals instantiate it for evaluation, the reals for the stated properties.
-/

namespace VulkanApp

/-! ## Vulkan enumerations and records used by the selection functions -/

abbrev VkFormat := Nat
abbrev VkColorSpaceKHR := Nat
abbrev VkPresentModeKHR := Nat

def VK_FORMAT_R8G8B8A8_UNORM : VkFormat := 37
def VK_FORMAT_B8G8R8A8_SRGB : VkFormat := 50
def VK_COLOR_SPACE_SRGB_NONLINEAR_KHR : VkColorSpaceKHR := 0
def VK_COLOR_SPACE_EXTENDED_SRGB_LINEAR_EXT : VkColorSpaceKHR := 1000104002

def VK_PRESENT_MODE_IMMEDIATE_KHR : VkPresentModeKHR := 0
def VK_PRESENT_MODE_MAILBOX_KHR : VkPresentModeKHR := 1
def VK_PRESENT_MODE_FIFO_KHR : VkPresentModeKHR := 2
def VK_PRESENT_MODE_FIFO_RELAXED_KHR : VkPresentModeKHR := 3

/-- The value of `std::numeric_limits<uint32_t>::max()`. -/
def UINT32_MAX : Nat := 2 ^ 32 - 1

structure VkSurfaceFormatKHR where
  format : VkFormat
  colorSpace : VkColorSpaceKHR
  deriving DecidableEq, Repr

structure VkExtent2D where
  width : Nat
  height : Nat
  deriving DecidableEq, Repr

structure VkSurfaceCapabilitiesKHR where
  minImageCount : Nat
  maxImageCount : Nat
  currentExtent : VkExtent2D
  minImageExtent : VkExtent2D
  maxImageExtent : VkExtent2D
  deriving DecidableEq, Repr

structure SwapChainSupportDetails where
  capabilities : VkSurfaceCapabilitiesKHR
  formats : List VkSurfaceFormatKHR
  presentModes : List VkPresentModeKHR
  deriving DecidableEq, Repr

/-! ## Swapchain selection (`VulkanApp.cpp` lines 261-290, 375-379) -/

/-- The test of the loop body of `chooseSwapSurfaceFormat`. -/
def isPreferredFormat (f : VkSurfaceFormatKHR) : Bool :=
  f.format == VK_FORMAT_B8G8R8A8_SRGB && f.colorSpace == VK_COLOR_SPACE_SRGB_NONLINEAR_KHR

/-- The range-for loop of `chooseSwapSurfaceFormat`: the first entry passing the test
is returned from inside the loop; `none` means the loop ran to its end. -/
def chooseSwapSurfaceFormat.loop : List VkSurfaceFormatKHR → Option VkSurfaceFormatKHR
  | [] => none
  | f :: rest => if isPreferredFormat f then some f else chooseSwapSurfaceFormat.loop rest

/-- Embedding of `VulkanApp::chooseSwapSurfaceFormat`. After the loop the code returns `formats[0]`,
which is outside the vector when it is empty: that case is `none`. -/
def chooseSwapSurfaceFormat (formats : List VkSurfaceFormatKHR) : Option VkSurfaceFormatKHR :=
  match chooseSwapSurfaceFormat.loop formats with
  | some f => some f
  | none => formats[0]?

/-- Embedding of `VulkanApp::chooseSwapPresentMode`. -/
def chooseSwapPresentMode : List VkPresentModeKHR → VkPresentModeKHR
  | [] => VK_PRESENT_MODE_FIFO_KHR
  | m :: rest =>
    if m == VK_PRESENT_MODE_MAILBOX_KHR then m else chooseSwapPresentMode rest

/-- The conversion `static_cast<uint32_t>` applied to an `int`. -/
def toUint32 (i : Int) : Nat := (i % 2 ^ 32).toNat

/-- Embedding of `VulkanApp::chooseSwapExtent`; the members `WIDTH` and `HEIGHT` are arguments. -/
def chooseSwapExtent (WIDTH HEIGHT : Int) (capabilities : VkSurfaceCapabilitiesKHR) :
    VkExtent2D :=
  if capabilities.currentExtent.width ≠ UINT32_MAX then
    capabilities.currentExtent
  else
    let actualExtent : VkExtent2D := { width := toUint32 WIDTH, height := toUint32 HEIGHT }
    { width := max capabilities.minImageExtent.width
        (min capabilities.maxImageExtent.width actualExtent.width)
      height := max capabilities.minImageExtent.height
        (min capabilities.maxImageExtent.height actualExtent.height) }

/-- The image count computed at the start of `VulkanApp::createSwapchain` (lines 375-379). -/
def createSwapchain.imageCount (capabilities : VkSurfaceCapabilitiesKHR) : Nat :=
  let imageCount := (capabilities.minImageCount + 1) % 2 ^ 32
  if capabilities.maxImageCount > 0 ∧ imageCount > capabilities.maxImageCount then
    capabilities.maxImageCount
  else
    imageCount

/-- The preferred surface format in the words of the specification: 8-bit BGRA sRGB with the
sRGB nonlinear colour space. -/
def IsBgraSrgbNonlinear (f : VkSurfaceFormatKHR) : Prop :=
  f.format = VK_FORMAT_B8G8R8A8_SRGB ∧ f.colorSpace = VK_COLOR_SPACE_SRGB_NONLINEAR_KHR

/-- The selection rule in the words of the specification: `r` is the first preferred entry of
`formats` (at some index `i`, no earlier entry being preferred), or no entry is preferred and
`r` is the entry at index 0. -/
def FirstPreferredElseHead (formats : List VkSurfaceFormatKHR) (r : VkSurfaceFormatKHR) : Prop :=
  (∃ i : Nat, formats[i]? = some r ∧ IsBgraSrgbNonlinear r ∧
      ∀ j : Nat, j < i → ∀ g : VkSurfaceFormatKHR, formats[j]? = some g → ¬ IsBgraSrgbNonlinear g) ∨
  ((∀ g ∈ formats, ¬ IsBgraSrgbNonlinear g) ∧ formats[0]? = some r)

/-! ## Physical-device selection (`VulkanApp.cpp` lines 15-17, 214-259, 292-325) -/

abbrev VkPhysicalDevice := Nat

def VK_QUEUE_GRAPHICS_BIT : Nat := 1

/-- The file-level constant `DEVICE_EXTENSIONS`; `VK_KHR_SWAPCHAIN_EXTENSION_NAME` is the
string `"VK_KHR_swapchain"`. -/
def DEVICE_EXTENSIONS : List String := ["VK_KHR_swapchain"]

/-- What the driver reports for one queue family: its `VkQueueFamilyProperties::queueFlags`
and the answer of `vkGetPhysicalDeviceSurfaceSupportKHR` for the application surface. -/
structure QueueFamily where
  queueFlags : Nat
  presentSupport : Bool
  deriving DecidableEq, Repr

/-- What the driver reports for one physical device: its handle, its queue families, its
swapchain support on the application surface and the names of its extensions. -/
structure PhysicalDevice where
  handle : VkPhysicalDevice
  queueFamilies : List QueueFamily
  swapChainSupport : SwapChainSupportDetails
  extensions : List String
  deriving DecidableEq, Repr

structure QueueFamilyIndices where
  graphicsFamily : Option Nat
  presentFamily : Option Nat
  deriving DecidableEq, Repr

def QueueFamilyIndices.isComplete (indices : QueueFamilyIndices) : Bool :=
  indices.graphicsFamily.isSome && indices.presentFamily.isSome

/-- The range-for loop of `findQueueFamilies`, with the counter `i` and the record being filled.
The counter `int i` is a natural number here: it never exceeds the number of families. -/
def findQueueFamilies.loop :
    List QueueFamily → Nat → QueueFamilyIndices → QueueFamilyIndices
  | [], _, indices => indices
  | q :: rest, i, indices =>
    let indices1 : QueueFamilyIndices :=
      if q.queueFlags &&& VK_QUEUE_GRAPHICS_BIT ≠ 0 then
        { indices with graphicsFamily := some i }
      else indices
    let indices2 : QueueFamilyIndices :=
      if q.presentSupport then { indices1 with presentFamily := some i } else indices1
    if indices2.isComplete then indices2 else findQueueFamilies.loop rest (i + 1) indices2

/-- Embedding of `VulkanApp::findQueueFamilies`. -/
def findQueueFamilies (device : PhysicalDevice) : QueueFamilyIndices :=
  findQueueFamilies.loop device.queueFamilies 0 { graphicsFamily := none, presentFamily := none }

/-- Embedding of `VulkanApp::querySwapChainSupport`: the lists are what the driver reports. -/
def querySwapChainSupport (device : PhysicalDevice) : SwapChainSupportDetails :=
  device.swapChainSupport

/-- The set `required` of `pickPhysicalDevice` after the erase loop over the available
extensions; the `std::set` is a list, and `erase` removes every occurrence of the name. -/
def pickPhysicalDevice.required (available : List String) : List String :=
  available.foldl (fun required extensionName => required.filter (fun r => r != extensionName))
    DEVICE_EXTENSIONS

/-- The condition of the `if` in the body of the device loop of `pickPhysicalDevice`. -/
def pickPhysicalDevice.accepts (dev : PhysicalDevice) : Bool :=
  let indices := findQueueFamilies dev
  let sc := querySwapChainSupport dev
  let swapAdequate := !sc.formats.isEmpty && !sc.presentModes.isEmpty
  let required := pickPhysicalDevice.required dev.extensions
  indices.isComplete && swapAdequate && required.isEmpty

/-- The device loop of `pickPhysicalDevice` and the `throw` that follows it. -/
def pickPhysicalDevice.loop : List PhysicalDevice → Except String PhysicalDevice
  | [] => .error "Failed to find suitable GPU"
  | dev :: rest => if pickPhysicalDevice.accepts dev then .ok dev else pickPhysicalDevice.loop rest

/-- Embedding of `VulkanApp::pickPhysicalDevice`: the argument is the enumerated device list, the
result is the device stored in `m_physicalDevice` or the message of the exception thrown. -/
def pickPhysicalDevice (devices : List PhysicalDevice) : Except String PhysicalDevice :=
  if devices.length = 0 then .error "No Vulkan physical devices found"
  else pickPhysicalDevice.loop devices

/-- Suitability of a device in the words of the specification: `findQueueFamilies` is complete,
the surface-format and present-mode lists are non-empty, and every required extension name is
among the available ones. -/
def Suitable (d : PhysicalDevice) : Prop :=
  (findQueueFamilies d).isComplete = true ∧ d.swapChainSupport.formats ≠ [] ∧
    d.swapChainSupport.presentModes ≠ [] ∧ ∀ r ∈ DEVICE_EXTENSIONS, r ∈ d.extensions

/-! ## Orbit camera (`VulkanApp.h` lines 77-83, `VulkanApp.cpp` lines 107-159) -/

/-- The camera members of `VulkanApp`, over a field `K` of exact scalars. -/
structure Camera (K : Type) where
  m_yaw : K
  m_pitch : K
  m_distance : K
  m_mousePressed : Bool
  m_lastMouseX : K
  m_lastMouseY : K
  deriving DecidableEq, Repr

section CameraDefs

variable {K : Type} [LinearOrderedField K]

/-- The member initialisers of `VulkanApp.h`. -/
def Camera.initial : Camera K :=
  { m_yaw := 0.0, m_pitch := 0.4, m_distance := 3.0,
    m_mousePressed := false, m_lastMouseX := 0.0, m_lastMouseY := 0.0 }

/-- Embedding of `VulkanApp::onScroll`. -/
def onScroll (c : Camera K) (_xoffset yoffset : K) : Camera K :=
  let zoomSens : K := 0.2
  let d1 := c.m_distance - yoffset * zoomSens
  let d2 := if d1 < 1.0 then 1.0 else d1
  let d3 := if d2 > 10.0 then 10.0 else d2
  { c with m_distance := d3 }

/-- Embedding of `VulkanApp::updateCameraFromInput`. The cursor position `x y` and the button
and key states (`true` for `GLFW_PRESS`) are what GLFW reports at the poll. -/
def updateCameraFromInput (c : Camera K) (x y : K) (left keyW keyS : Bool) : Camera K :=
  let c1 : Camera K :=
    if left then
      if !c.m_mousePressed then
        { c with m_mousePressed := true, m_lastMouseX := x, m_lastMouseY := y }
      else
        let dx := x - c.m_lastMouseX
        let dy := y - c.m_lastMouseY
        let sens : K := 0.005
        let yaw := c.m_yaw - dx * sens
        let pitch := c.m_pitch + dy * sens
        let limit : K := 1.4
        let pitch1 := if pitch > limit then limit else pitch
        let pitch2 := if pitch1 < -limit then -limit else pitch1
        { c with m_lastMouseX := x, m_lastMouseY := y, m_yaw := yaw, m_pitch := pitch2 }
    else
      { c with m_mousePressed := false }
  let d1 := if keyW then c1.m_distance - 0.05 else c1.m_distance
  let d2 := if keyS then d1 + 0.05 else d1
  let d3 := if d2 < 1.0 then 1.0 else d2
  let d4 := if d3 > 10.0 then 10.0 else d3
  { c1 with m_distance := d4 }

/-- One input delivered to the camera: a scroll callback or one poll of `updateCameraFromInput`. -/
inductive CameraInput (K : Type) where
  | scroll (xoffset yoffset : K)
  | poll (x y : K) (left keyW keyS : Bool)
  deriving DecidableEq, Repr

/-- The camera after one input. -/
def Camera.step (c : Camera K) : CameraInput K → Camera K
  | .scroll xoffset yoffset => onScroll c xoffset yoffset
  | .poll x y left keyW keyS => updateCameraFromInput c x y left keyW keyS

/-- The camera after a sequence of inputs, in order. -/
def Camera.run (c : Camera K) (inputs : List (CameraInput K)) : Camera K :=
  inputs.foldl Camera.step c

/-- The clamp ranges named by the specification. -/
def Camera.InRange (c : Camera K) : Prop :=
  -1.4 ≤ c.m_pitch ∧ c.m_pitch ≤ 1.4 ∧ 1 ≤ c.m_distance ∧ c.m_distance ≤ 10

/-- One poll with the left button held: cursor position and the two zoom keys. -/
structure HeldPoll (K : Type) where
  x : K
  y : K
  keyW : Bool
  keyS : Bool
  deriving DecidableEq, Repr

/-- A run of consecutive polls of `updateCameraFromInput`, the left button pressed in each. -/
def Camera.runHeld (c : Camera K) (polls : List (HeldPoll K)) : Camera K :=
  polls.foldl (fun c p => updateCameraFromInput c p.x p.y true p.keyW p.keyS) c

end CameraDefs

/-! ## The `float` arithmetic of `onScroll` (`VulkanApp.cpp` lines 107-115) -/

abbrev Handle := Nat
abbrev VkResult := Int

def VK_SUCCESS : VkResult := 0
def VK_NOT_READY : VkResult := 1
def VK_TIMEOUT : VkResult := 2
def VK_SUBOPTIMAL_KHR : VkResult := 1000001003
def VK_ERROR_OUT_OF_HOST_MEMORY : VkResult := -1
def VK_ERROR_DEVICE_LOST : VkResult := -4
def VK_ERROR_OUT_OF_DATE_KHR : VkResult := -1000001004

def UINT64_MAX : Nat := 2 ^ 64 - 1
def VK_PIPELINE_STAGE_COLOR_ATTACHMENT_OUTPUT_BIT : Nat := 0x400
def VK_SHADER_STAGE_VERTEX_BIT : Nat := 1
def VK_INDEX_TYPE_UINT32 : Nat := 1

/-- The constant `MAX_FRAMES_IN_FLIGHT` of `VulkanApp.h`. -/
def MAX_FRAMES_IN_FLIGHT : Nat := 2

/-- The value of `sizeof(PushConsts)`: two 4x4 matrices of 32-bit floats. -/
def sizeofPushConsts : Nat := 128

/-- The 32-bit pattern of a `float` or the value of a `uint32_t`, as stored in memory. -/
abbrev Word32 := Nat

/-- The struct `VulkanVertex` of `VulkanVertex.h`: `float pos[3]; float normal[3]`, each float
given by its 32-bit pattern. -/
structure VulkanVertex where
  pos : Word32 × Word32 × Word32
  normal : Word32 × Word32 × Word32
  deriving DecidableEq, Repr

/-- The members of `VulkanApp` other than the window and the camera: the mesh data, the Vulkan
handles and vectors, and the slot index. A handle that is `VK_NULL_HANDLE` is 0. -/
structure FrameState where
  m_vertices : List VulkanVertex
  m_indices : List Word32
  m_instance : Handle
  m_surface : Handle
  m_physicalDevice : Option PhysicalDevice
  m_swapchainImages : List Handle
  m_swapchainImageFormat : VkFormat
  m_swapchainImageViews : List Handle
  m_commandPool : Handle
  m_vertexBufferMemory : Handle
  m_indexBufferMemory : Handle
  m_device : Handle
  m_swapchain : Handle
  m_swapchainExtent : VkExtent2D
  m_swapchainFramebuffers : List Handle
  m_renderPass : Handle
  m_pipelineLayout : Handle
  m_graphicsPipeline : Handle
  m_graphicsQueue : Handle
  m_presentQueue : Handle
  m_commandBuffers : List Handle
  m_imageAvailableSemaphores : List Handle
  m_renderFinishedSemaphores : List Handle
  m_inFlightFences : List Handle
  m_currentFrame : Nat
  m_vertexBuffer : Handle
  m_indexBuffer : Handle
  m_indexCount : Nat
  deriving DecidableEq, Repr

def VK_NULL_HANDLE : Handle := 0

/-- Embedding of the constructor `VulkanApp::VulkanApp` together with the default member
initialisers of `VulkanApp.h`: the mesh is copied, `m_indexCount` is
`static_cast<uint32_t>(m_indices.size())`, every handle is null, every vector is empty and
the slot index is 0. -/
def construct (vertices : List VulkanVertex) (indices : List Word32) : FrameState :=
  { m_vertices := vertices, m_indices := indices,
    m_indexCount := indices.length % 2 ^ 32,
    m_instance := VK_NULL_HANDLE, m_surface := VK_NULL_HANDLE, m_physicalDevice := none,
    m_device := VK_NULL_HANDLE, m_graphicsQueue := VK_NULL_HANDLE,
    m_presentQueue := VK_NULL_HANDLE, m_swapchain := VK_NULL_HANDLE, m_swapchainImages := [],
    m_swapchainImageFormat := 0, m_swapchainExtent := ⟨0, 0⟩, m_swapchainImageViews := [],
    m_swapchainFramebuffers := [], m_renderPass := VK_NULL_HANDLE,
    m_pipelineLayout := VK_NULL_HANDLE, m_graphicsPipeline := VK_NULL_HANDLE,
    m_commandPool := VK_NULL_HANDLE, m_commandBuffers := [],
    m_imageAvailableSemaphores := [], m_renderFinishedSemaphores := [], m_inFlightFences := [],
    m_currentFrame := 0, m_vertexBuffer := VK_NULL_HANDLE, m_vertexBufferMemory := VK_NULL_HANDLE,
    m_indexBuffer := VK_NULL_HANDLE, m_indexBufferMemory := VK_NULL_HANDLE }

/-- What the driver returns to the calls of one `drawFrame` iteration: the `VkResult` of each
call that has one, and the image index written by `vkAcquireNextImageKHR`. -/
structure FrameDriver where
  waitForFences : VkResult
  resetFences : VkResult
  acquireNextImage : VkResult
  imageIndex : Nat
  resetCommandBuffer : VkResult
  beginCommandBuffer : VkResult
  endCommandBuffer : VkResult
  queueSubmit : VkResult
  queuePresent : VkResult
  deriving DecidableEq, Repr

/-- Bytes of host and device memory. -/
abbrev Byte := Nat

/-- The struct `VkBufferCopy`. -/
structure VkBufferCopy where
  srcOffset : Nat
  dstOffset : Nat
  size : Nat
  deriving DecidableEq, Repr

/-- The Vulkan calls made by `drawFrame`, by `createSyncObjects` and by the buffer upload, with
the arguments that identify the objects they act on; `memcpy` stands for the host copy into
mapped memory. The push-constant payload (the two matrices) is not part of the record. -/
inductive GpuCall where
  | vkCreateSemaphore (device semaphore : Handle)
  | vkCreateFence (device : Handle) (flags : Nat) (fence : Handle)
  | vkCreateBuffer (device : Handle) (size usage : Nat) (buffer : Handle)
  | vkAllocateMemory (device : Handle) (memoryTypeIndex : Nat) (memory : Handle)
  | vkBindBufferMemory (device buffer memory : Handle) (memoryOffset : Nat)
  | vkMapMemory (device memory : Handle) (offset size : Nat)
  | memcpy (memory : Handle) (bytes : List Byte) (count : Nat)
  | vkUnmapMemory (device memory : Handle)
  | vkAllocateCommandBuffers (device commandPool : Handle) (commandBuffers : List Handle)
  | vkCmdCopyBuffer (cmd srcBuffer dstBuffer : Handle) (regions : List VkBufferCopy)
  | vkQueueWaitIdle (queue : Handle)
  | vkFreeCommandBuffers (device commandPool : Handle) (commandBuffers : List Handle)
  | vkDestroyBuffer (device buffer : Handle)
  | vkFreeMemory (device memory : Handle)
  | vkWaitForFences (device : Handle) (fences : List Handle) (waitAll : Bool) (timeout : Nat)
  | vkResetFences (device : Handle) (fences : List Handle)
  | vkAcquireNextImageKHR (device swapchain : Handle) (timeout : Nat) (semaphore : Handle)
      (fence : Option Handle)
  | vkResetCommandBuffer (cmd : Handle) (flags : Nat)
  | vkBeginCommandBuffer (cmd : Handle)
  | vkCmdBeginRenderPass (cmd renderPass framebuffer : Handle) (extent : VkExtent2D)
  | vkCmdBindPipeline (cmd pipeline : Handle)
  | vkCmdPushConstants (cmd layout : Handle) (stageFlags offset size : Nat)
  | vkCmdBindVertexBuffers (cmd : Handle) (firstBinding : Nat) (buffers : List Handle)
      (offsets : List Nat)
  | vkCmdBindIndexBuffer (cmd buffer : Handle) (offset indexType : Nat)
  | vkCmdDrawIndexed (cmd : Handle)
      (indexCount instanceCount firstIndex vertexOffset firstInstance : Nat)
  | vkCmdEndRenderPass (cmd : Handle)
  | vkEndCommandBuffer (cmd : Handle)
  | vkQueueSubmit (queue : Handle) (waitSemaphores : List Handle) (waitDstStageMask : List Nat)
      (commandBuffers : List Handle) (signalSemaphores : List Handle) (fence : Handle)
  | vkQueuePresentKHR (queue : Handle) (waitSemaphores : List Handle) (swapchains : List Handle)
      (imageIndices : List Nat)
  deriving DecidableEq, Repr

/-- How one `drawFrame` call ends: it returns, it throws `std::runtime_error` with a message,
or it indexes a vector outside its bounds (undefined behaviour in C++). -/
inductive Outcome where
  | completed
  | threw (message : String)
  | outOfBounds
  deriving DecidableEq, Repr

/-- The result of running `drawFrame`: the members afterwards, the Vulkan calls made in order,
and how the call ended. -/
structure DrawResult where
  state : FrameState
  calls : List GpuCall
  outcome : Outcome
  deriving DecidableEq, Repr

/-- Embedding of `VulkanApp::drawFrame`. -/
def drawFrame (s : FrameState) (driver : FrameDriver) : DrawResult :=
  match s.m_inFlightFences[s.m_currentFrame]? with
  | none => ⟨s, [], .outOfBounds⟩
  | some inFlight =>
    let calls1 : List GpuCall :=
      [.vkWaitForFences s.m_device [inFlight] true UINT64_MAX,
       .vkResetFences s.m_device [inFlight]]
    match s.m_imageAvailableSemaphores[s.m_currentFrame]? with
    | none => ⟨s, calls1, .outOfBounds⟩
    | some imageAvailable =>
      let calls2 := calls1 ++
        [.vkAcquireNextImageKHR s.m_device s.m_swapchain UINT64_MAX imageAvailable none]
      let res := driver.acquireNextImage
      let imageIndex := driver.imageIndex
      if res ≠ VK_SUCCESS ∧ res ≠ VK_SUBOPTIMAL_KHR then
        ⟨s, calls2, .threw "Failed to acquire swapchain image"⟩
      else
        match s.m_commandBuffers[imageIndex]? with
        | none => ⟨s, calls2, .outOfBounds⟩
        | some cmd =>
          let calls3 := calls2 ++ [.vkResetCommandBuffer cmd 0, .vkBeginCommandBuffer cmd]
          if driver.beginCommandBuffer ≠ VK_SUCCESS then
            ⟨s, calls3, .threw "Failed to begin recording command buffer"⟩
          else
            match s.m_swapchainFramebuffers[imageIndex]? with
            | none => ⟨s, calls3, .outOfBounds⟩
            | some framebuffer =>
              let calls4 := calls3 ++
                [.vkCmdBeginRenderPass cmd s.m_renderPass framebuffer s.m_swapchainExtent,
                 .vkCmdBindPipeline cmd s.m_graphicsPipeline,
                 .vkCmdPushConstants cmd s.m_pipelineLayout VK_SHADER_STAGE_VERTEX_BIT 0
                   sizeofPushConsts,
                 .vkCmdBindVertexBuffers cmd 0 [s.m_vertexBuffer] [0],
                 .vkCmdBindIndexBuffer cmd s.m_indexBuffer 0 VK_INDEX_TYPE_UINT32,
                 .vkCmdDrawIndexed cmd s.m_indexCount 1 0 0 0,
                 .vkCmdEndRenderPass cmd,
                 .vkEndCommandBuffer cmd]
              if driver.endCommandBuffer ≠ VK_SUCCESS then
                ⟨s, calls4, .threw "Failed to record command buffer"⟩
              else
                let waitSemaphores := [imageAvailable]
                let waitStages := [VK_PIPELINE_STAGE_COLOR_ATTACHMENT_OUTPUT_BIT]
                match s.m_renderFinishedSemaphores[s.m_currentFrame]? with
                | none => ⟨s, calls4, .outOfBounds⟩
                | some renderFinished =>
                  let signalSemaphores := [renderFinished]
                  let calls5 := calls4 ++
                    [.vkQueueSubmit s.m_graphicsQueue waitSemaphores waitStages [cmd]
                       signalSemaphores inFlight]
                  if driver.queueSubmit ≠ VK_SUCCESS then
                    ⟨s, calls5, .threw "Failed to submit draw command buffer"⟩
                  else
                    let calls6 := calls5 ++
                      [.vkQueuePresentKHR s.m_presentQueue signalSemaphores [s.m_swapchain]
                         [imageIndex]]
                    ⟨{ s with m_currentFrame := (s.m_currentFrame + 1) % MAX_FRAMES_IN_FLIGHT },
                      calls6, .completed⟩

/-- The result of a run of the frame loop: the members afterwards, all Vulkan calls made, the
number of `drawFrame` iterations that completed, and how the run ended. -/
structure LoopResult where
  state : FrameState
  calls : List GpuCall
  completedFrames : Nat
  outcome : Outcome
  deriving DecidableEq, Repr

/-- The `drawFrame` iterations of `mainLoop`, one per driver record; an iteration that does not
complete ends the run (the exception leaves `mainLoop`). -/
def drawFrames (s : FrameState) : List FrameDriver → LoopResult
  | [] => ⟨s, [], 0, .completed⟩
  | driver :: rest =>
    let r := drawFrame s driver
    match r.outcome with
    | .completed =>
      let l := drawFrames r.state rest
      ⟨l.state, r.calls ++ l.calls, l.completedFrames + 1, l.outcome⟩
    | o => ⟨r.state, r.calls, 0, o⟩

/-- The fence handles a call is given. -/
def GpuCall.fences : GpuCall → List Handle
  | .vkWaitForFences _ fences _ _ => fences
  | .vkResetFences _ fences => fences
  | .vkAcquireNextImageKHR _ _ _ _ fence => fence.toList
  | .vkQueueSubmit _ _ _ _ _ fence => [fence]
  | _ => []

/-- The semaphore handles a call is given. -/
def GpuCall.semaphores : GpuCall → List Handle
  | .vkAcquireNextImageKHR _ _ _ semaphore _ => [semaphore]
  | .vkQueueSubmit _ waitSemaphores _ _ signalSemaphores _ => waitSemaphores ++ signalSemaphores
  | .vkQueuePresentKHR _ waitSemaphores _ _ => waitSemaphores
  | _ => []

/-- The calls of a completed iteration in slot `f`, in the words of the specification: wait on
and reset `inFlight`, acquire signalling `imageAvailable`, reset and record `cmd` with one render
pass on `framebuffer` and one indexed draw, submit waiting on `imageAvailable` at the
colour-attachment-output stage, signalling `renderFinished` and arming `inFlight`, then present
image `imageIndex` waiting on `renderFinished`. -/
def frameCalls (s : FrameState) (inFlight imageAvailable renderFinished cmd framebuffer : Handle)
    (imageIndex : Nat) : List GpuCall :=
  [.vkWaitForFences s.m_device [inFlight] true UINT64_MAX,
   .vkResetFences s.m_device [inFlight],
   .vkAcquireNextImageKHR s.m_device s.m_swapchain UINT64_MAX imageAvailable none,
   .vkResetCommandBuffer cmd 0,
   .vkBeginCommandBuffer cmd,
   .vkCmdBeginRenderPass cmd s.m_renderPass framebuffer s.m_swapchainExtent,
   .vkCmdBindPipeline cmd s.m_graphicsPipeline,
   .vkCmdPushConstants cmd s.m_pipelineLayout VK_SHADER_STAGE_VERTEX_BIT 0 sizeofPushConsts,
   .vkCmdBindVertexBuffers cmd 0 [s.m_vertexBuffer] [0],
   .vkCmdBindIndexBuffer cmd s.m_indexBuffer 0 VK_INDEX_TYPE_UINT32,
   .vkCmdDrawIndexed cmd s.m_indexCount 1 0 0 0,
   .vkCmdEndRenderPass cmd,
   .vkEndCommandBuffer cmd,
   .vkQueueSubmit s.m_graphicsQueue [imageAvailable]
     [VK_PIPELINE_STAGE_COLOR_ATTACHMENT_OUTPUT_BIT] [cmd] [renderFinished] inFlight,
   .vkQueuePresentKHR s.m_presentQueue [renderFinished] [s.m_swapchain] [imageIndex]]

/-- The unit quad: four vertices (bit patterns of 0.0 and 1.0, normal along z). -/
def quadVertices : List VulkanVertex :=
  [⟨(0, 0, 0), (0, 0, 0x3F800000)⟩, ⟨(0x3F800000, 0, 0), (0, 0, 0x3F800000)⟩,
   ⟨(0x3F800000, 0x3F800000, 0), (0, 0, 0x3F800000)⟩, ⟨(0, 0x3F800000, 0), (0, 0, 0x3F800000)⟩]

/-- The two triangles of the unit quad. -/
def quadIndices : List Word32 := [0, 1, 2, 0, 2, 3]

/-- How an initialisation step fails: it throws (`std::runtime_error` with its message, or
`std::bad_optional_access` from `value()`), or its behaviour is undefined (an index outside a
vector, a call on a null handle, a write through an uninitialised pointer, a Vulkan call outside
its valid usage). -/
inductive Failure where
  | threw (message : String)
  | undefinedBehaviour
  deriving DecidableEq, Repr

/-! ## Buffer upload (`VulkanApp.cpp` lines 693-841) over buffers as byte arrays -/

def VK_BUFFER_USAGE_TRANSFER_SRC_BIT : Nat := 0x1
def VK_BUFFER_USAGE_TRANSFER_DST_BIT : Nat := 0x2
def VK_BUFFER_USAGE_INDEX_BUFFER_BIT : Nat := 0x40
def VK_BUFFER_USAGE_VERTEX_BUFFER_BIT : Nat := 0x80
def VK_MEMORY_PROPERTY_DEVICE_LOCAL_BIT : Nat := 0x1
def VK_MEMORY_PROPERTY_HOST_VISIBLE_BIT : Nat := 0x2
def VK_MEMORY_PROPERTY_HOST_COHERENT_BIT : Nat := 0x4

/-- The four bytes of a 32-bit word in memory, least significant first. -/
def le32 (w : Word32) : List Byte :=
  [w % 256, w / 256 % 256, w / 65536 % 256, w / 16777216 % 256]

/-- The 24 bytes of a `VulkanVertex` in memory: `pos[0..2]` then `normal[0..2]`. -/
def VulkanVertex.bytes (v : VulkanVertex) : List Byte :=
  le32 v.pos.1 ++ le32 v.pos.2.1 ++ le32 v.pos.2.2 ++
    le32 v.normal.1 ++ le32 v.normal.2.1 ++ le32 v.normal.2.2

/-- The bytes behind `m_vertices.data()`. -/
def vertexBytes (vertices : List VulkanVertex) : List Byte :=
  vertices.flatMap VulkanVertex.bytes

/-- The bytes behind `m_indices.data()`. -/
def indexBytes (indices : List Word32) : List Byte :=
  indices.flatMap le32

/-- The value of `sizeof(VulkanVertex)`. -/
def sizeofVulkanVertex : Nat := 24

/-- The value of `sizeof(uint32_t)`. -/
def sizeofUint32 : Nat := 4

/-- A buffer together with the memory allocated for it: its size, usage flags, memory type, the
bytes of the memory, whether it has been destroyed and its memory freed, and whether
`vkBindBufferMemory` has bound the memory to the buffer (at offset 0). -/
structure BufferObject where
  size : Nat
  usage : Nat
  memoryTypeIndex : Nat
  contents : List Byte
  destroyed : Bool
  bound : Bool
  deriving DecidableEq, Repr

/-- A copy command recorded by `vkCmdCopyBuffer`, one per region. -/
structure CopyCommand where
  srcBuffer : Handle
  dstBuffer : Handle
  region : VkBufferCopy
  deriving DecidableEq, Repr

/-- The device as seen by the upload: the buffers created so far (handle `h` is the buffer at
position `h - 1`, and is also the handle of its memory), the copy commands recorded in command
buffers, the copy commands submitted to the queue and not yet executed, the calls made, and the
command buffers in the recording state. The copy commands of a submission are executed when a
wait for the idle queue succeeds, not before. -/
structure Gpu where
  buffers : List BufferObject
  recorded : List (Handle × CopyCommand)
  pending : List CopyCommand
  log : List GpuCall
  recording : List Handle
  deriving DecidableEq, Repr

def Gpu.empty : Gpu := ⟨[], [], [], [], []⟩

/-- The buffer a handle denotes. -/
def lookupBuffer (buffers : List BufferObject) (h : Handle) : Option BufferObject :=
  if h = VK_NULL_HANDLE then none else buffers[h - 1]?

/-- The handle names a buffer that exists, is not destroyed and has memory bound to it: the
condition under which Vulkan allows a copy command to name it. -/
def Gpu.usable (gpu : Gpu) (h : Handle) : Bool :=
  match lookupBuffer gpu.buffers h with
  | some b => !b.destroyed && b.bound
  | none => false

/-- Execution of one copy command by the GPU: `size` bytes from `srcOffset` of the source
replace the bytes from `dstOffset` of the destination. A copy that names a missing or destroyed
buffer changes nothing. -/
def execCopy (buffers : List BufferObject) (c : CopyCommand) : List BufferObject :=
  match lookupBuffer buffers c.srcBuffer, lookupBuffer buffers c.dstBuffer with
  | some src, some dst =>
    if src.destroyed ∨ dst.destroyed then buffers
    else buffers.set (c.dstBuffer - 1)
      { dst with contents :=
          dst.contents.take c.region.dstOffset ++
          (src.contents.drop c.region.srcOffset).take c.region.size ++
          dst.contents.drop (c.region.dstOffset + c.region.size) }
  | _, _ => buffers

/-- Embedding of the loop of `VulkanApp::findMemoryType` over the memory-type table (the
property flags of each type), `i` being the loop index. The shift `1 << i` is the one of the
code for `i < 32`, the bound of `memoryTypeCount`. -/
def findMemoryType.loop (typeFilter properties : Nat) : List Nat → Nat → Except String Nat
  | [], _ => .error "Failed to find suitable memory type"
  | propertyFlags :: rest, i =>
    if typeFilter &&& (1 <<< i) ≠ 0 ∧ propertyFlags &&& properties = properties then .ok i
    else findMemoryType.loop typeFilter properties rest (i + 1)

/-- Embedding of `VulkanApp::findMemoryType`; `memoryTypes` is the table reported by
`vkGetPhysicalDeviceMemoryProperties`. -/
def findMemoryType (memoryTypes : List Nat) (typeFilter properties : Nat) : Except String Nat :=
  findMemoryType.loop typeFilter properties memoryTypes 0

/-- What the driver returns to one `createBuffer` call: the result of `vkCreateBuffer`, the
`memoryTypeBits` of the memory requirements, the result of `vkAllocateMemory`, and the result
of `vkBindBufferMemory`, which the code discards. -/
structure CreateBufferDriver where
  createBuffer : VkResult
  memoryTypeBits : Nat
  allocateMemory : VkResult
  bindBufferMemory : VkResult
  deriving DecidableEq, Repr

/-- What the driver returns during one upload: the memory-type table, the results of the two
`createBuffer` calls, the command buffer allocated by `beginSingleTimeCommands`, and the
results of `vkMapMemory`, `vkAllocateCommandBuffers`, `vkBeginCommandBuffer`,
`vkEndCommandBuffer`, `vkQueueSubmit` and `vkQueueWaitIdle`, all of which the code discards. -/
structure UploadDriver where
  memoryTypes : List Nat
  staging : CreateBufferDriver
  mapMemory : VkResult
  destination : CreateBufferDriver
  allocateCommandBuffers : VkResult
  commandBuffer : Handle
  beginCommandBuffer : VkResult
  endCommandBuffer : VkResult
  queueSubmit : VkResult
  queueWaitIdle : VkResult
  deriving DecidableEq, Repr

/-- Embedding of `VulkanApp::createBuffer`: the new buffer handle (also the handle of its
memory), or the message of the exception thrown. The result of `vkBindBufferMemory` is not
looked at: when the binding fails the function returns a buffer without memory bound. -/
def createBuffer (s : FrameState) (memoryTypes : List Nat) (gpu : Gpu) (d : CreateBufferDriver)
    (size usage properties : Nat) : Except String (Gpu × Handle) :=
  let buffer : Handle := gpu.buffers.length + 1
  if d.createBuffer ≠ VK_SUCCESS then .error "Failed to create buffer"
  else
    match findMemoryType memoryTypes d.memoryTypeBits properties with
    | .error e => .error e
    | .ok memoryTypeIndex =>
      if d.allocateMemory ≠ VK_SUCCESS then .error "Failed to allocate buffer memory"
      else
        .ok ({ gpu with
                buffers := gpu.buffers ++
                  [⟨size, usage, memoryTypeIndex, List.replicate size 0, false,
                    decide (d.bindBufferMemory = VK_SUCCESS)⟩]
                log := gpu.log ++
                  [.vkCreateBuffer s.m_device size usage buffer,
                   .vkAllocateMemory s.m_device memoryTypeIndex buffer,
                   .vkBindBufferMemory s.m_device buffer buffer 0] }, buffer)

/-- The calls `vkMapMemory(memory, 0, size)`, `memcpy(data, src, size)`, `vkUnmapMemory`, with
the result `mapMemory` of the first, which the code discards. When the mapping succeeds the
first `size` bytes of the memory become the first `size` bytes of `src`. When it fails the
pointer `data` is left uninitialised and the `memcpy` through it is undefined behaviour. -/
def Gpu.mapCopyUnmap (gpu : Gpu) (device memory : Handle) (mapMemory : VkResult)
    (src : List Byte) (size : Nat) : Except Failure Gpu :=
  if mapMemory ≠ VK_SUCCESS then .error .undefinedBehaviour
  else
    .ok { gpu with
      buffers :=
        match lookupBuffer gpu.buffers memory with
        | some b => gpu.buffers.set (memory - 1)
            { b with contents := src.take size ++ b.contents.drop size }
        | none => gpu.buffers
      log := gpu.log ++
        [.vkMapMemory device memory 0 size, .memcpy memory src size,
         .vkUnmapMemory device memory] }

/-- Embedding of `VulkanApp::beginSingleTimeCommands`; both results are discarded by the code.
A failed `vkAllocateCommandBuffers` leaves no valid handle in `cmd`, and the call of
`vkBeginCommandBuffer` on it is undefined. A failed `vkBeginCommandBuffer` returns `cmd`
without putting it in the recording state. -/
def beginSingleTimeCommands (s : FrameState) (gpu : Gpu) (d : UploadDriver) :
    Except Failure (Gpu × Handle) :=
  let cmd := d.commandBuffer
  if d.allocateCommandBuffers ≠ VK_SUCCESS then .error .undefinedBehaviour
  else
    .ok ({ gpu with
            log := gpu.log ++
              [.vkAllocateCommandBuffers s.m_device s.m_commandPool [cmd],
               .vkBeginCommandBuffer cmd]
            recording :=
              if d.beginCommandBuffer = VK_SUCCESS then cmd :: gpu.recording
              else gpu.recording }, cmd)

/-- The call `vkCmdCopyBuffer`: one copy command per region is recorded in `cmd`. Vulkan
defines the call only for a command buffer in the recording state and buffers with memory
bound. -/
def Gpu.cmdCopyBuffer (gpu : Gpu) (cmd srcBuffer dstBuffer : Handle)
    (regions : List VkBufferCopy) : Except Failure Gpu :=
  if cmd ∈ gpu.recording ∧ gpu.usable srcBuffer = true ∧ gpu.usable dstBuffer = true then
    .ok { gpu with
      recorded := gpu.recorded ++ regions.map (fun r => (cmd, ⟨srcBuffer, dstBuffer, r⟩))
      log := gpu.log ++ [.vkCmdCopyBuffer cmd srcBuffer dstBuffer regions] }
  else .error .undefinedBehaviour

/-- Embedding of `VulkanApp::endSingleTimeCommands`: end recording, submit `cmd` without fence
or semaphores, wait until the queue is idle, free `cmd`; the three results are discarded by
the code. Vulkan defines `vkEndCommandBuffer` only for a recording command buffer, and
`vkQueueSubmit` only for one whose recording ended successfully. A failed `vkQueueSubmit`
submits nothing and leaves the buffers as they are. A successful `vkQueueWaitIdle` returns
after the pending copies have executed, in order; after a failed one they are still pending. -/
def endSingleTimeCommands (s : FrameState) (gpu : Gpu) (d : UploadDriver) (cmd : Handle) :
    Except Failure Gpu :=
  if cmd ∉ gpu.recording then .error .undefinedBehaviour
  else if d.endCommandBuffer ≠ VK_SUCCESS then .error .undefinedBehaviour
  else
    let submitted :=
      if d.queueSubmit = VK_SUCCESS then
        gpu.pending ++ (gpu.recorded.filter (fun rc => rc.1 == cmd)).map Prod.snd
      else gpu.pending
    .ok { buffers :=
            if d.queueWaitIdle = VK_SUCCESS then submitted.foldl execCopy gpu.buffers
            else gpu.buffers
          recorded := gpu.recorded.filter (fun rc => rc.1 != cmd)
          pending := if d.queueWaitIdle = VK_SUCCESS then [] else submitted
          log := gpu.log ++
            [.vkEndCommandBuffer cmd,
             .vkQueueSubmit s.m_graphicsQueue [] [] [cmd] [] VK_NULL_HANDLE,
             .vkQueueWaitIdle s.m_graphicsQueue,
             .vkFreeCommandBuffers s.m_device s.m_commandPool [cmd]]
          recording := gpu.recording.filter (fun c => c != cmd) }

/-- The calls `vkDestroyBuffer(buffer)` and `vkFreeMemory(memory)` on a buffer and its memory. -/
def Gpu.destroyBufferAndMemory (gpu : Gpu) (device buffer : Handle) : Gpu :=
  { gpu with
    buffers :=
      match lookupBuffer gpu.buffers buffer with
      | some b => gpu.buffers.set (buffer - 1) { b with contents := [], destroyed := true }
      | none => gpu.buffers
    log := gpu.log ++ [.vkDestroyBuffer device buffer, .vkFreeMemory device buffer] }

/-- The body shared, word for word, by `createVertexBuffer` and `createIndexBuffer`: `src` are
the bytes behind the source pointer, `bufferSize` the computed size and `usage` the usage bit
joined with the transfer-destination bit. The result is the destination buffer. -/
def uploadBuffer (s : FrameState) (gpu : Gpu) (d : UploadDriver) (src : List Byte)
    (bufferSize usage : Nat) : Except Failure (Gpu × Handle) :=
  match createBuffer s d.memoryTypes gpu d.staging bufferSize VK_BUFFER_USAGE_TRANSFER_SRC_BIT
      (VK_MEMORY_PROPERTY_HOST_VISIBLE_BIT ||| VK_MEMORY_PROPERTY_HOST_COHERENT_BIT) with
  | .error e => .error (.threw e)
  | .ok (gpu1, stagingBuffer) =>
    match gpu1.mapCopyUnmap s.m_device stagingBuffer d.mapMemory src bufferSize with
    | .error f => .error f
    | .ok gpu2 =>
      match createBuffer s d.memoryTypes gpu2 d.destination bufferSize
          (VK_BUFFER_USAGE_TRANSFER_DST_BIT ||| usage) VK_MEMORY_PROPERTY_DEVICE_LOCAL_BIT with
      | .error e => .error (.threw e)
      | .ok (gpu3, buffer) =>
        match beginSingleTimeCommands s gpu3 d with
        | .error f => .error f
        | .ok (gpu4, cmd) =>
          match gpu4.cmdCopyBuffer cmd stagingBuffer buffer [⟨0, 0, bufferSize⟩] with
          | .error f => .error f
          | .ok gpu5 =>
            match endSingleTimeCommands s gpu5 d cmd with
            | .error f => .error f
            | .ok gpu6 => .ok (gpu6.destroyBufferAndMemory s.m_device stagingBuffer, buffer)

/-- Embedding of `VulkanApp::createVertexBuffer`. -/
def createVertexBuffer (s : FrameState) (gpu : Gpu) (d : UploadDriver) :
    Except Failure (FrameState × Gpu) :=
  let bufferSize := sizeofVulkanVertex * s.m_vertices.length
  match uploadBuffer s gpu d (vertexBytes s.m_vertices) bufferSize
      VK_BUFFER_USAGE_VERTEX_BUFFER_BIT with
  | .error e => .error e
  | .ok (gpu1, buffer) =>
    .ok ({ s with m_vertexBuffer := buffer, m_vertexBufferMemory := buffer }, gpu1)

/-- Embedding of `VulkanApp::createIndexBuffer`. -/
def createIndexBuffer (s : FrameState) (gpu : Gpu) (d : UploadDriver) :
    Except Failure (FrameState × Gpu) :=
  let bufferSize := sizeofUint32 * s.m_indices.length
  match uploadBuffer s gpu d (indexBytes s.m_indices) bufferSize
      VK_BUFFER_USAGE_INDEX_BUFFER_BIT with
  | .error e => .error e
  | .ok (gpu1, buffer) =>
    .ok ({ s with m_indexBuffer := buffer, m_indexBufferMemory := buffer }, gpu1)

/-- The calls of one upload, in order: create the staging buffer and its memory, map it, copy
the source bytes, unmap; create the destination buffer and its memory; allocate and begin a
command buffer, record the one copy region `(0, 0, bufferSize)`, end, submit, wait until the
queue is idle, free the command buffer; destroy the staging buffer and free its memory. -/
def uploadCalls (s : FrameState) (stagingBuffer buffer : Handle)
    (stagingType destinationType : Nat) (cmd : Handle) (src : List Byte)
    (bufferSize usage : Nat) : List GpuCall :=
  [.vkCreateBuffer s.m_device bufferSize VK_BUFFER_USAGE_TRANSFER_SRC_BIT stagingBuffer,
   .vkAllocateMemory s.m_device stagingType stagingBuffer,
   .vkBindBufferMemory s.m_device stagingBuffer stagingBuffer 0,
   .vkMapMemory s.m_device stagingBuffer 0 bufferSize,
   .memcpy stagingBuffer src bufferSize,
   .vkUnmapMemory s.m_device stagingBuffer,
   .vkCreateBuffer s.m_device bufferSize (VK_BUFFER_USAGE_TRANSFER_DST_BIT ||| usage) buffer,
   .vkAllocateMemory s.m_device destinationType buffer,
   .vkBindBufferMemory s.m_device buffer buffer 0,
   .vkAllocateCommandBuffers s.m_device s.m_commandPool [cmd],
   .vkBeginCommandBuffer cmd,
   .vkCmdCopyBuffer cmd stagingBuffer buffer [⟨0, 0, bufferSize⟩],
   .vkEndCommandBuffer cmd,
   .vkQueueSubmit s.m_graphicsQueue [] [] [cmd] [] VK_NULL_HANDLE,
   .vkQueueWaitIdle s.m_graphicsQueue,
   .vkFreeCommandBuffers s.m_device s.m_commandPool [cmd],
   .vkDestroyBuffer s.m_device stagingBuffer,
   .vkFreeMemory s.m_device stagingBuffer]

/-- A driver for which every call of an upload succeeds: memory type 0 is device local,
type 1 is host visible and coherent, both buffers accept both types. -/
def successUpload (cmd : Handle) : UploadDriver :=
  { memoryTypes := [VK_MEMORY_PROPERTY_DEVICE_LOCAL_BIT,
      VK_MEMORY_PROPERTY_HOST_VISIBLE_BIT ||| VK_MEMORY_PROPERTY_HOST_COHERENT_BIT]
    staging := ⟨VK_SUCCESS, 3, VK_SUCCESS, VK_SUCCESS⟩
    mapMemory := VK_SUCCESS
    destination := ⟨VK_SUCCESS, 3, VK_SUCCESS, VK_SUCCESS⟩
    allocateCommandBuffers := VK_SUCCESS
    commandBuffer := cmd
    beginCommandBuffer := VK_SUCCESS
    endCommandBuffer := VK_SUCCESS
    queueSubmit := VK_SUCCESS
    queueWaitIdle := VK_SUCCESS }

/-- Every Vulkan call of the upload returns `VK_SUCCESS`, the discarded results included. -/
def UploadDriver.AllSucceed (d : UploadDriver) : Prop :=
  d.staging.createBuffer = VK_SUCCESS ∧ d.staging.allocateMemory = VK_SUCCESS ∧
  d.staging.bindBufferMemory = VK_SUCCESS ∧ d.mapMemory = VK_SUCCESS ∧
  d.destination.createBuffer = VK_SUCCESS ∧ d.destination.allocateMemory = VK_SUCCESS ∧
  d.destination.bindBufferMemory = VK_SUCCESS ∧ d.allocateCommandBuffers = VK_SUCCESS ∧
  d.beginCommandBuffer = VK_SUCCESS ∧ d.endCommandBuffer = VK_SUCCESS ∧
  d.queueSubmit = VK_SUCCESS ∧ d.queueWaitIdle = VK_SUCCESS

/-! ## Synchronisation objects (`VulkanApp.cpp` lines 861-880) and the fence model -/

def VK_FENCE_CREATE_SIGNALED_BIT : Nat := 1

/-- The call `std::vector::resize(n)` on a vector of handles: the first `n` elements are kept
and new elements are value-initialised (null handles). -/
def resize (v : List Handle) (n : Nat) : List Handle :=
  v.take n ++ List.replicate (n - v.length) VK_NULL_HANDLE

/-- What the driver returns to the creation calls of `createSyncObjects`, per loop index: the
`VkResult` and the handle written on success. -/
structure SyncDriver where
  createImageAvailable : Nat → VkResult
  imageAvailable : Nat → Handle
  createRenderFinished : Nat → VkResult
  renderFinished : Nat → Handle
  createFence : Nat → VkResult
  fence : Nat → Handle

/-- The loop of `createSyncObjects`: `k` iterations remain, `i` is the loop index. The three
creation calls are joined by `||`, so a failing call ends the iteration at once. Every fence is
created with `VK_FENCE_CREATE_SIGNALED_BIT`. -/
def createSyncObjects.loop (d : SyncDriver) : Nat → Nat → FrameState → List GpuCall → DrawResult
  | 0, _, s, calls => ⟨s, calls, .completed⟩
  | k + 1, i, s, calls =>
    let calls1 := calls ++ [.vkCreateSemaphore s.m_device (d.imageAvailable i)]
    if d.createImageAvailable i ≠ VK_SUCCESS then
      ⟨s, calls1, .threw "Failed to create sync objects"⟩
    else
      let s1 := { s with m_imageAvailableSemaphores :=
        s.m_imageAvailableSemaphores.set i (d.imageAvailable i) }
      let calls2 := calls1 ++ [.vkCreateSemaphore s.m_device (d.renderFinished i)]
      if d.createRenderFinished i ≠ VK_SUCCESS then
        ⟨s1, calls2, .threw "Failed to create sync objects"⟩
      else
        let s2 := { s1 with m_renderFinishedSemaphores :=
          s1.m_renderFinishedSemaphores.set i (d.renderFinished i) }
        let calls3 := calls2 ++
          [.vkCreateFence s.m_device VK_FENCE_CREATE_SIGNALED_BIT (d.fence i)]
        if d.createFence i ≠ VK_SUCCESS then
          ⟨s2, calls3, .threw "Failed to create sync objects"⟩
        else
          let s3 := { s2 with m_inFlightFences := s2.m_inFlightFences.set i (d.fence i) }
          createSyncObjects.loop d k (i + 1) s3 calls3

/-- Embedding of `VulkanApp::createSyncObjects`. -/
def createSyncObjects (s : FrameState) (d : SyncDriver) : DrawResult :=
  createSyncObjects.loop d MAX_FRAMES_IN_FLIGHT 0
    { s with
      m_imageAvailableSemaphores := resize s.m_imageAvailableSemaphores MAX_FRAMES_IN_FLIGHT
      m_renderFinishedSemaphores := resize s.m_renderFinishedSemaphores MAX_FRAMES_IN_FLIGHT
      m_inFlightFences := resize s.m_inFlightFences MAX_FRAMES_IN_FLIGHT } []

/-- A queue submission the GPU has not completed: its command buffers and the fence it signals
on completion. -/
structure Submission where
  commandBuffers : List Handle
  fence : Handle
  deriving DecidableEq, Repr

/-- The GPU side of the fence protocol: the fences that are signaled and the submissions that
are outstanding (submitted, not completed). -/
structure GpuSync where
  signaled : List Handle
  outstanding : List Submission
  deriving DecidableEq, Repr

/-- The effect of one call of the CPU on the fence model. A fence created with the signaled bit
starts signaled; a wait (all fences, timeout `UINT64_MAX`) returns only when its fences are
signaled, so it is `none` (the CPU blocks) otherwise; a reset unsignals; a submit adds an
outstanding submission. Other calls leave the model unchanged. -/
def GpuSync.exec (g : GpuSync) : GpuCall → Option GpuSync
  | .vkCreateFence _ flags fence =>
    some (if flags &&& VK_FENCE_CREATE_SIGNALED_BIT ≠ 0 then
      { g with signaled := fence :: g.signaled } else g)
  | .vkWaitForFences _ fences _ _ =>
    if fences.all (fun f => decide (f ∈ g.signaled)) then some g else none
  | .vkResetFences _ fences =>
    some { g with signaled := g.signaled.filter (fun f => decide (f ∉ fences)) }
  | .vkQueueSubmit _ _ _ commandBuffers _ fence =>
    some { g with outstanding := g.outstanding ++ [⟨commandBuffers, fence⟩] }
  | _ => some g

/-- The effect of a sequence of calls, in order. -/
def GpuSync.execAll (g : GpuSync) : List GpuCall → Option GpuSync
  | [] => some g
  | c :: rest => (g.exec c).bind (fun g1 => g1.execAll rest)

/-- The GPU completes the outstanding submission at position `k`: it leaves the outstanding
list and its fence becomes signaled. -/
def GpuSync.complete (g : GpuSync) (k : Nat) : Option GpuSync :=
  match g.outstanding[k]? with
  | none => none
  | some sub => some { signaled := sub.fence :: g.signaled,
                       outstanding := g.outstanding.eraseIdx k }

/-- The frame loop together with the GPU: the members, the fence model, the number of completed
`drawFrame` iterations and the image index acquired by the latest one. -/
structure Sys where
  app : FrameState
  gpu : GpuSync
  frames : Nat
  lastImage : Option Nat
  deriving DecidableEq, Repr

/-- The steps of the system: a `drawFrame` iteration with what the driver returns to it, or
the completion of an outstanding submission by the GPU. -/
inductive Event where
  | frame (driver : FrameDriver)
  | gpuComplete (k : Nat)
  deriving DecidableEq, Repr

/-- One step. A `drawFrame` iteration is a step when it completes and its wait returns (its
calls act on the fence model in order); an iteration that throws ends the program. A completion
is a step when submission `k` is outstanding. -/
def Sys.step (st : Sys) : Event → Option Sys
  | .frame driver =>
    let r := drawFrame st.app driver
    if r.outcome = .completed then
      (st.gpu.execAll r.calls).map (fun g => ⟨r.state, g, st.frames + 1, some driver.imageIndex⟩)
    else none
  | .gpuComplete k => (st.gpu.complete k).map (fun g => { st with gpu := g })

/-- A sequence of steps; `none` when one of them is not possible. -/
def Sys.run (st : Sys) : List Event → Option Sys
  | [] => some st
  | e :: rest => (st.step e).bind (fun st1 => st1.run rest)

/-- The system when the frame loop starts: every in-flight fence is in the signaled state it
was created in, nothing is outstanding, no iteration has run. -/
def Sys.init (s : FrameState) : Sys :=
  ⟨s, ⟨s.m_inFlightFences, []⟩, 0, none⟩

/-- A `drawFrame` iteration started in `st` resets a command buffer that belongs to a
submission outstanding when the iteration starts. No call made before the reset changes the
outstanding list, so the submission is outstanding at the reset unless the GPU completes it in
between. -/
def Sys.hazard (st : Sys) (driver : FrameDriver) : Bool :=
  (drawFrame st.app driver).calls.any fun c =>
    match c with
    | .vkResetCommandBuffer cmd _ =>
      st.gpu.outstanding.any (fun sub => decide (cmd ∈ sub.commandBuffers))
    | _ => false

/-! ## Initialisation (`VulkanApp.cpp` lines 165-212, 327-450, 454-691, 845-857) -/

/-- The members `WIDTH` and `HEIGHT` of `VulkanApp.h`. -/
def WIDTH : Int := 1280
def HEIGHT : Int := 720

/-- What the driver and the file system return during `initVulkan`: the `VkResult` of each
creation call and the handle it writes, the enumerated devices, the images of the swapchain,
whether each shader file opens, and the records of the two uploads and of the synchronisation
objects. Calls made in a loop are indexed by the loop counter. -/
structure InitDriver where
  createInstance : VkResult
  instanceHandle : Handle
  createWindowSurface : VkResult
  surface : Handle
  devices : List PhysicalDevice
  createDevice : VkResult
  device : Handle
  graphicsQueue : Handle
  presentQueue : Handle
  createSwapchain : VkResult
  swapchain : Handle
  swapchainImages : List Handle
  createImageView : Nat → VkResult
  imageView : Nat → Handle
  createRenderPass : VkResult
  renderPass : Handle
  vertShaderOpens : Bool
  fragShaderOpens : Bool
  createVertShaderModule : VkResult
  createFragShaderModule : VkResult
  createPipelineLayout : VkResult
  pipelineLayout : Handle
  createGraphicsPipelines : VkResult
  graphicsPipeline : Handle
  createFramebuffer : Nat → VkResult
  framebuffer : Nat → Handle
  createCommandPool : VkResult
  commandPool : Handle
  vertexUpload : UploadDriver
  indexUpload : UploadDriver
  allocateCommandBuffers : VkResult
  commandBuffer : Nat → Handle
  sync : SyncDriver

/-- Embedding of `VulkanApp::createInstance`. -/
def createInstance (s : FrameState) (d : InitDriver) : Except Failure FrameState :=
  if d.createInstance ≠ VK_SUCCESS then .error (.threw "Failed to create Vulkan instance")
  else .ok { s with m_instance := d.instanceHandle }

/-- Embedding of `VulkanApp::createSurface`. -/
def createSurface (s : FrameState) (d : InitDriver) : Except Failure FrameState :=
  if d.createWindowSurface ≠ VK_SUCCESS then .error (.threw "Failed to create window surface")
  else .ok { s with m_surface := d.surface }

/-- The call of `pickPhysicalDevice` in `initVulkan`, storing the device in `m_physicalDevice`. -/
def initVulkan.pickStep (s : FrameState) (d : InitDriver) : Except Failure FrameState :=
  match pickPhysicalDevice d.devices with
  | .error e => .error (.threw e)
  | .ok dev => .ok { s with m_physicalDevice := some dev }

/-- Embedding of `VulkanApp::createLogicalDevice`. -/
def createLogicalDevice (s : FrameState) (d : InitDriver) : Except Failure FrameState :=
  match s.m_physicalDevice with
  | none => .error .undefinedBehaviour
  | some dev =>
    let indices := findQueueFamilies dev
    match indices.graphicsFamily, indices.presentFamily with
    | some _, some _ =>
      if d.createDevice ≠ VK_SUCCESS then .error (.threw "Failed to create logical device")
      else .ok { s with m_device := d.device, m_graphicsQueue := d.graphicsQueue,
                        m_presentQueue := d.presentQueue }
    | _, _ => .error (.threw "bad optional access")

/-- The selection at the start of `VulkanApp::createSwapchain` (lines 369-379): surface format,
present mode, extent and image count chosen from the swapchain support of the device. -/
def createSwapchain.selection (sc : SwapChainSupportDetails) :
    Except Failure (VkSurfaceFormatKHR × VkPresentModeKHR × VkExtent2D × Nat) :=
  match chooseSwapSurfaceFormat sc.formats with
  | none => .error .undefinedBehaviour
  | some surfaceFormat =>
    .ok (surfaceFormat, chooseSwapPresentMode sc.presentModes,
      chooseSwapExtent WIDTH HEIGHT sc.capabilities, createSwapchain.imageCount sc.capabilities)

/-- Embedding of `VulkanApp::createSwapchain`: the members it writes. `m_swapchainImages` is
resized to the count reported by `vkGetSwapchainImagesKHR` and filled with the images. -/
def createSwapchain (s : FrameState) (d : InitDriver) : Except Failure FrameState :=
  match s.m_physicalDevice with
  | none => .error .undefinedBehaviour
  | some dev =>
    match createSwapchain.selection (querySwapChainSupport dev) with
    | .error e => .error e
    | .ok (surfaceFormat, _, extent, _) =>
      let indices := findQueueFamilies dev
      match indices.graphicsFamily, indices.presentFamily with
      | some _, some _ =>
        if d.createSwapchain ≠ VK_SUCCESS then .error (.threw "Failed to create swapchain")
        else .ok { s with m_swapchain := d.swapchain, m_swapchainImages := d.swapchainImages,
                          m_swapchainImageFormat := surfaceFormat.format,
                          m_swapchainExtent := extent }
      | _, _ => .error (.threw "bad optional access")

/-- A creation loop over a vector of handles: `k` iterations remain, `i` is the loop index;
entry `i` receives the handle the driver writes, and a failing creation throws `message`. -/
def createLoop (result : Nat → VkResult) (handle : Nat → Handle) (message : String) :
    Nat → Nat → List Handle → Except Failure (List Handle)
  | 0, _, v => .ok v
  | k + 1, i, v =>
    if result i ≠ VK_SUCCESS then .error (.threw message)
    else createLoop result handle message k (i + 1) (v.set i (handle i))

/-- Embedding of `VulkanApp::createImageViews`. -/
def createImageViews (s : FrameState) (d : InitDriver) : Except Failure FrameState :=
  match createLoop d.createImageView d.imageView "Failed to create image view"
      s.m_swapchainImages.length 0 (resize s.m_swapchainImageViews s.m_swapchainImages.length) with
  | .error e => .error e
  | .ok views => .ok { s with m_swapchainImageViews := views }

/-- Embedding of `VulkanApp::createRenderPass`. -/
def createRenderPass (s : FrameState) (d : InitDriver) : Except Failure FrameState :=
  if d.createRenderPass ≠ VK_SUCCESS then .error (.threw "Failed to create render pass")
  else .ok { s with m_renderPass := d.renderPass }

/-- Embedding of `VulkanApp::createGraphicsPipeline`: the failures of `readFile`,
`createShaderModule` and the two creation calls, and the members written. -/
def createGraphicsPipeline (s : FrameState) (d : InitDriver) : Except Failure FrameState :=
  if !d.vertShaderOpens then .error (.threw "Failed to open file: shaders/basic.vert.spv")
  else if !d.fragShaderOpens then .error (.threw "Failed to open file: shaders/basic.frag.spv")
  else if d.createVertShaderModule ≠ VK_SUCCESS then
    .error (.threw "Failed to create shader module")
  else if d.createFragShaderModule ≠ VK_SUCCESS then
    .error (.threw "Failed to create shader module")
  else if d.createPipelineLayout ≠ VK_SUCCESS then
    .error (.threw "Failed to create pipeline layout")
  else if d.createGraphicsPipelines ≠ VK_SUCCESS then
    .error (.threw "Failed to create graphics pipeline")
  else .ok { s with m_pipelineLayout := d.pipelineLayout,
                    m_graphicsPipeline := d.graphicsPipeline }

/-- Embedding of `VulkanApp::createFramebuffers`. -/
def createFramebuffers (s : FrameState) (d : InitDriver) : Except Failure FrameState :=
  match createLoop d.createFramebuffer d.framebuffer "Failed to create framebuffer"
      s.m_swapchainImageViews.length 0
      (resize s.m_swapchainFramebuffers s.m_swapchainImageViews.length) with
  | .error e => .error e
  | .ok framebuffers => .ok { s with m_swapchainFramebuffers := framebuffers }

/-- Embedding of `VulkanApp::createCommandPool`. -/
def createCommandPool (s : FrameState) (d : InitDriver) : Except Failure FrameState :=
  match s.m_physicalDevice with
  | none => .error .undefinedBehaviour
  | some dev =>
    match (findQueueFamilies dev).graphicsFamily with
    | none => .error (.threw "bad optional access")
    | some _ =>
      if d.createCommandPool ≠ VK_SUCCESS then .error (.threw "Failed to create command pool")
      else .ok { s with m_commandPool := d.commandPool }

/-- Embedding of `VulkanApp::createCommandBuffers`: the vector is resized to the number of
framebuffers and one allocation call fills all of it. -/
def createCommandBuffers (s : FrameState) (d : InitDriver) : Except Failure FrameState :=
  let n := s.m_swapchainFramebuffers.length
  if d.allocateCommandBuffers ≠ VK_SUCCESS then
    .error (.threw "Failed to allocate command buffers")
  else .ok { s with m_commandBuffers := (List.range n).map d.commandBuffer }

/-- The call of `createSyncObjects` in `initVulkan`. -/
def initVulkan.syncStep (s : FrameState) (d : InitDriver) : Except Failure FrameState :=
  match (createSyncObjects s d.sync).outcome with
  | .completed => .ok (createSyncObjects s d.sync).state
  | .threw message => .error (.threw message)
  | .outOfBounds => .error .undefinedBehaviour

/-- Embedding of `VulkanApp::initVulkan`: the fourteen steps in order, the first failure ending
the initialisation. -/
def initVulkan (s : FrameState) (gpu : Gpu) (d : InitDriver) : Except Failure (FrameState × Gpu) :=
  createInstance s d >>= fun s1 =>
  createSurface s1 d >>= fun s2 =>
  initVulkan.pickStep s2 d >>= fun s3 =>
  createLogicalDevice s3 d >>= fun s4 =>
  createSwapchain s4 d >>= fun s5 =>
  createImageViews s5 d >>= fun s6 =>
  createRenderPass s6 d >>= fun s7 =>
  createGraphicsPipeline s7 d >>= fun s8 =>
  createFramebuffers s8 d >>= fun s9 =>
  createCommandPool s9 d >>= fun s10 =>
  createVertexBuffer s10 gpu d.vertexUpload >>= fun (s11, gpu1) =>
  createIndexBuffer s11 gpu1 d.indexUpload >>= fun (s12, gpu2) =>
  createCommandBuffers s12 d >>= fun s13 =>
  initVulkan.syncStep s13 d >>= fun s14 =>
  pure (s14, gpu2)

/-- A device with one queue family that supports graphics and presentation, one surface
format, FIFO and MAILBOX, and the swapchain extension. -/
def exampleDevice : PhysicalDevice :=
  ⟨100, [⟨1, true⟩],
    ⟨⟨2, 8, ⟨1280, 720⟩, ⟨1, 1⟩, ⟨4096, 4096⟩⟩, [⟨VK_FORMAT_B8G8R8A8_SRGB, 0⟩], [2, 1]⟩,
    ["VK_KHR_swapchain"]⟩

/-- A driver for which every call of `initVulkan` succeeds, the swapchain having the given
images. -/
def successInit (images : List Handle) : InitDriver :=
  { createInstance := VK_SUCCESS, instanceHandle := 11, createWindowSurface := VK_SUCCESS,
    surface := 12, devices := [exampleDevice], createDevice := VK_SUCCESS, device := 1,
    graphicsQueue := 7, presentQueue := 8, createSwapchain := VK_SUCCESS, swapchain := 2,
    swapchainImages := images, createImageView := fun _ => VK_SUCCESS,
    imageView := fun i => 25 + i, createRenderPass := VK_SUCCESS, renderPass := 4,
    vertShaderOpens := true, fragShaderOpens := true, createVertShaderModule := VK_SUCCESS,
    createFragShaderModule := VK_SUCCESS, createPipelineLayout := VK_SUCCESS,
    pipelineLayout := 5, createGraphicsPipelines := VK_SUCCESS, graphicsPipeline := 6,
    createFramebuffer := fun _ => VK_SUCCESS, framebuffer := fun i => 30 + i,
    createCommandPool := VK_SUCCESS, commandPool := 13,
    vertexUpload := successUpload 90, indexUpload := successUpload 91,
    allocateCommandBuffers := VK_SUCCESS, commandBuffer := fun i => 40 + i,
    sync := ⟨fun _ => VK_SUCCESS, fun i => 50 + i, fun _ => VK_SUCCESS, fun i => 60 + i,
      fun _ => VK_SUCCESS, fun i => 70 + i⟩ }

/-- The four vectors of the length invariant. -/
def FrameState.vectors (s : FrameState) :
    List Handle × List Handle × List Handle × List Handle :=
  (s.m_swapchainImages, s.m_swapchainImageViews, s.m_swapchainFramebuffers, s.m_commandBuffers)

/-- The invariant of the fence protocol: the outstanding submissions have pairwise different
fences, each of them an in-flight fence of the application that is not signaled. -/
def Sys.FenceInv (st : Sys) : Prop :=
  (st.gpu.outstanding.map Submission.fence).Nodup ∧
  (∀ sub ∈ st.gpu.outstanding, sub.fence ∈ st.app.m_inFlightFences) ∧
  (∀ sub ∈ st.gpu.outstanding, sub.fence ∉ st.gpu.signaled)

/-- What the fence of the current slot leaves open: the slot index is below `N`, and an
outstanding submission whose fence is not the fence of the current slot was made by the latest
iteration, from the command buffer of the image index that iteration acquired. -/
def Sys.LastInv (st : Sys) : Prop :=
  st.app.m_currentFrame < MAX_FRAMES_IN_FLIGHT ∧
  ∀ sub ∈ st.gpu.outstanding,
    st.app.m_inFlightFences[st.app.m_currentFrame]? ≠ some sub.fence →
    ∃ (j : Nat) (cmd : Handle), st.lastImage = some j ∧
      st.app.m_commandBuffers[j]? = some cmd ∧ sub.commandBuffers = [cmd]

def GpuCall.isCreateFence : GpuCall → Bool
  | .vkCreateFence _ _ _ => true
  | _ => false

def GpuCall.isCreateSemaphore : GpuCall → Bool
  | .vkCreateSemaphore _ _ => true
  | _ => false

/-- While fewer than `N` iterations have run: the slot index is the number of iterations run,
the fence vector is `fences`, and the fence of every slot not yet used is signaled. -/
def Sys.FirstWaitInv (fences : List Handle) (st : Sys) : Prop :=
  st.app.m_inFlightFences = fences ∧
  st.app.m_currentFrame = st.frames % MAX_FRAMES_IN_FLIGHT ∧
  ∀ (j : Nat) (fence : Handle), st.frames ≤ j → fences[j]? = some fence →
    fence ∈ st.gpu.signaled

/-- A state as left by initialisation with three swapchain images: three framebuffers and
command buffers, two handles of each synchronisation kind, slot index 0, six indices. -/
def exampleState : FrameState :=
  { m_vertices := quadVertices, m_indices := quadIndices, m_instance := 11, m_surface := 12,
    m_physicalDevice := none, m_swapchainImages := [20, 21, 22],
    m_swapchainImageFormat := VK_FORMAT_B8G8R8A8_SRGB, m_swapchainImageViews := [25, 26, 27],
    m_commandPool := 13, m_vertexBufferMemory := 9, m_indexBufferMemory := 10,
    m_device := 1, m_swapchain := 2, m_swapchainExtent := ⟨1280, 720⟩,
    m_swapchainFramebuffers := [30, 31, 32], m_renderPass := 4, m_pipelineLayout := 5,
    m_graphicsPipeline := 6, m_graphicsQueue := 7, m_presentQueue := 8,
    m_commandBuffers := [40, 41, 42], m_imageAvailableSemaphores := [50, 51],
    m_renderFinishedSemaphores := [60, 61], m_inFlightFences := [70, 71],
    m_currentFrame := 0, m_vertexBuffer := 9, m_indexBuffer := 10, m_indexCount := 6 }

/-- A driver record in which every call succeeds and image `imageIndex` is acquired. -/
def successDriver (imageIndex : Nat) : FrameDriver :=
  { waitForFences := VK_SUCCESS, resetFences := VK_SUCCESS, acquireNextImage := VK_SUCCESS,
    imageIndex := imageIndex, resetCommandBuffer := VK_SUCCESS,
    beginCommandBuffer := VK_SUCCESS, endCommandBuffer := VK_SUCCESS,
    queueSubmit := VK_SUCCESS, queuePresent := VK_SUCCESS }

/-- The command-buffer handles a call is given. -/
def GpuCall.commandBuffers : GpuCall → List Handle
  | .vkResetCommandBuffer cmd _ => [cmd]
  | .vkBeginCommandBuffer cmd => [cmd]
  | .vkCmdBeginRenderPass cmd _ _ _ => [cmd]
  | .vkCmdBindPipeline cmd _ => [cmd]
  | .vkCmdPushConstants cmd _ _ _ _ => [cmd]
  | .vkCmdBindVertexBuffers cmd _ _ _ => [cmd]
  | .vkCmdBindIndexBuffer cmd _ _ _ => [cmd]
  | .vkCmdDrawIndexed cmd _ _ _ _ _ => [cmd]
  | .vkCmdEndRenderPass cmd => [cmd]
  | .vkEndCommandBuffer cmd => [cmd]
  | .vkQueueSubmit _ _ _ commandBuffers _ _ => commandBuffers
  | _ => []

/-- The framebuffer handles a call is given. -/
def GpuCall.framebuffers : GpuCall → List Handle
  | .vkCmdBeginRenderPass _ _ framebuffer _ => [framebuffer]
  | _ => []

/-- The swapchain image indices a call presents. -/
def GpuCall.presentedImages : GpuCall → List Nat
  | .vkQueuePresentKHR _ _ _ imageIndices => imageIndices
  | _ => []

def GpuCall.isDrawIndexed : GpuCall → Bool
  | .vkCmdDrawIndexed _ _ _ _ _ _ => true
  | _ => false

def GpuCall.isBeginRenderPass : GpuCall → Bool
  | .vkCmdBeginRenderPass _ _ _ _ => true
  | _ => false

def GpuCall.isEndRenderPass : GpuCall → Bool
  | .vkCmdEndRenderPass _ => true
  | _ => false

def GpuCall.isResetFences : GpuCall → Bool
  | .vkResetFences _ _ => true
  | _ => false

def GpuCall.isQueueSubmit : GpuCall → Bool
  | .vkQueueSubmit _ _ _ _ _ _ => true
  | _ => false

/-- The length invariant of the specification:
`images.length == views.length == framebuffers.length == commandBuffers.length`. -/
def FrameState.LengthInvariant (s : FrameState) : Prop :=
  s.m_swapchainImages.length = s.m_swapchainImageViews.length ∧
  s.m_swapchainImageViews.length = s.m_swapchainFramebuffers.length ∧
  s.m_swapchainFramebuffers.length = s.m_commandBuffers.length

/-! ## Predicates used to state the memory-type and queue-family contracts -/

/-- The memory type `i` of the table is acceptable for the request: bit `i` of `typeFilter` is
set and the property flags of type `i` contain every bit of `properties`. -/
def findMemoryType.Accepts (memoryTypes : List Nat) (typeFilter properties i : Nat) : Prop :=
  typeFilter.testBit i = true ∧
    ∃ propertyFlags : Nat, memoryTypes[i]? = some propertyFlags ∧
      propertyFlags &&& properties = properties

/-- The queue family supports graphics commands. -/
def QueueFamily.graphicsCapable (q : QueueFamily) : Prop :=
  q.queueFlags &&& VK_QUEUE_GRAPHICS_BIT ≠ 0

/-- The queue family can present to the application surface. -/
def QueueFamily.presentCapable (q : QueueFamily) : Prop :=
  q.presentSupport = true

/-- The input leaves the left button released: a scroll callback, or a poll whose button state
is not `GLFW_PRESS`. -/
def CameraInput.released {K : Type} : CameraInput K → Bool
  | .scroll _ _ => true
  | .poll _ _ left _ _ => !left

/-! ## Camera position and projection planes (`VulkanApp.cpp` lines 925-949) -/

/-- A `glm::vec3` over exact scalars. -/
structure Vec3 (K : Type) where
  x : K
  y : K
  z : K
  deriving DecidableEq, Repr

/-- The camera position computed in `drawFrame` (lines 926-935) from the members `m_yaw`,
`m_pitch`, `m_distance`; `cosf` and `sinf` are the library functions the code calls. -/
def drawFrame.camPos {K : Type} [Mul K] (cosf sinf : K → K) (m_yaw m_pitch m_distance : K) :
    Vec3 K :=
  let cp := cosf m_pitch
  let sp := sinf m_pitch
  let cy := cosf m_yaw
  let sy := sinf m_yaw
  ⟨m_distance * cp * sy, m_distance * sp, m_distance * cp * cy⟩

/-- The near plane passed to `glm::perspective` in `drawFrame` (line 947). -/
def drawFrame.zNear {K : Type} [LinearOrderedField K] : K := 0.01

/-- The far plane passed to `glm::perspective` in `drawFrame` (line 948). -/
def drawFrame.zFar {K : Type} [LinearOrderedField K] : K := 10.0

/-! ## Mesh normalisation (`MeshLoader.h` lines 7-15, `MeshUtils.h` lines 10-64) -/

/-- The struct `Vertex` of `MeshLoader.h`. -/
structure Vertex (K : Type) where
  pos : Vec3 K
  normal : Vec3 K
  deriving DecidableEq, Repr

/-- The struct `MeshData` of `MeshLoader.h`. -/
structure MeshData (K : Type) where
  vertices : List (Vertex K)
  indices : List Word32
  deriving DecidableEq, Repr

/-- The struct `MeshBounds` of `MeshUtils.h`. -/
structure MeshBounds (K : Type) where
  min : Vec3 K
  max : Vec3 K
  center : Vec3 K
  radius : K
  deriving DecidableEq, Repr

section MeshDefs

variable {K : Type} [LinearOrderedField K]

/-- The value of `std::numeric_limits<float>::max()`, `2^128 - 2^104`. -/
def FLT_MAX : K := 340282346638528859811704183484516925440

/-- The value of `std::numeric_limits<float>::lowest()`. -/
def FLT_LOWEST : K := -340282346638528859811704183484516925440

/-- The library function `std::min(a, b)`: `b` if `b < a`, else `a`. -/
def stdMin (a b : K) : K := if b < a then b else a

/-- The library function `std::max(a, b)`: `b` if `a < b`, else `a`. -/
def stdMax (a b : K) : K := if a < b then b else a

/-- Componentwise `a + b` of `glm::vec3`. -/
def Vec3.add (a b : Vec3 K) : Vec3 K := ⟨a.x + b.x, a.y + b.y, a.z + b.z⟩

/-- Componentwise `a - b` of `glm::vec3`. -/
def Vec3.sub (a b : Vec3 K) : Vec3 K := ⟨a.x - b.x, a.y - b.y, a.z - b.z⟩

/-- The product `k * v` of a scalar and a `glm::vec3`. -/
def Vec3.scale (k : K) (v : Vec3 K) : Vec3 K := ⟨k * v.x, k * v.y, k * v.z⟩

/-- The product `v * k` of a `glm::vec3` and a scalar. -/
def Vec3.mulScalar (v : Vec3 K) (k : K) : Vec3 K := ⟨v.x * k, v.y * k, v.z * k⟩

/-- The body of the first loop of `computeBounds` (lines 31-37) for the vertex `v`. -/
def computeBounds.extend (b : MeshBounds K) (v : Vertex K) : MeshBounds K :=
  { b with
    min := ⟨stdMin b.min.x v.pos.x, stdMin b.min.y v.pos.y, stdMin b.min.z v.pos.z⟩
    max := ⟨stdMax b.max.x v.pos.x, stdMax b.max.y v.pos.y, stdMax b.max.z v.pos.z⟩ }

/-- The value `r2` computed in the second loop of `computeBounds` (lines 44-45). -/
def computeBounds.r2 (center : Vec3 K) (v : Vertex K) : K :=
  let d := Vec3.sub v.pos center
  d.x * d.x + d.y * d.y + d.z * d.z

/-- The body of the second loop of `computeBounds` (lines 44-46) for the vertex `v`. -/
def computeBounds.update (center : Vec3 K) (maxR2 : K) (v : Vertex K) : K :=
  let r2 := computeBounds.r2 center v
  if r2 > maxR2 then r2 else maxR2

/-- The bounds at the start of `computeBounds` (lines 18-28): value-initialised, then `min`
and `max` set to the extreme `float` values. -/
def computeBounds.init : MeshBounds K :=
  { min := ⟨FLT_MAX, FLT_MAX, FLT_MAX⟩, max := ⟨FLT_LOWEST, FLT_LOWEST, FLT_LOWEST⟩,
    center := ⟨0, 0, 0⟩, radius := 0 }

/-- Embedding of `computeBounds`; `sqrt` is the library function `std::sqrt`. -/
def computeBounds (sqrt : K → K) (mesh : MeshData K) : MeshBounds K :=
  let b1 := mesh.vertices.foldl computeBounds.extend computeBounds.init
  let center := Vec3.scale 0.5 (Vec3.add b1.min b1.max)
  let maxR2 := mesh.vertices.foldl (computeBounds.update center) 0.0
  { b1 with center := center, radius := if maxR2 > 0.0 then sqrt maxR2 else 0.0 }

/-- The scale factor of `normalizeToUnitSphere` (line 57) for the radius `r`. -/
def normalizeToUnitSphere.scale (r : K) : K := if r > 0.0 then 1.0 / r else 1.0

/-- Embedding of `normalizeToUnitSphere`: the mesh after the call and the bounds written to
`boundsOut`. -/
def normalizeToUnitSphere (sqrt : K → K) (mesh : MeshData K) : MeshData K × MeshBounds K :=
  let boundsOut := computeBounds sqrt mesh
  let c := boundsOut.center
  let r := boundsOut.radius
  let scale := normalizeToUnitSphere.scale r
  let mesh1 : MeshData K :=
    { mesh with
      vertices := mesh.vertices.map fun v =>
        { v with pos := Vec3.mulScalar (Vec3.sub v.pos c) scale } }
  (mesh1, computeBounds sqrt mesh1)

/-- Every coordinate of the position lies in the range of the finite `float` values. -/
def Vec3.InFloatRange (p : Vec3 K) : Prop :=
  FLT_LOWEST ≤ p.x ∧ p.x ≤ FLT_MAX ∧ FLT_LOWEST ≤ p.y ∧ p.y ≤ FLT_MAX ∧
    FLT_LOWEST ≤ p.z ∧ p.z ≤ FLT_MAX

/-- The value `m` is attained by `f` on the list and is below every value of `f` on it. -/
def IsMinOver {α : Type} (l : List α) (f : α → K) (m : K) : Prop :=
  (∃ v ∈ l, m = f v) ∧ ∀ w ∈ l, m ≤ f w

/-- The value `m` is attained by `f` on the list and is above every value of `f` on it. -/
def IsMaxOver {α : Type} (l : List α) (f : α → K) (m : K) : Prop :=
  (∃ v ∈ l, m = f v) ∧ ∀ w ∈ l, f w ≤ m

/-- A mesh of three vertices on a line, two of them `10` apart, with one triangle. -/
def exampleMesh : MeshData K :=
  { vertices := [⟨⟨0, 0, 0⟩, ⟨0, 0, 1⟩⟩, ⟨⟨6, 8, 0⟩, ⟨0, 1, 0⟩⟩, ⟨⟨3, 4, 0⟩, ⟨1, 0, 0⟩⟩],
    indices := [0, 1, 2] }

end MeshDefs

/-- The effect of one call on the fence state when nothing is assumed about what a wait
returns (`drawFrame` discards the result of `vkWaitForFences`): as `GpuSync.exec`, except that
a wait returns whatever the state of its fences is. -/
def GpuSync.track (g : GpuSync) : GpuCall → GpuSync
  | .vkCreateFence _ flags fence =>
    if flags &&& VK_FENCE_CREATE_SIGNALED_BIT ≠ 0 then
      { g with signaled := fence :: g.signaled } else g
  | .vkResetFences _ fences =>
    { g with signaled := g.signaled.filter (fun f => decide (f ∉ fences)) }
  | .vkQueueSubmit _ _ _ commandBuffers _ fence =>
    { g with outstanding := g.outstanding ++ [⟨commandBuffers, fence⟩] }
  | _ => g

/-- The effect of a sequence of calls on the fence state, whatever the waits return. -/
def GpuSync.trackAll (g : GpuSync) (calls : List GpuCall) : GpuSync :=
  calls.foldl GpuSync.track g

/-- One step of the system when nothing is assumed about what a wait returns: a `drawFrame`
iteration is a step whenever it completes; a completion is a step when submission `k` is
outstanding. -/
def Sys.stepAny (st : Sys) : Event → Option Sys
  | .frame driver =>
    let r := drawFrame st.app driver
    if r.outcome = .completed then
      some ⟨r.state, st.gpu.trackAll r.calls, st.frames + 1, some driver.imageIndex⟩
    else none
  | .gpuComplete k => (st.gpu.complete k).map (fun g => { st with gpu := g })

/-- A sequence of such steps; `none` when one of them is not possible. -/
def Sys.runAny (st : Sys) : List Event → Option Sys
  | [] => some st
  | e :: rest => (st.stepAny e).bind (fun st1 => st1.runAny rest)

/-- Every creation call of `createSyncObjects` returns `VK_SUCCESS`. -/
def SyncDriver.AllSucceed (d : SyncDriver) : Prop :=
  ∀ i : Nat, i < MAX_FRAMES_IN_FLIGHT →
    d.createImageAvailable i = VK_SUCCESS ∧ d.createRenderFinished i = VK_SUCCESS ∧
      d.createFence i = VK_SUCCESS

/-- The example state before `createSyncObjects` has run: the three vectors of synchronisation
objects are empty, as the constructor leaves them. -/
def exampleStateNoSync : FrameState :=
  { exampleState with
    m_imageAvailableSemaphores := [], m_renderFinishedSemaphores := [], m_inFlightFences := [] }

/-! ## Theorems -/

theorem chooseSwapSurfaceFormat.loop_none (formats : List VkSurfaceFormatKHR) :
    chooseSwapSurfaceFormat.loop formats = none ↔ ∀ f ∈ formats, isPreferredFormat f = false := by
  induction formats with
  | nil => simp [chooseSwapSurfaceFormat.loop]
  | cons f rest ih =>
    by_cases hf : isPreferredFormat f = true
    · simp [chooseSwapSurfaceFormat.loop, hf]
    · simp only [Bool.not_eq_true] at hf
      simp [chooseSwapSurfaceFormat.loop, hf, ih]

theorem chooseSwapSurfaceFormat.loop_some (formats : List VkSurfaceFormatKHR)
    (r : VkSurfaceFormatKHR) :
    chooseSwapSurfaceFormat.loop formats = some r ↔
      ∃ i : Nat, formats[i]? = some r ∧ isPreferredFormat r = true ∧
        ∀ j : Nat, j < i → ∀ g : VkSurfaceFormatKHR, formats[j]? = some g → isPreferredFormat g = false := by
  induction formats with
  | nil => simp [chooseSwapSurfaceFormat.loop]
  | cons f rest ih =>
    by_cases hf : isPreferredFormat f = true
    · simp only [chooseSwapSurfaceFormat.loop, hf, if_true, Option.some.injEq]
      constructor
      · rintro rfl
        exact ⟨0, by simp, hf, by intro j hj; omega⟩
      · rintro ⟨i, hi, _, hmin⟩
        cases i with
        | zero => simpa using hi
        | succ k =>
          have := hmin 0 (by omega) f (by simp)
          simp [hf] at this
    · simp only [Bool.not_eq_true] at hf
      simp only [chooseSwapSurfaceFormat.loop, hf, Bool.false_eq_true, if_false, ih]
      constructor
      · rintro ⟨i, hi, hr, hmin⟩
        refine ⟨i + 1, by simpa using hi, hr, ?_⟩
        intro j hj g hg
        cases j with
        | zero => simp at hg; subst hg; exact hf
        | succ k => exact hmin k (by omega) g (by simpa using hg)
      · rintro ⟨i, hi, hr, hmin⟩
        cases i with
        | zero =>
          simp at hi; subst hi; simp [hf] at hr
        | succ k =>
          refine ⟨k, by simpa using hi, hr, ?_⟩
          intro j hj g hg
          exact hmin (j + 1) (by omega) g (by simpa using hg)

/-- C1: for a non-empty list of surface formats, `chooseSwapSurfaceFormat` returns the first entry
with format B8G8R8A8_SRGB and colour space SRGB_NONLINEAR when one exists (entry `i`, no earlier
entry qualifying), and otherwise the entry at index 0, unchanged. -/
theorem chooseSwapSurfaceFormat_spec (formats : List VkSurfaceFormatKHR) (hne : formats ≠ []) :
    ∃ r, chooseSwapSurfaceFormat formats = some r ∧ FirstPreferredElseHead formats r := by
  have key : ∀ g : VkSurfaceFormatKHR, isPreferredFormat g = true ↔ IsBgraSrgbNonlinear g := by
    intro g; simp [isPreferredFormat, IsBgraSrgbNonlinear]
  have keyf : ∀ g : VkSurfaceFormatKHR, isPreferredFormat g = false ↔ ¬ IsBgraSrgbNonlinear g := by
    intro g; rw [← key]; simp
  cases hl : chooseSwapSurfaceFormat.loop formats with
  | some r =>
    refine ⟨r, by simp [chooseSwapSurfaceFormat, hl], Or.inl ?_⟩
    obtain ⟨i, hi, hr, hmin⟩ := (chooseSwapSurfaceFormat.loop_some formats r).1 hl
    exact ⟨i, hi, (key r).1 hr, fun j hj g hg => (keyf g).1 (hmin j hj g hg)⟩
  | none =>
    cases formats with
    | nil => exact absurd rfl hne
    | cons f rest =>
      refine ⟨f, by simp [chooseSwapSurfaceFormat, hl], Or.inr ⟨?_, by simp⟩⟩
      intro g hg
      exact (keyf g).1 ((chooseSwapSurfaceFormat.loop_none _).1 hl g hg)

/-- C1 witness: the two lists named by the specification. -/
theorem chooseSwapSurfaceFormat_spec_witness :
    chooseSwapSurfaceFormat
        [⟨VK_FORMAT_R8G8B8A8_UNORM, VK_COLOR_SPACE_EXTENDED_SRGB_LINEAR_EXT⟩,
         ⟨VK_FORMAT_B8G8R8A8_SRGB, VK_COLOR_SPACE_SRGB_NONLINEAR_KHR⟩]
      = some ⟨VK_FORMAT_B8G8R8A8_SRGB, VK_COLOR_SPACE_SRGB_NONLINEAR_KHR⟩ ∧
    chooseSwapSurfaceFormat
        [⟨VK_FORMAT_R8G8B8A8_UNORM, VK_COLOR_SPACE_EXTENDED_SRGB_LINEAR_EXT⟩]
      = some ⟨VK_FORMAT_R8G8B8A8_UNORM, VK_COLOR_SPACE_EXTENDED_SRGB_LINEAR_EXT⟩ ∧
    (∃ r, chooseSwapSurfaceFormat
        [⟨VK_FORMAT_R8G8B8A8_UNORM, VK_COLOR_SPACE_EXTENDED_SRGB_LINEAR_EXT⟩,
         ⟨VK_FORMAT_B8G8R8A8_SRGB, VK_COLOR_SPACE_SRGB_NONLINEAR_KHR⟩] = some r ∧
      FirstPreferredElseHead
        [⟨VK_FORMAT_R8G8B8A8_UNORM, VK_COLOR_SPACE_EXTENDED_SRGB_LINEAR_EXT⟩,
         ⟨VK_FORMAT_B8G8R8A8_SRGB, VK_COLOR_SPACE_SRGB_NONLINEAR_KHR⟩] r) :=
  ⟨by decide, by decide,
    chooseSwapSurfaceFormat_spec
      [⟨VK_FORMAT_R8G8B8A8_UNORM, VK_COLOR_SPACE_EXTENDED_SRGB_LINEAR_EXT⟩,
       ⟨VK_FORMAT_B8G8R8A8_SRGB, VK_COLOR_SPACE_SRGB_NONLINEAR_KHR⟩] (by simp)⟩

/-- C2: `chooseSwapPresentMode` returns MAILBOX when MAILBOX occurs anywhere in the list and
FIFO otherwise, for every list (the empty one included). -/
theorem chooseSwapPresentMode_spec (modes : List VkPresentModeKHR) :
    chooseSwapPresentMode modes =
      if VK_PRESENT_MODE_MAILBOX_KHR ∈ modes then VK_PRESENT_MODE_MAILBOX_KHR
      else VK_PRESENT_MODE_FIFO_KHR := by
  induction modes with
  | nil => simp [chooseSwapPresentMode]
  | cons m rest ih =>
    by_cases hm : m = VK_PRESENT_MODE_MAILBOX_KHR
    · simp [chooseSwapPresentMode, hm]
    · have hm2 : ¬ VK_PRESENT_MODE_MAILBOX_KHR = m := fun h => hm h.symm
      simp [chooseSwapPresentMode, hm, hm2, ih]

/-- The two present-mode lists named by the specification. -/
theorem chooseSwapPresentMode_examples :
    chooseSwapPresentMode [VK_PRESENT_MODE_FIFO_KHR] = VK_PRESENT_MODE_FIFO_KHR ∧
    chooseSwapPresentMode [VK_PRESENT_MODE_FIFO_KHR, VK_PRESENT_MODE_MAILBOX_KHR]
      = VK_PRESENT_MODE_MAILBOX_KHR := by
  decide

/-- C3: `chooseSwapExtent` returns `currentExtent` verbatim when its width is not the sentinel
`2^32-1`; otherwise it returns, per axis, `max(minImageExtent, min(maxImageExtent, default))`,
which lies in `[minImageExtent, maxImageExtent]` when `minImageExtent <= maxImageExtent` on that
axis and equals the default when the default is already in that range. -/
theorem chooseSwapExtent_spec (WIDTH HEIGHT : Int) (capabilities : VkSurfaceCapabilitiesKHR) :
    (capabilities.currentExtent.width ≠ UINT32_MAX →
      chooseSwapExtent WIDTH HEIGHT capabilities = capabilities.currentExtent) ∧
    (capabilities.currentExtent.width = UINT32_MAX →
      chooseSwapExtent WIDTH HEIGHT capabilities =
        { width := max capabilities.minImageExtent.width
            (min capabilities.maxImageExtent.width (toUint32 WIDTH))
          height := max capabilities.minImageExtent.height
            (min capabilities.maxImageExtent.height (toUint32 HEIGHT)) } ∧
      (capabilities.minImageExtent.width ≤ capabilities.maxImageExtent.width →
        capabilities.minImageExtent.width ≤ (chooseSwapExtent WIDTH HEIGHT capabilities).width ∧
        (chooseSwapExtent WIDTH HEIGHT capabilities).width ≤ capabilities.maxImageExtent.width ∧
        (capabilities.minImageExtent.width ≤ toUint32 WIDTH →
          toUint32 WIDTH ≤ capabilities.maxImageExtent.width →
          (chooseSwapExtent WIDTH HEIGHT capabilities).width = toUint32 WIDTH)) ∧
      (capabilities.minImageExtent.height ≤ capabilities.maxImageExtent.height →
        capabilities.minImageExtent.height ≤ (chooseSwapExtent WIDTH HEIGHT capabilities).height ∧
        (chooseSwapExtent WIDTH HEIGHT capabilities).height ≤ capabilities.maxImageExtent.height ∧
        (capabilities.minImageExtent.height ≤ toUint32 HEIGHT →
          toUint32 HEIGHT ≤ capabilities.maxImageExtent.height →
          (chooseSwapExtent WIDTH HEIGHT capabilities).height = toUint32 HEIGHT))) := by
  refine ⟨fun h => by simp [chooseSwapExtent, h], fun h => ?_⟩
  have hdef : chooseSwapExtent WIDTH HEIGHT capabilities =
        { width := max capabilities.minImageExtent.width
            (min capabilities.maxImageExtent.width (toUint32 WIDTH))
          height := max capabilities.minImageExtent.height
            (min capabilities.maxImageExtent.height (toUint32 HEIGHT)) } := by
    simp [chooseSwapExtent, h]
  refine ⟨hdef, ?_, ?_⟩
  · intro hle
    rw [hdef]
    refine ⟨le_max_left _ _, max_le hle (min_le_left _ _), fun h1 h2 => ?_⟩
    show max _ (min _ _) = _
    rw [min_eq_right h2, max_eq_right h1]
  · intro hle
    rw [hdef]
    refine ⟨le_max_left _ _, max_le hle (min_le_left _ _), fun h1 h2 => ?_⟩
    show max _ (min _ _) = _
    rw [min_eq_right h2, max_eq_right h1]

/-- C3 witness: sentinel current extent, `min = (100,100)`, `max = (2000,2000)`; the default
`(1280,720)` passes through, and the default `(3000,10)` clamps to `(2000,100)`. -/
theorem chooseSwapExtent_spec_witness :
    chooseSwapExtent 1280 720 ⟨2, 3, ⟨UINT32_MAX, UINT32_MAX⟩, ⟨100, 100⟩, ⟨2000, 2000⟩⟩
      = ⟨1280, 720⟩ ∧
    chooseSwapExtent 3000 10 ⟨2, 3, ⟨UINT32_MAX, UINT32_MAX⟩, ⟨100, 100⟩, ⟨2000, 2000⟩⟩
      = ⟨2000, 100⟩ ∧
    chooseSwapExtent 1280 720 ⟨2, 3, ⟨800, 600⟩, ⟨100, 100⟩, ⟨2000, 2000⟩⟩ = ⟨800, 600⟩ ∧
    (chooseSwapExtent 1280 720
        ⟨2, 3, ⟨UINT32_MAX, UINT32_MAX⟩, ⟨100, 100⟩, ⟨2000, 2000⟩⟩).width = toUint32 1280 :=
  ⟨by decide, by decide, by decide,
    (((chooseSwapExtent_spec 1280 720
        ⟨2, 3, ⟨UINT32_MAX, UINT32_MAX⟩, ⟨100, 100⟩, ⟨2000, 2000⟩⟩).2 rfl).2.1
      (by decide)).2.2 (by decide) (by decide)⟩

/-- C4: the image count requested by `createSwapchain` is `minImageCount + 1` in 32-bit unsigned
arithmetic, replaced by `maxImageCount` exactly when `maxImageCount` is nonzero and smaller than
that sum; with `maxImageCount = 0` no cap is applied. -/
theorem createSwapchain_imageCount_spec (capabilities : VkSurfaceCapabilitiesKHR) :
    (capabilities.maxImageCount ≠ 0 →
      (capabilities.minImageCount + 1) % 2 ^ 32 > capabilities.maxImageCount →
      createSwapchain.imageCount capabilities = capabilities.maxImageCount) ∧
    (capabilities.maxImageCount ≠ 0 →
      (capabilities.minImageCount + 1) % 2 ^ 32 ≤ capabilities.maxImageCount →
      createSwapchain.imageCount capabilities = (capabilities.minImageCount + 1) % 2 ^ 32) ∧
    (capabilities.maxImageCount = 0 →
      createSwapchain.imageCount capabilities = (capabilities.minImageCount + 1) % 2 ^ 32) ∧
    (capabilities.minImageCount + 1 < 2 ^ 32 →
      (capabilities.minImageCount + 1) % 2 ^ 32 = capabilities.minImageCount + 1) := by
  refine ⟨fun h0 h => ?_, fun h0 h => ?_, fun h0 => ?_, fun h => Nat.mod_eq_of_lt h⟩
  · simp only [createSwapchain.imageCount]
    rw [if_pos ⟨Nat.pos_of_ne_zero h0, h⟩]
  · simp only [createSwapchain.imageCount]
    rw [if_neg (fun hc => absurd hc.2 (Nat.not_lt.mpr h))]
  · simp only [createSwapchain.imageCount]
    rw [if_neg (fun hc => by omega)]

/-- C4 witness: `min = 2, max = 2` is capped to 2; `min = 2, max = 8` and `min = 2, max = 0`
give 3. -/
theorem createSwapchain_imageCount_spec_witness :
    createSwapchain.imageCount ⟨2, 2, ⟨800, 600⟩, ⟨1, 1⟩, ⟨4096, 4096⟩⟩ = 2 ∧
    createSwapchain.imageCount ⟨2, 8, ⟨800, 600⟩, ⟨1, 1⟩, ⟨4096, 4096⟩⟩ = (2 + 1) % 2 ^ 32 ∧
    createSwapchain.imageCount ⟨2, 0, ⟨800, 600⟩, ⟨1, 1⟩, ⟨4096, 4096⟩⟩ = (2 + 1) % 2 ^ 32 ∧
    (2 + 1) % 2 ^ 32 = 2 + 1 :=
  ⟨(createSwapchain_imageCount_spec ⟨2, 2, ⟨800, 600⟩, ⟨1, 1⟩, ⟨4096, 4096⟩⟩).1
      (by decide) (by decide),
   (createSwapchain_imageCount_spec ⟨2, 8, ⟨800, 600⟩, ⟨1, 1⟩, ⟨4096, 4096⟩⟩).2.1
      (by decide) (by decide),
   (createSwapchain_imageCount_spec ⟨2, 0, ⟨800, 600⟩, ⟨1, 1⟩, ⟨4096, 4096⟩⟩).2.2.1 rfl,
   by decide⟩

/-! ### Device selection -/

theorem pickPhysicalDevice.required_foldl (available required : List String) :
    available.foldl (fun required extensionName => required.filter (fun r => r != extensionName))
      required = required.filter (fun r => decide (r ∉ available)) := by
  induction available generalizing required with
  | nil => simp
  | cons e rest ih =>
    rw [List.foldl_cons, ih, List.filter_filter]
    apply List.filter_congr
    intro r _
    by_cases h1 : r = e <;> by_cases h2 : r ∈ rest <;> simp [h1, h2]

theorem pickPhysicalDevice.required_isEmpty (available : List String) :
    (pickPhysicalDevice.required available).isEmpty = true ↔
      ∀ r ∈ DEVICE_EXTENSIONS, r ∈ available := by
  rw [pickPhysicalDevice.required, pickPhysicalDevice.required_foldl, List.isEmpty_iff,
    List.filter_eq_nil_iff]
  constructor
  · intro h r hr
    simpa using h r hr
  · intro h r hr
    simpa using h r hr

theorem pickPhysicalDevice.accepts_iff (d : PhysicalDevice) :
    pickPhysicalDevice.accepts d = true ↔ Suitable d := by
  simp only [pickPhysicalDevice.accepts, Suitable, querySwapChainSupport, Bool.and_eq_true,
    pickPhysicalDevice.required_isEmpty, Bool.not_eq_true', List.isEmpty_eq_false, and_assoc,
    ne_eq]

theorem pickPhysicalDevice.loop_ok (devices : List PhysicalDevice) (d : PhysicalDevice) :
    pickPhysicalDevice.loop devices = .ok d ↔
      ∃ i : Nat, devices[i]? = some d ∧ Suitable d ∧
        ∀ j : Nat, j < i → ∀ g : PhysicalDevice, devices[j]? = some g → ¬ Suitable g := by
  induction devices with
  | nil => simp [pickPhysicalDevice.loop]
  | cons dev rest ih =>
    by_cases hd : pickPhysicalDevice.accepts dev = true
    · simp only [pickPhysicalDevice.loop, hd, if_true, Except.ok.injEq]
      constructor
      · rintro rfl
        exact ⟨0, by simp, (pickPhysicalDevice.accepts_iff _).1 hd, by intro j hj; omega⟩
      · rintro ⟨i, hi, _, hmin⟩
        cases i with
        | zero => simpa using hi
        | succ k =>
          exact absurd ((pickPhysicalDevice.accepts_iff _).1 hd) (hmin 0 (by omega) dev (by simp))
    · have hns : ¬ Suitable dev := fun h => hd ((pickPhysicalDevice.accepts_iff _).2 h)
      simp only [pickPhysicalDevice.loop, hd, Bool.false_eq_true, if_false, ih]
      constructor
      · rintro ⟨i, hi, hr, hmin⟩
        refine ⟨i + 1, by simpa using hi, hr, ?_⟩
        intro j hj g hg
        cases j with
        | zero => simp at hg; subst hg; exact hns
        | succ k => exact hmin k (by omega) g (by simpa using hg)
      · rintro ⟨i, hi, hr, hmin⟩
        cases i with
        | zero => simp at hi; subst hi; exact absurd hr hns
        | succ k =>
          refine ⟨k, by simpa using hi, hr, ?_⟩
          intro j hj g hg
          exact hmin (j + 1) (by omega) g (by simpa using hg)

theorem pickPhysicalDevice.loop_error (devices : List PhysicalDevice) :
    (∃ msg, pickPhysicalDevice.loop devices = .error msg) ↔ ∀ d ∈ devices, ¬ Suitable d := by
  induction devices with
  | nil => simp [pickPhysicalDevice.loop]
  | cons dev rest ih =>
    by_cases hd : pickPhysicalDevice.accepts dev = true
    · have hs := (pickPhysicalDevice.accepts_iff _).1 hd
      simp [pickPhysicalDevice.loop, hd, hs]
    · have hns : ¬ Suitable dev := fun h => hd ((pickPhysicalDevice.accepts_iff _).2 h)
      simp only [pickPhysicalDevice.loop, hd, Bool.false_eq_true, if_false, ih]
      simp [hns]

/-- C5: for every enumerated device list, `pickPhysicalDevice` returns device `d` exactly when `d`
is the suitable device of smallest enumeration index (whatever follows it in the list), and it
throws exactly when no enumerated device is suitable, the empty list included. -/
theorem pickPhysicalDevice_spec (devices : List PhysicalDevice) :
    (∀ d, pickPhysicalDevice devices = .ok d ↔
      ∃ i : Nat, devices[i]? = some d ∧ Suitable d ∧
        ∀ j : Nat, j < i → ∀ g : PhysicalDevice, devices[j]? = some g → ¬ Suitable g) ∧
    ((∃ msg, pickPhysicalDevice devices = .error msg) ↔ ∀ d ∈ devices, ¬ Suitable d) := by
  cases devices with
  | nil => simp [pickPhysicalDevice]
  | cons dev rest =>
    have h : pickPhysicalDevice (dev :: rest) = pickPhysicalDevice.loop (dev :: rest) := by
      simp [pickPhysicalDevice]
    rw [h]
    exact ⟨fun d => pickPhysicalDevice.loop_ok _ d, pickPhysicalDevice.loop_error _⟩

/-- C5 witness: an unsuitable device followed by two suitable ones gives the first suitable one;
a list of unsuitable devices and the empty list give an error. -/
theorem pickPhysicalDevice_spec_witness :
    pickPhysicalDevice
      [⟨10, [], ⟨⟨2, 3, ⟨800, 600⟩, ⟨1, 1⟩, ⟨4096, 4096⟩⟩, [⟨50, 0⟩], [2]⟩, ["VK_KHR_swapchain"]⟩,
       ⟨11, [⟨1, true⟩], ⟨⟨2, 3, ⟨800, 600⟩, ⟨1, 1⟩, ⟨4096, 4096⟩⟩, [⟨50, 0⟩], [2]⟩,
         ["VK_KHR_maintenance1", "VK_KHR_swapchain"]⟩,
       ⟨12, [⟨1, true⟩], ⟨⟨2, 3, ⟨800, 600⟩, ⟨1, 1⟩, ⟨4096, 4096⟩⟩, [⟨50, 0⟩], [2]⟩,
         ["VK_KHR_swapchain"]⟩]
      = .ok ⟨11, [⟨1, true⟩], ⟨⟨2, 3, ⟨800, 600⟩, ⟨1, 1⟩, ⟨4096, 4096⟩⟩, [⟨50, 0⟩], [2]⟩,
          ["VK_KHR_maintenance1", "VK_KHR_swapchain"]⟩ ∧
    pickPhysicalDevice
      [⟨10, [⟨1, true⟩], ⟨⟨2, 3, ⟨800, 600⟩, ⟨1, 1⟩, ⟨4096, 4096⟩⟩, [⟨50, 0⟩], [2]⟩,
         ["VK_KHR_maintenance1"]⟩]
      = .error "Failed to find suitable GPU" ∧
    ((∃ msg, pickPhysicalDevice [] = .error msg) ↔ ∀ d ∈ ([] : List PhysicalDevice), ¬ Suitable d) :=
  ⟨by rfl, by rfl, (pickPhysicalDevice_spec []).2⟩

/-! ### Orbit camera -/

section CameraTheorems

variable {K : Type} [LinearOrderedField K]

theorem distance_clamp_bounds (d : K) :
    (1 : K) ≤ (if (if d < 1.0 then (1.0 : K) else d) > 10.0 then (10.0 : K)
        else (if d < 1.0 then (1.0 : K) else d)) ∧
    (if (if d < 1.0 then (1.0 : K) else d) > 10.0 then (10.0 : K)
        else (if d < 1.0 then (1.0 : K) else d)) ≤ 10 := by
  norm_num
  split_ifs <;> constructor <;> linarith

theorem pitch_clamp_bounds (p : K) :
    (-1.4 : K) ≤ (if (if p > 1.4 then (1.4 : K) else p) < -1.4 then (-1.4 : K)
        else (if p > 1.4 then (1.4 : K) else p)) ∧
    (if (if p > 1.4 then (1.4 : K) else p) < -1.4 then (-1.4 : K)
        else (if p > 1.4 then (1.4 : K) else p)) ≤ 1.4 := by
  norm_num
  split_ifs <;> constructor <;> linarith

theorem Camera.initial_inRange : (Camera.initial : Camera K).InRange := by
  simp only [Camera.InRange, Camera.initial]
  norm_num

theorem onScroll_inRange (c : Camera K) (xoffset yoffset : K) (h : c.InRange) :
    (onScroll c xoffset yoffset).InRange := by
  obtain ⟨hp1, hp2, _, _⟩ := h
  have hd := distance_clamp_bounds (c.m_distance - yoffset * 0.2)
  exact ⟨hp1, hp2, hd.1, hd.2⟩

theorem updateCameraFromInput_distance_bounds (c : Camera K) (x y : K) (left keyW keyS : Bool) :
    1 ≤ (updateCameraFromInput c x y left keyW keyS).m_distance ∧
      (updateCameraFromInput c x y left keyW keyS).m_distance ≤ 10 := by
  simp only [updateCameraFromInput]
  exact distance_clamp_bounds _

theorem updateCameraFromInput_pitch_bounds (c : Camera K) (x y : K) (left keyW keyS : Bool)
    (h1 : -1.4 ≤ c.m_pitch) (h2 : c.m_pitch ≤ 1.4) :
    -1.4 ≤ (updateCameraFromInput c x y left keyW keyS).m_pitch ∧
      (updateCameraFromInput c x y left keyW keyS).m_pitch ≤ 1.4 := by
  simp only [updateCameraFromInput]
  cases left
  · exact ⟨h1, h2⟩
  · cases hm : c.m_mousePressed
    · exact ⟨h1, h2⟩
    · exact pitch_clamp_bounds _

theorem Camera.step_inRange (c : Camera K) (i : CameraInput K) (h : c.InRange) :
    (c.step i).InRange := by
  cases i with
  | scroll xoffset yoffset => exact onScroll_inRange c xoffset yoffset h
  | poll x y left keyW keyS =>
    have hp := updateCameraFromInput_pitch_bounds c x y left keyW keyS h.1 h.2.1
    have hd := updateCameraFromInput_distance_bounds c x y left keyW keyS
    exact ⟨hp.1, hp.2, hd.1, hd.2⟩

theorem Camera.run_inRange (c : Camera K) (inputs : List (CameraInput K)) (h : c.InRange) :
    (c.run inputs).InRange := by
  induction inputs generalizing c with
  | nil => exact h
  | cons i rest ih => exact ih (c.step i) (Camera.step_inRange c i h)

/-- C6: starting from the initial camera state and applying any finite sequence of `onScroll`
and `updateCameraFromInput` calls with arbitrary inputs, the state after every call (after the
first `k` inputs, for every `k`) satisfies `-1.4 <= pitch <= 1.4` and `1 <= distance <= 10`. -/
theorem camera_clamp_invariant (inputs : List (CameraInput K)) (k : Nat) :
    -1.4 ≤ ((Camera.initial : Camera K).run (inputs.take k)).m_pitch ∧
    ((Camera.initial : Camera K).run (inputs.take k)).m_pitch ≤ 1.4 ∧
    1 ≤ ((Camera.initial : Camera K).run (inputs.take k)).m_distance ∧
    ((Camera.initial : Camera K).run (inputs.take k)).m_distance ≤ 10 :=
  Camera.run_inRange _ _ Camera.initial_inRange

theorem updateCameraFromInput_drag (c : Camera K) (x y : K) (keyW keyS : Bool)
    (h : c.m_mousePressed = true) :
    (updateCameraFromInput c x y true keyW keyS).m_yaw = c.m_yaw - (x - c.m_lastMouseX) * 0.005 ∧
    (updateCameraFromInput c x y true keyW keyS).m_mousePressed = true ∧
    (updateCameraFromInput c x y true keyW keyS).m_lastMouseX = x := by
  simp [updateCameraFromInput, h]

theorem updateCameraFromInput_press (c : Camera K) (x y : K) (keyW keyS : Bool)
    (h : c.m_mousePressed = false) :
    (updateCameraFromInput c x y true keyW keyS).m_yaw = c.m_yaw ∧
    (updateCameraFromInput c x y true keyW keyS).m_mousePressed = true ∧
    (updateCameraFromInput c x y true keyW keyS).m_lastMouseX = x := by
  simp [updateCameraFromInput, h]

theorem Camera.runHeld_dragging (c : Camera K) (polls : List (HeldPoll K))
    (h : c.m_mousePressed = true) :
    (c.runHeld polls).m_yaw =
      c.m_yaw - 0.005 * ((polls.map HeldPoll.x).getLastD c.m_lastMouseX - c.m_lastMouseX) := by
  induction polls generalizing c with
  | nil => simp [Camera.runHeld]
  | cons p rest ih =>
    obtain ⟨hy, hm, hx⟩ := updateCameraFromInput_drag c p.x p.y p.keyW p.keyS h
    have := ih (updateCameraFromInput c p.x p.y true p.keyW p.keyS) hm
    simp only [Camera.runHeld, List.foldl_cons, List.map_cons, List.getLastD_cons] at this ⊢
    rw [this, hy, hx]
    ring

/-- C7: in a poll with the left button pressed and a drag already active,
`yaw' = yaw - (x - lastX) * 0.005`; and over a run of consecutive polls with the button held that
begins with the poll starting the drag at cursor `x0` and ends at cursor `xn`, the total change
of yaw is exactly `-0.005 * (xn - x0)`, whatever the intermediate cursor positions. -/
theorem inverted_horizontal_drag (c : Camera K) (x y : K) (keyW keyS : Bool)
    (p0 : HeldPoll K) (rest : List (HeldPoll K)) :
    (c.m_mousePressed = true →
      (updateCameraFromInput c x y true keyW keyS).m_yaw
        = c.m_yaw - (x - c.m_lastMouseX) * 0.005) ∧
    (c.m_mousePressed = false →
      (c.runHeld (p0 :: rest)).m_yaw - c.m_yaw
        = -0.005 * ((rest.map HeldPoll.x).getLastD p0.x - p0.x)) := by
  refine ⟨fun h => (updateCameraFromInput_drag c x y keyW keyS h).1, fun h => ?_⟩
  obtain ⟨hy, hm, hx⟩ := updateCameraFromInput_press c p0.x p0.y p0.keyW p0.keyS h
  have := Camera.runHeld_dragging (updateCameraFromInput c p0.x p0.y true p0.keyW p0.keyS) rest hm
  simp only [Camera.runHeld, List.foldl_cons] at this ⊢
  rw [this, hy, hx]
  ring

/-- C7 witness over the rationals: a drag starting at `x0 = 100`, passing through 400 and 50 and
ending at `xn = 120`, changes yaw by `-0.005 * (120 - 100)`; one dragging poll from
`lastX = 100` to `x = 300` changes yaw from 0 to `0 - (300 - 100) * 0.005`. -/
theorem inverted_horizontal_drag_witness :
    (updateCameraFromInput (⟨0, 0.4, 3, true, 100, 0⟩ : Camera ℚ) 300 0 true false false).m_yaw
        = (0 : ℚ) - (300 - 100) * 0.005 ∧
    ((Camera.initial : Camera ℚ).runHeld
        (⟨100, 7, false, false⟩ :: [⟨400, 9, true, false⟩, ⟨50, 2, false, false⟩,
          ⟨120, 0, false, true⟩])).m_yaw - (Camera.initial : Camera ℚ).m_yaw
        = -0.005 * (([⟨400, 9, true, false⟩, ⟨50, 2, false, false⟩,
            ⟨120, 0, false, true⟩].map HeldPoll.x).getLastD
              (⟨100, 7, false, false⟩ : HeldPoll ℚ).x - (⟨100, 7, false, false⟩ : HeldPoll ℚ).x) :=
  ⟨(inverted_horizontal_drag (⟨0, 0.4, 3, true, 100, 0⟩ : Camera ℚ) 300 0 false false
      ⟨0, 0, false, false⟩ []).1 rfl,
   (inverted_horizontal_drag (Camera.initial : Camera ℚ) 0 0 false false
      ⟨100, 7, false, false⟩ [⟨400, 9, true, false⟩, ⟨50, 2, false, false⟩,
        ⟨120, 0, false, true⟩]).2 rfl⟩

/-- The drag of the C7 witness evaluated: the final yaw is `-1/10`. -/
theorem inverted_horizontal_drag_example :
    ((Camera.initial : Camera ℚ).runHeld
        [⟨100, 7, false, false⟩, ⟨400, 9, true, false⟩, ⟨50, 2, false, false⟩,
          ⟨120, 0, false, true⟩]).m_yaw = -1 / 10 := by
  norm_num [Camera.runHeld, Camera.initial, updateCameraFromInput]

/-- The camera invariant observed over the rationals: a scroll of `-1000` followed by a drag of
`+100000` pixels downwards ends at distance 10 and pitch `7/5`. -/
theorem camera_clamp_example :
    ((Camera.initial : Camera ℚ).run
        [.scroll 0 (-1000), .poll 0 0 true false false, .poll 0 100000 true false true]).m_distance
      = 10 ∧
    ((Camera.initial : Camera ℚ).run
        [.scroll 0 (-1000), .poll 0 0 true false false, .poll 0 100000 true false true]).m_pitch
      = 7 / 5 := by
  constructor <;>
    norm_num [Camera.run, Camera.step, Camera.initial, onScroll, updateCameraFromInput]

end CameraTheorems

theorem drawFrame_completed (s : FrameState) (driver : FrameDriver)
    (h : (drawFrame s driver).outcome = .completed) :
    ∃ inFlight imageAvailable renderFinished cmd framebuffer : Handle,
      s.m_inFlightFences[s.m_currentFrame]? = some inFlight ∧
      s.m_imageAvailableSemaphores[s.m_currentFrame]? = some imageAvailable ∧
      s.m_renderFinishedSemaphores[s.m_currentFrame]? = some renderFinished ∧
      s.m_commandBuffers[driver.imageIndex]? = some cmd ∧
      s.m_swapchainFramebuffers[driver.imageIndex]? = some framebuffer ∧
      drawFrame s driver =
        ⟨{ s with m_currentFrame := (s.m_currentFrame + 1) % MAX_FRAMES_IN_FLIGHT },
          frameCalls s inFlight imageAvailable renderFinished cmd framebuffer driver.imageIndex,
          .completed⟩ := by
  unfold drawFrame at h ⊢
  cases h1 : s.m_inFlightFences[s.m_currentFrame]? with
  | none => simp [h1] at h
  | some inFlight =>
  cases h2 : s.m_imageAvailableSemaphores[s.m_currentFrame]? with
  | none => simp [h1, h2] at h
  | some imageAvailable =>
  by_cases ha : driver.acquireNextImage ≠ VK_SUCCESS ∧ driver.acquireNextImage ≠ VK_SUBOPTIMAL_KHR
  · simp [h1, h2, ha] at h
  cases h3 : s.m_commandBuffers[driver.imageIndex]? with
  | none => simp [h1, h2, ha, h3] at h
  | some cmd =>
  by_cases hb : driver.beginCommandBuffer ≠ VK_SUCCESS
  · simp [h1, h2, ha, h3, hb] at h
  cases h4 : s.m_swapchainFramebuffers[driver.imageIndex]? with
  | none => simp [h1, h2, ha, h3, hb, h4] at h
  | some framebuffer =>
  by_cases he : driver.endCommandBuffer ≠ VK_SUCCESS
  · simp [h1, h2, ha, h3, hb, h4, he] at h
  cases h5 : s.m_renderFinishedSemaphores[s.m_currentFrame]? with
  | none => simp [h1, h2, ha, h3, hb, h4, he, h5] at h
  | some renderFinished =>
  by_cases hq : driver.queueSubmit ≠ VK_SUCCESS
  · simp [h1, h2, ha, h3, hb, h4, he, h5, hq] at h
  refine ⟨inFlight, imageAvailable, renderFinished, cmd, framebuffer, rfl, rfl, rfl, rfl, rfl, ?_⟩
  simp only [h3, h4, h5, if_neg ha, if_neg hb, if_neg he, if_neg hq, frameCalls, List.cons_append,
    List.nil_append]

theorem drawFrame_state_of_not_completed (s : FrameState) (driver : FrameDriver)
    (h : (drawFrame s driver).outcome ≠ .completed) : (drawFrame s driver).state = s := by
  have key : (drawFrame s driver).state = s ∨ (drawFrame s driver).outcome = .completed := by
    unfold drawFrame
    cases h1 : s.m_inFlightFences[s.m_currentFrame]? with
    | none => simp
    | some inFlight =>
    cases h2 : s.m_imageAvailableSemaphores[s.m_currentFrame]? with
    | none => simp
    | some imageAvailable =>
    by_cases ha : driver.acquireNextImage ≠ VK_SUCCESS ∧
        driver.acquireNextImage ≠ VK_SUBOPTIMAL_KHR
    · simp [ha]
    cases h3 : s.m_commandBuffers[driver.imageIndex]? with
    | none => simp [ha, h3]
    | some cmd =>
    by_cases hb : driver.beginCommandBuffer ≠ VK_SUCCESS
    · simp [ha, h3, hb]
    cases h4 : s.m_swapchainFramebuffers[driver.imageIndex]? with
    | none => simp [ha, h3, hb, h4]
    | some framebuffer =>
    by_cases he : driver.endCommandBuffer ≠ VK_SUCCESS
    · simp [ha, h3, hb, h4, he]
    cases h5 : s.m_renderFinishedSemaphores[s.m_currentFrame]? with
    | none => simp [ha, h3, hb, h4, he, h5]
    | some renderFinished =>
    by_cases hq : driver.queueSubmit ≠ VK_SUCCESS
    · simp [ha, h3, hb, h4, he, h5, hq]
    · simp [ha, h3, hb, h4, he, h5, hq]
  exact key.resolve_right h

theorem frameCalls_fences (s : FrameState)
    (inFlight imageAvailable renderFinished cmd framebuffer : Handle) (imageIndex : Nat)
    (c : GpuCall)
    (hc : c ∈ frameCalls s inFlight imageAvailable renderFinished cmd framebuffer imageIndex)
    (x : Handle) (hx : x ∈ c.fences) : x = inFlight := by
  simp only [frameCalls, List.mem_cons, List.mem_singleton, List.not_mem_nil, or_false] at hc
  rcases hc with rfl | rfl | rfl | rfl | rfl | rfl | rfl | rfl | rfl | rfl | rfl | rfl | rfl |
    rfl | rfl <;> first
      | (simp [GpuCall.fences] at hx; done)
      | simpa [GpuCall.fences] using hx

theorem frameCalls_semaphores (s : FrameState)
    (inFlight imageAvailable renderFinished cmd framebuffer : Handle) (imageIndex : Nat)
    (c : GpuCall)
    (hc : c ∈ frameCalls s inFlight imageAvailable renderFinished cmd framebuffer imageIndex)
    (x : Handle) (hx : x ∈ c.semaphores) : x = imageAvailable ∨ x = renderFinished := by
  simp only [frameCalls, List.mem_cons, List.mem_singleton, List.not_mem_nil, or_false] at hc
  rcases hc with rfl | rfl | rfl | rfl | rfl | rfl | rfl | rfl | rfl | rfl | rfl | rfl | rfl |
    rfl | rfl <;> simp [GpuCall.semaphores] at hx <;> tauto

theorem nodup_getElem?_unique {l : List Handle} (hn : l.Nodup) {i j : Nat} {x : Handle}
    (hi : l[i]? = some x) (hj : l[j]? = some x) : i = j := by
  obtain ⟨hlt, _⟩ := List.getElem?_eq_some.1 hi
  exact List.getElem?_inj hlt hn (hi.trans hj.symm)

/-- C10: in a completed `drawFrame` iteration with current slot `f`, the calls made are exactly
`frameCalls` on `inFlight[f]`, `imageAvailable[f]` and `renderFinished[f]`: the fence waited on,
reset and passed to the submit is `inFlight[f]`; the acquire is given `imageAvailable[f]`, the
only semaphore the submit waits on (at the colour-attachment-output stage); the submit signals
only `renderFinished[f]`, the only semaphore the present waits on. Every fence any call is given
is `inFlight[f]`, every semaphore is `imageAvailable[f]` or `renderFinished[f]`, and when the
synchronisation handles are pairwise distinct no handle of another slot occurs in any call. -/
theorem per_slot_sync_chain (s : FrameState) (driver : FrameDriver)
    (h : (drawFrame s driver).outcome = .completed) :
    ∃ inFlight imageAvailable renderFinished cmd framebuffer : Handle,
      s.m_inFlightFences[s.m_currentFrame]? = some inFlight ∧
      s.m_imageAvailableSemaphores[s.m_currentFrame]? = some imageAvailable ∧
      s.m_renderFinishedSemaphores[s.m_currentFrame]? = some renderFinished ∧
      (drawFrame s driver).calls =
        frameCalls s inFlight imageAvailable renderFinished cmd framebuffer driver.imageIndex ∧
      (∀ c ∈ (drawFrame s driver).calls, ∀ x ∈ c.fences, x = inFlight) ∧
      (∀ c ∈ (drawFrame s driver).calls, ∀ x ∈ c.semaphores,
        x = imageAvailable ∨ x = renderFinished) ∧
      ((s.m_inFlightFences ++ s.m_imageAvailableSemaphores
          ++ s.m_renderFinishedSemaphores).Nodup →
        ∀ (g : Nat) (x : Handle), g ≠ s.m_currentFrame →
          (s.m_inFlightFences[g]? = some x ∨ s.m_imageAvailableSemaphores[g]? = some x ∨
            s.m_renderFinishedSemaphores[g]? = some x) →
          ∀ c ∈ (drawFrame s driver).calls, x ∉ c.fences ∧ x ∉ c.semaphores) := by
  obtain ⟨inFlight, imageAvailable, renderFinished, cmd, framebuffer, hF, hA, hR, _, _, heq⟩ :=
    drawFrame_completed s driver h
  have hcalls : (drawFrame s driver).calls =
      frameCalls s inFlight imageAvailable renderFinished cmd framebuffer driver.imageIndex := by
    rw [heq]
  have hfen : ∀ c ∈ (drawFrame s driver).calls, ∀ x ∈ c.fences, x = inFlight := by
    intro c hc x hx
    rw [hcalls] at hc
    exact frameCalls_fences s _ _ _ _ _ _ c hc x hx
  have hsem : ∀ c ∈ (drawFrame s driver).calls, ∀ x ∈ c.semaphores,
      x = imageAvailable ∨ x = renderFinished := by
    intro c hc x hx
    rw [hcalls] at hc
    exact frameCalls_semaphores s _ _ _ _ _ _ c hc x hx
  refine ⟨inFlight, imageAvailable, renderFinished, cmd, framebuffer, hF, hA, hR, hcalls,
    hfen, hsem, ?_⟩
  intro hnd g x hg hx
  rw [List.append_assoc, List.nodup_append] at hnd
  obtain ⟨hnF, hnAR, hdisF⟩ := hnd
  rw [List.nodup_append] at hnAR
  obtain ⟨hnA, hnR, hdisA⟩ := hnAR
  have memF := List.getElem?_mem hF
  have memA := List.getElem?_mem hA
  have memR := List.getElem?_mem hR
  -- a handle of another slot is none of the three handles of slot `f`
  have hne : x ≠ inFlight ∧ x ≠ imageAvailable ∧ x ≠ renderFinished := by
    rcases hx with hx | hx | hx
    · have hxm := List.getElem?_mem hx
      refine ⟨?_, ?_, ?_⟩
      · rintro rfl; exact hg (nodup_getElem?_unique hnF hx hF)
      · rintro rfl; exact hdisF hxm (List.mem_append_left _ memA)
      · rintro rfl; exact hdisF hxm (List.mem_append_right _ memR)
    · have hxm := List.getElem?_mem hx
      refine ⟨?_, ?_, ?_⟩
      · rintro rfl; exact hdisF memF (List.mem_append_left _ hxm)
      · rintro rfl; exact hg (nodup_getElem?_unique hnA hx hA)
      · rintro rfl; exact hdisA hxm memR
    · have hxm := List.getElem?_mem hx
      refine ⟨?_, ?_, ?_⟩
      · rintro rfl; exact hdisF memF (List.mem_append_right _ hxm)
      · rintro rfl; exact hdisA memA hxm
      · rintro rfl; exact hg (nodup_getElem?_unique hnR hx hR)
  intro c hc
  refine ⟨fun hm => hne.1 (hfen c hc x hm), fun hm => ?_⟩
  rcases hsem c hc x hm with e | e
  · exact hne.2.1 e
  · exact hne.2.2 e

/-- C10 witness: in slot 0 of the example state, acquiring image 1, the calls are those of
`frameCalls` on fence 70 and semaphores 50 and 60; in slot 1 they are on 71, 51 and 61. -/
theorem per_slot_sync_chain_witness :
    (drawFrame exampleState (successDriver 1)).outcome = .completed ∧
    (drawFrame exampleState (successDriver 1)).calls
      = frameCalls exampleState 70 50 60 41 31 1 ∧
    (drawFrame { exampleState with m_currentFrame := 1 } (successDriver 2)).calls
      = frameCalls exampleState 71 51 61 42 32 2 ∧
    (∃ inFlight imageAvailable renderFinished cmd framebuffer : Handle,
      exampleState.m_inFlightFences[exampleState.m_currentFrame]? = some inFlight ∧
      exampleState.m_imageAvailableSemaphores[exampleState.m_currentFrame]?
        = some imageAvailable ∧
      exampleState.m_renderFinishedSemaphores[exampleState.m_currentFrame]?
        = some renderFinished ∧
      (drawFrame exampleState (successDriver 1)).calls =
        frameCalls exampleState inFlight imageAvailable renderFinished cmd framebuffer
          (successDriver 1).imageIndex ∧
      (∀ c ∈ (drawFrame exampleState (successDriver 1)).calls, ∀ x ∈ c.fences, x = inFlight) ∧
      (∀ c ∈ (drawFrame exampleState (successDriver 1)).calls, ∀ x ∈ c.semaphores,
        x = imageAvailable ∨ x = renderFinished) ∧
      ((exampleState.m_inFlightFences ++ exampleState.m_imageAvailableSemaphores
          ++ exampleState.m_renderFinishedSemaphores).Nodup →
        ∀ (g : Nat) (x : Handle), g ≠ exampleState.m_currentFrame →
          (exampleState.m_inFlightFences[g]? = some x ∨
            exampleState.m_imageAvailableSemaphores[g]? = some x ∨
            exampleState.m_renderFinishedSemaphores[g]? = some x) →
          ∀ c ∈ (drawFrame exampleState (successDriver 1)).calls,
            x ∉ c.fences ∧ x ∉ c.semaphores)) :=
  ⟨by decide, by decide, by decide,
    per_slot_sync_chain exampleState (successDriver 1) (by decide)⟩

/-- C11: `drawFrame` throws at the acquire step exactly when the acquire result is neither
SUCCESS nor SUBOPTIMAL (the slot's fence and semaphore being within their vectors); it has then
made only the fence wait, the fence reset and the acquire: no command buffer is reset or
recorded, nothing is submitted or presented, the members are unchanged (the slot index is not
advanced) and the fence that was reset is not passed to any submit. -/
theorem acquire_failure_fatal (s : FrameState) (driver : FrameDriver) :
    ((drawFrame s driver).outcome = .threw "Failed to acquire swapchain image" →
      driver.acquireNextImage ≠ VK_SUCCESS ∧ driver.acquireNextImage ≠ VK_SUBOPTIMAL_KHR) ∧
    (∀ inFlight imageAvailable : Handle,
      s.m_inFlightFences[s.m_currentFrame]? = some inFlight →
      s.m_imageAvailableSemaphores[s.m_currentFrame]? = some imageAvailable →
      driver.acquireNextImage ≠ VK_SUCCESS → driver.acquireNextImage ≠ VK_SUBOPTIMAL_KHR →
      drawFrame s driver =
        ⟨s, [.vkWaitForFences s.m_device [inFlight] true UINT64_MAX,
             .vkResetFences s.m_device [inFlight],
             .vkAcquireNextImageKHR s.m_device s.m_swapchain UINT64_MAX imageAvailable none],
          .threw "Failed to acquire swapchain image"⟩) := by
  constructor
  · intro h
    unfold drawFrame at h
    cases h1 : s.m_inFlightFences[s.m_currentFrame]? with
    | none => simp [h1] at h
    | some inFlight =>
    cases h2 : s.m_imageAvailableSemaphores[s.m_currentFrame]? with
    | none => simp [h1, h2] at h
    | some imageAvailable =>
    by_cases ha : driver.acquireNextImage ≠ VK_SUCCESS ∧
        driver.acquireNextImage ≠ VK_SUBOPTIMAL_KHR
    · exact ha
    exfalso
    cases h3 : s.m_commandBuffers[driver.imageIndex]? with
    | none => simp [h1, h2, ha, h3] at h
    | some cmd =>
    by_cases hb : driver.beginCommandBuffer ≠ VK_SUCCESS
    · simp [h1, h2, ha, h3, hb] at h
    cases h4 : s.m_swapchainFramebuffers[driver.imageIndex]? with
    | none => simp [h1, h2, ha, h3, hb, h4] at h
    | some framebuffer =>
    by_cases he : driver.endCommandBuffer ≠ VK_SUCCESS
    · simp [h1, h2, ha, h3, hb, h4, he] at h
    cases h5 : s.m_renderFinishedSemaphores[s.m_currentFrame]? with
    | none => simp [h1, h2, ha, h3, hb, h4, he, h5] at h
    | some renderFinished =>
    by_cases hq : driver.queueSubmit ≠ VK_SUCCESS
    · simp [h1, h2, ha, h3, hb, h4, he, h5, hq] at h
    · simp [h1, h2, ha, h3, hb, h4, he, h5, hq] at h
  · intro inFlight imageAvailable h1 h2 ha1 ha2
    unfold drawFrame
    simp [h1, h2, ha1, ha2]

/-- C11 witness: in the example state an acquire returning OUT_OF_DATE throws after the wait,
reset and acquire calls on fence 70 and semaphore 50, the members unchanged. -/
theorem acquire_failure_fatal_witness :
    drawFrame exampleState { successDriver 1 with acquireNextImage := VK_ERROR_OUT_OF_DATE_KHR } =
      ⟨exampleState,
        [.vkWaitForFences exampleState.m_device [70] true UINT64_MAX,
         .vkResetFences exampleState.m_device [70],
         .vkAcquireNextImageKHR exampleState.m_device exampleState.m_swapchain UINT64_MAX 50
           none],
        .threw "Failed to acquire swapchain image"⟩ ∧
    (drawFrame exampleState
      { successDriver 1 with acquireNextImage := VK_SUBOPTIMAL_KHR }).outcome = .completed :=
  ⟨(acquire_failure_fatal exampleState
      { successDriver 1 with acquireNextImage := VK_ERROR_OUT_OF_DATE_KHR }).2 70 50
      (by decide) (by decide) (by decide) (by decide),
   by decide⟩

theorem frameCalls_commandBuffers (s : FrameState)
    (inFlight imageAvailable renderFinished cmd framebuffer : Handle) (imageIndex : Nat)
    (c : GpuCall)
    (hc : c ∈ frameCalls s inFlight imageAvailable renderFinished cmd framebuffer imageIndex) :
    (∀ x ∈ c.commandBuffers, x = cmd) ∧ (∀ x ∈ c.framebuffers, x = framebuffer) ∧
      (∀ x ∈ c.presentedImages, x = imageIndex) := by
  simp only [frameCalls, List.mem_cons, List.mem_singleton, List.not_mem_nil, or_false] at hc
  rcases hc with rfl | rfl | rfl | rfl | rfl | rfl | rfl | rfl | rfl | rfl | rfl | rfl | rfl |
    rfl | rfl <;>
    simp [GpuCall.commandBuffers, GpuCall.framebuffers, GpuCall.presentedImages]

/-- C12: in a completed `drawFrame` iteration that acquires image index `i`, whatever the slot
index is, the calls are `frameCalls` on `commandBuffers[i]` and `framebuffers[i]`: every call
that takes a command buffer (reset, begin, the recorded commands, end, submit) takes
`commandBuffers[i]`, the render pass begins on `framebuffers[i]`, and the image presented is
`i`. And whenever `i` is below the swapchain image count and the length invariant holds, both
indexings are within their vectors. -/
theorem recording_targets_acquired_image (s : FrameState) (driver : FrameDriver)
    (h : (drawFrame s driver).outcome = .completed) :
    (∃ cmd framebuffer inFlight imageAvailable renderFinished : Handle,
      s.m_commandBuffers[driver.imageIndex]? = some cmd ∧
      s.m_swapchainFramebuffers[driver.imageIndex]? = some framebuffer ∧
      (drawFrame s driver).calls =
        frameCalls s inFlight imageAvailable renderFinished cmd framebuffer driver.imageIndex ∧
      (∀ c ∈ (drawFrame s driver).calls, ∀ x ∈ c.commandBuffers, x = cmd) ∧
      (∀ c ∈ (drawFrame s driver).calls, ∀ x ∈ c.framebuffers, x = framebuffer) ∧
      (∀ c ∈ (drawFrame s driver).calls, ∀ x ∈ c.presentedImages, x = driver.imageIndex)) ∧
    (∀ (t : FrameState) (i : Nat), i < t.m_swapchainImages.length → t.LengthInvariant →
      (∃ cmd, t.m_commandBuffers[i]? = some cmd) ∧
      (∃ framebuffer, t.m_swapchainFramebuffers[i]? = some framebuffer)) := by
  constructor
  · obtain ⟨inFlight, imageAvailable, renderFinished, cmd, framebuffer, _, _, _, hC, hB, heq⟩ :=
      drawFrame_completed s driver h
    have hcalls : (drawFrame s driver).calls =
        frameCalls s inFlight imageAvailable renderFinished cmd framebuffer
          driver.imageIndex := by
      rw [heq]
    refine ⟨cmd, framebuffer, inFlight, imageAvailable, renderFinished, hC, hB, hcalls,
      ?_, ?_, ?_⟩
    · intro c hc
      rw [hcalls] at hc
      exact (frameCalls_commandBuffers s _ _ _ _ _ _ c hc).1
    · intro c hc
      rw [hcalls] at hc
      exact (frameCalls_commandBuffers s _ _ _ _ _ _ c hc).2.1
    · intro c hc
      rw [hcalls] at hc
      exact (frameCalls_commandBuffers s _ _ _ _ _ _ c hc).2.2
  · intro t i hi hinv
    obtain ⟨h1, h2, h3⟩ := hinv
    have hf : i < t.m_swapchainFramebuffers.length := by omega
    have hcb : i < t.m_commandBuffers.length := by omega
    exact ⟨⟨_, List.getElem?_eq_getElem hcb⟩, ⟨_, List.getElem?_eq_getElem hf⟩⟩

/-- C12 witness: in slot 0 and in slot 1 of the example state, acquiring image 2 records and
submits command buffer 42 on framebuffer 32 and presents image 2. -/
theorem recording_targets_acquired_image_witness :
    (drawFrame exampleState (successDriver 2)).calls = frameCalls exampleState 70 50 60 42 32 2 ∧
    (drawFrame { exampleState with m_currentFrame := 1 } (successDriver 2)).calls
      = frameCalls exampleState 71 51 61 42 32 2 ∧
    ((∃ cmd framebuffer inFlight imageAvailable renderFinished : Handle,
      exampleState.m_commandBuffers[(successDriver 2).imageIndex]? = some cmd ∧
      exampleState.m_swapchainFramebuffers[(successDriver 2).imageIndex]? = some framebuffer ∧
      (drawFrame exampleState (successDriver 2)).calls =
        frameCalls exampleState inFlight imageAvailable renderFinished cmd framebuffer
          (successDriver 2).imageIndex ∧
      (∀ c ∈ (drawFrame exampleState (successDriver 2)).calls,
        ∀ x ∈ c.commandBuffers, x = cmd) ∧
      (∀ c ∈ (drawFrame exampleState (successDriver 2)).calls,
        ∀ x ∈ c.framebuffers, x = framebuffer) ∧
      (∀ c ∈ (drawFrame exampleState (successDriver 2)).calls,
        ∀ x ∈ c.presentedImages, x = (successDriver 2).imageIndex)) ∧
    (∀ (t : FrameState) (i : Nat), i < t.m_swapchainImages.length → t.LengthInvariant →
      (∃ cmd, t.m_commandBuffers[i]? = some cmd) ∧
      (∃ framebuffer, t.m_swapchainFramebuffers[i]? = some framebuffer))) :=
  ⟨by decide, by decide,
    recording_targets_acquired_image exampleState (successDriver 2) (by decide)⟩

theorem construct_indexCount_wraps (vertices : List VulkanVertex) (indices : List Word32)
    (h : indices.length = 2 ^ 32) : (construct vertices indices).m_indexCount = 0 := by
  show indices.length % 2 ^ 32 = 0
  rw [h]
  exact Nat.mod_self _

/-- C13 counterexample: for the mesh with `n = 2^32` indices the constructor caches the index
count 0, so it is not true that every completed iteration on a state holding the constructor's
`m_indexCount` records a draw with index count `n`: the draw recorded has index count 0. -/
theorem one_draw_index_count_counterexample :
    ¬ (∀ (s : FrameState) (driver : FrameDriver),
        s.m_indexCount = (construct quadVertices (List.replicate (2 ^ 32) 0)).m_indexCount →
        (drawFrame s driver).outcome = .completed →
        ∃ cmd, (drawFrame s driver).calls.filter GpuCall.isDrawIndexed
          = [.vkCmdDrawIndexed cmd (List.replicate (2 ^ 32) (0 : Word32)).length 1 0 0 0]) := by
  intro h
  obtain ⟨cmd, hc⟩ := h { exampleState with m_indexCount := 0 } (successDriver 0)
    (construct_indexCount_wraps _ _ (List.length_replicate _ _)).symm (by decide)
  rw [List.length_replicate] at hc
  have hd : (drawFrame { exampleState with m_indexCount := 0 } (successDriver 0)).calls.filter
      GpuCall.isDrawIndexed = [.vkCmdDrawIndexed 40 0 1 0 0 0] := by decide
  rw [hd] at hc
  simp only [List.cons.injEq, GpuCall.vkCmdDrawIndexed.injEq, and_true] at hc
  exact absurd hc.2 (by decide)

/-- C13 (amended): for every mesh with `n < 2^32` indices (in general the cached index count is
`n mod 2^32`), a completed `drawFrame` iteration on a state holding the constructor's
`m_indexCount` records exactly one indexed draw, with index count `n`, instance count 1 and
zero first index, vertex offset and first instance, between the begin and the end of exactly
one render pass; it resets exactly one fence, and that fence is the one passed to the single
queue submit. -/
theorem one_draw_per_iteration (vertices : List VulkanVertex) (indices : List Word32)
    (s : FrameState) (driver : FrameDriver)
    (hs : s.m_indexCount = (construct vertices indices).m_indexCount)
    (h : (drawFrame s driver).outcome = .completed) :
    (construct vertices indices).m_indexCount = indices.length % 2 ^ 32 ∧
    ∃ cmd framebuffer inFlight imageAvailable renderFinished : Handle,
      (drawFrame s driver).calls =
        frameCalls s inFlight imageAvailable renderFinished cmd framebuffer driver.imageIndex ∧
      (drawFrame s driver).calls.filter GpuCall.isDrawIndexed
        = [.vkCmdDrawIndexed cmd (indices.length % 2 ^ 32) 1 0 0 0] ∧
      (indices.length < 2 ^ 32 →
        (drawFrame s driver).calls.filter GpuCall.isDrawIndexed
          = [.vkCmdDrawIndexed cmd indices.length 1 0 0 0]) ∧
      (drawFrame s driver).calls.filter GpuCall.isBeginRenderPass
        = [.vkCmdBeginRenderPass cmd s.m_renderPass framebuffer s.m_swapchainExtent] ∧
      (drawFrame s driver).calls.filter GpuCall.isEndRenderPass = [.vkCmdEndRenderPass cmd] ∧
      (drawFrame s driver).calls.filter GpuCall.isResetFences
        = [.vkResetFences s.m_device [inFlight]] ∧
      (drawFrame s driver).calls.filter GpuCall.isQueueSubmit
        = [.vkQueueSubmit s.m_graphicsQueue [imageAvailable]
            [VK_PIPELINE_STAGE_COLOR_ATTACHMENT_OUTPUT_BIT] [cmd] [renderFinished] inFlight] := by
  have hc : (construct vertices indices).m_indexCount = indices.length % 2 ^ 32 := rfl
  refine ⟨hc, ?_⟩
  obtain ⟨inFlight, imageAvailable, renderFinished, cmd, framebuffer, _, _, _, _, _, heq⟩ :=
    drawFrame_completed s driver h
  have hcalls : (drawFrame s driver).calls =
      frameCalls s inFlight imageAvailable renderFinished cmd framebuffer driver.imageIndex := by
    rw [heq]
  have hd : (drawFrame s driver).calls.filter GpuCall.isDrawIndexed
      = [.vkCmdDrawIndexed cmd (indices.length % 2 ^ 32) 1 0 0 0] := by
    rw [hcalls, ← hc, ← hs]
    simp [frameCalls, GpuCall.isDrawIndexed]
  refine ⟨cmd, framebuffer, inFlight, imageAvailable, renderFinished, hcalls, hd, ?_, ?_, ?_,
    ?_, ?_⟩
  · intro hlt
    rw [hd, Nat.mod_eq_of_lt hlt]
  · rw [hcalls]; simp [frameCalls, GpuCall.isBeginRenderPass]
  · rw [hcalls]; simp [frameCalls, GpuCall.isEndRenderPass]
  · rw [hcalls]; simp [frameCalls, GpuCall.isResetFences]
  · rw [hcalls]; simp [frameCalls, GpuCall.isQueueSubmit]

/-- C13 witness: the 4-vertex, 2-triangle quad gives one draw with index count 6. -/
theorem one_draw_per_iteration_witness :
    (construct quadVertices quadIndices).m_indexCount = 6 ∧
    (drawFrame exampleState (successDriver 1)).calls.filter GpuCall.isDrawIndexed
      = [.vkCmdDrawIndexed 41 6 1 0 0 0] ∧
    ((construct quadVertices quadIndices).m_indexCount = quadIndices.length % 2 ^ 32 ∧
    ∃ cmd framebuffer inFlight imageAvailable renderFinished : Handle,
      (drawFrame exampleState (successDriver 1)).calls =
        frameCalls exampleState inFlight imageAvailable renderFinished cmd framebuffer
          (successDriver 1).imageIndex ∧
      (drawFrame exampleState (successDriver 1)).calls.filter GpuCall.isDrawIndexed
        = [.vkCmdDrawIndexed cmd (quadIndices.length % 2 ^ 32) 1 0 0 0] ∧
      (quadIndices.length < 2 ^ 32 →
        (drawFrame exampleState (successDriver 1)).calls.filter GpuCall.isDrawIndexed
          = [.vkCmdDrawIndexed cmd quadIndices.length 1 0 0 0]) ∧
      (drawFrame exampleState (successDriver 1)).calls.filter GpuCall.isBeginRenderPass
        = [.vkCmdBeginRenderPass cmd exampleState.m_renderPass framebuffer
            exampleState.m_swapchainExtent] ∧
      (drawFrame exampleState (successDriver 1)).calls.filter GpuCall.isEndRenderPass
        = [.vkCmdEndRenderPass cmd] ∧
      (drawFrame exampleState (successDriver 1)).calls.filter GpuCall.isResetFences
        = [.vkResetFences exampleState.m_device [inFlight]] ∧
      (drawFrame exampleState (successDriver 1)).calls.filter GpuCall.isQueueSubmit
        = [.vkQueueSubmit exampleState.m_graphicsQueue [imageAvailable]
            [VK_PIPELINE_STAGE_COLOR_ATTACHMENT_OUTPUT_BIT] [cmd] [renderFinished] inFlight]) :=
  ⟨by decide, by decide,
    one_draw_per_iteration quadVertices quadIndices exampleState (successDriver 1)
      (by decide) (by decide)⟩

/-- C19 counterexample: with a failing fence wait, a failing fence reset, a failing
command-buffer reset or a failing present (every other call succeeding) `drawFrame` completes
the iteration and advances the slot index from 0 to 1. -/
theorem every_failure_fatal_counterexample :
    ((drawFrame exampleState
        { successDriver 0 with waitForFences := VK_ERROR_DEVICE_LOST }).outcome = .completed ∧
      (drawFrame exampleState
        { successDriver 0 with waitForFences := VK_ERROR_DEVICE_LOST }).state.m_currentFrame
          = 1) ∧
    ((drawFrame exampleState
        { successDriver 0 with resetFences := VK_ERROR_DEVICE_LOST }).outcome = .completed ∧
      (drawFrame exampleState
        { successDriver 0 with resetFences := VK_ERROR_DEVICE_LOST }).state.m_currentFrame
          = 1) ∧
    ((drawFrame exampleState
        { successDriver 0 with resetCommandBuffer := VK_ERROR_DEVICE_LOST }).outcome
          = .completed ∧
      (drawFrame exampleState
        { successDriver 0 with resetCommandBuffer := VK_ERROR_DEVICE_LOST }).state.m_currentFrame
          = 1) ∧
    ((drawFrame exampleState
        { successDriver 0 with queuePresent := VK_ERROR_OUT_OF_DATE_KHR }).outcome
          = .completed ∧
      (drawFrame exampleState
        { successDriver 0 with queuePresent := VK_ERROR_OUT_OF_DATE_KHR }).state.m_currentFrame
          = 1) := by
  decide

theorem drawFrame_checked_failure (s : FrameState) (driver : FrameDriver)
    (hfail : (driver.acquireNextImage ≠ VK_SUCCESS ∧ driver.acquireNextImage ≠ VK_SUBOPTIMAL_KHR) ∨
      driver.beginCommandBuffer ≠ VK_SUCCESS ∨ driver.endCommandBuffer ≠ VK_SUCCESS ∨
      driver.queueSubmit ≠ VK_SUCCESS) :
    (drawFrame s driver).outcome ≠ .completed ∧
    (∀ inFlight imageAvailable renderFinished cmd framebuffer : Handle,
      s.m_inFlightFences[s.m_currentFrame]? = some inFlight →
      s.m_imageAvailableSemaphores[s.m_currentFrame]? = some imageAvailable →
      s.m_renderFinishedSemaphores[s.m_currentFrame]? = some renderFinished →
      s.m_commandBuffers[driver.imageIndex]? = some cmd →
      s.m_swapchainFramebuffers[driver.imageIndex]? = some framebuffer →
      ∃ message, (drawFrame s driver).outcome = .threw message) := by
  constructor
  · intro hc
    obtain ⟨_, _, _, _, _, h1, h2, h5, h3, h4, _⟩ := drawFrame_completed s driver hc
    unfold drawFrame at hc
    simp only [h1, h2, h3, h4, h5] at hc
    rcases hfail with ha | hb | he | hq
    · simp [ha] at hc
    · by_cases ha : driver.acquireNextImage ≠ VK_SUCCESS ∧
          driver.acquireNextImage ≠ VK_SUBOPTIMAL_KHR
      · simp [ha] at hc
      · simp [ha, hb] at hc
    · by_cases ha : driver.acquireNextImage ≠ VK_SUCCESS ∧
          driver.acquireNextImage ≠ VK_SUBOPTIMAL_KHR
      · simp [ha] at hc
      · by_cases hb : driver.beginCommandBuffer ≠ VK_SUCCESS
        · simp [ha, hb] at hc
        · simp [ha, hb, he] at hc
    · by_cases ha : driver.acquireNextImage ≠ VK_SUCCESS ∧
          driver.acquireNextImage ≠ VK_SUBOPTIMAL_KHR
      · simp [ha] at hc
      · by_cases hb : driver.beginCommandBuffer ≠ VK_SUCCESS
        · simp [ha, hb] at hc
        · by_cases he : driver.endCommandBuffer ≠ VK_SUCCESS
          · simp [ha, hb, he] at hc
          · simp [ha, hb, he, hq] at hc
  · intro inFlight imageAvailable renderFinished cmd framebuffer h1 h2 h5 h3 h4
    unfold drawFrame
    simp only [h1, h2, h3, h4, h5]
    by_cases ha : driver.acquireNextImage ≠ VK_SUCCESS ∧
        driver.acquireNextImage ≠ VK_SUBOPTIMAL_KHR
    · exact ⟨"Failed to acquire swapchain image", by simp [ha]⟩
    by_cases hb : driver.beginCommandBuffer ≠ VK_SUCCESS
    · exact ⟨"Failed to begin recording command buffer", by simp [ha, hb]⟩
    by_cases he : driver.endCommandBuffer ≠ VK_SUCCESS
    · exact ⟨"Failed to record command buffer", by simp [ha, hb, he]⟩
    by_cases hq : driver.queueSubmit ≠ VK_SUCCESS
    · exact ⟨"Failed to submit draw command buffer", by simp [ha, hb, he, hq]⟩
    · exfalso
      rcases hfail with h | h | h | h
      · exact ha h
      · exact hb h
      · exact he h
      · exact hq h

/-- C19 (amended): if the image acquire returns a result other than SUCCESS or SUBOPTIMAL, or
begin recording, end recording or queue submit returns a result other than SUCCESS, `drawFrame`
does not complete the iteration and leaves the members unchanged, so the slot index is not
advanced; with the slot and image indices within the vectors it throws. The result of the
present is not acted upon: `drawFrame` behaves the same whatever it is. -/
theorem checked_failures_fatal (s : FrameState) (driver : FrameDriver) :
    (((driver.acquireNextImage ≠ VK_SUCCESS ∧ driver.acquireNextImage ≠ VK_SUBOPTIMAL_KHR) ∨
        driver.beginCommandBuffer ≠ VK_SUCCESS ∨ driver.endCommandBuffer ≠ VK_SUCCESS ∨
        driver.queueSubmit ≠ VK_SUCCESS) →
      (drawFrame s driver).outcome ≠ .completed ∧
      (drawFrame s driver).state = s ∧
      (∀ inFlight imageAvailable renderFinished cmd framebuffer : Handle,
        s.m_inFlightFences[s.m_currentFrame]? = some inFlight →
        s.m_imageAvailableSemaphores[s.m_currentFrame]? = some imageAvailable →
        s.m_renderFinishedSemaphores[s.m_currentFrame]? = some renderFinished →
        s.m_commandBuffers[driver.imageIndex]? = some cmd →
        s.m_swapchainFramebuffers[driver.imageIndex]? = some framebuffer →
        ∃ message, (drawFrame s driver).outcome = .threw message)) ∧
    (∀ result : VkResult,
      drawFrame s { driver with queuePresent := result } = drawFrame s driver) := by
  refine ⟨fun hfail => ?_, fun _ => rfl⟩
  obtain ⟨h1, h2⟩ := drawFrame_checked_failure s driver hfail
  exact ⟨h1, drawFrame_state_of_not_completed s driver h1, h2⟩

/-- C19 witness: in the example state a failing submit throws and leaves the slot index at 0. -/
theorem checked_failures_fatal_witness :
    (drawFrame exampleState { successDriver 1 with queueSubmit := VK_ERROR_DEVICE_LOST }).outcome
      = .threw "Failed to submit draw command buffer" ∧
    ((drawFrame exampleState
        { successDriver 1 with queueSubmit := VK_ERROR_DEVICE_LOST }).outcome ≠ .completed ∧
      (drawFrame exampleState { successDriver 1 with queueSubmit := VK_ERROR_DEVICE_LOST }).state
        = exampleState ∧
      (∀ inFlight imageAvailable renderFinished cmd framebuffer : Handle,
        exampleState.m_inFlightFences[exampleState.m_currentFrame]? = some inFlight →
        exampleState.m_imageAvailableSemaphores[exampleState.m_currentFrame]?
          = some imageAvailable →
        exampleState.m_renderFinishedSemaphores[exampleState.m_currentFrame]?
          = some renderFinished →
        exampleState.m_commandBuffers[
          ({ successDriver 1 with queueSubmit := VK_ERROR_DEVICE_LOST } : FrameDriver).imageIndex]?
          = some cmd →
        exampleState.m_swapchainFramebuffers[
          ({ successDriver 1 with queueSubmit := VK_ERROR_DEVICE_LOST } : FrameDriver).imageIndex]?
          = some framebuffer →
        ∃ message, (drawFrame exampleState
          { successDriver 1 with queueSubmit := VK_ERROR_DEVICE_LOST }).outcome
            = .threw message)) :=
  ⟨by decide,
    (checked_failures_fatal exampleState
      { successDriver 1 with queueSubmit := VK_ERROR_DEVICE_LOST }).1
      (Or.inr (Or.inr (Or.inr (by decide))))⟩

/-! ### Fence protocol -/

theorem GpuSync.execAll_frameCalls (g : GpuSync) (s : FrameState)
    (inFlight imageAvailable renderFinished cmd framebuffer : Handle) (imageIndex : Nat) :
    g.execAll (frameCalls s inFlight imageAvailable renderFinished cmd framebuffer imageIndex) =
      if inFlight ∈ g.signaled then
        some { signaled := g.signaled.filter (fun f => decide (f ∉ [inFlight])),
               outstanding := g.outstanding ++ [⟨[cmd], inFlight⟩] }
      else none := by
  by_cases h : inFlight ∈ g.signaled
  · simp [frameCalls, GpuSync.execAll, GpuSync.exec, h]
  · simp [frameCalls, GpuSync.execAll, GpuSync.exec, h]

theorem Sys.step_frame (st st1 : Sys) (driver : FrameDriver)
    (h : st.step (.frame driver) = some st1) :
    ∃ inFlight imageAvailable renderFinished cmd framebuffer : Handle,
      st.app.m_inFlightFences[st.app.m_currentFrame]? = some inFlight ∧
      st.app.m_commandBuffers[driver.imageIndex]? = some cmd ∧
      (drawFrame st.app driver).calls =
        frameCalls st.app inFlight imageAvailable renderFinished cmd framebuffer
          driver.imageIndex ∧
      inFlight ∈ st.gpu.signaled ∧
      st1 = ⟨{ st.app with m_currentFrame := (st.app.m_currentFrame + 1) % MAX_FRAMES_IN_FLIGHT },
              { signaled := st.gpu.signaled.filter (fun f => decide (f ∉ [inFlight])),
                outstanding := st.gpu.outstanding ++ [⟨[cmd], inFlight⟩] },
              st.frames + 1, some driver.imageIndex⟩ := by
  simp only [Sys.step] at h
  by_cases hc : (drawFrame st.app driver).outcome = .completed
  · obtain ⟨inFlight, imageAvailable, renderFinished, cmd, framebuffer, hF, _, _, hC, _, heq⟩ :=
      drawFrame_completed st.app driver hc
    rw [if_pos hc, heq] at h
    simp only [GpuSync.execAll_frameCalls] at h
    by_cases hs : inFlight ∈ st.gpu.signaled
    · rw [if_pos hs] at h
      simp only [Option.map_some', Option.some.injEq] at h
      exact ⟨inFlight, imageAvailable, renderFinished, cmd, framebuffer, hF, hC, by rw [heq], hs,
        h.symm⟩
    · rw [if_neg hs] at h
      simp at h
  · rw [if_neg hc] at h
    simp at h

theorem Sys.step_gpuComplete (st st1 : Sys) (k : Nat)
    (h : st.step (.gpuComplete k) = some st1) :
    ∃ sub, st.gpu.outstanding[k]? = some sub ∧
      st1 = { st with gpu := { signaled := sub.fence :: st.gpu.signaled,
                               outstanding := st.gpu.outstanding.eraseIdx k } } := by
  simp only [Sys.step, GpuSync.complete] at h
  cases hk : st.gpu.outstanding[k]? with
  | none => simp [hk] at h
  | some sub =>
    simp only [hk, Option.map_some', Option.some.injEq] at h
    exact ⟨sub, rfl, h.symm⟩

theorem eraseIdx_fence_ne (l : List Submission) (k : Nat) (sub : Submission)
    (hk : l[k]? = some sub) (hn : (l.map Submission.fence).Nodup) :
    ∀ x ∈ l.eraseIdx k, x.fence ≠ sub.fence := by
  induction l generalizing k with
  | nil => simp at hk
  | cons a rest ih =>
    rw [List.map_cons, List.nodup_cons] at hn
    cases k with
    | zero =>
      simp only [List.getElem?_cons_zero, Option.some.injEq] at hk
      subst hk
      intro x hx heq
      simp only [List.eraseIdx_cons_zero] at hx
      exact hn.1 (heq ▸ List.mem_map_of_mem _ hx)
    | succ j =>
      simp only [List.getElem?_cons_succ] at hk
      intro x hx
      simp only [List.eraseIdx_cons_succ, List.mem_cons] at hx
      rcases hx with rfl | hx
      · intro heq
        exact hn.1 (heq ▸ List.mem_map_of_mem _ (List.getElem?_mem hk))
      · exact ih j hk hn.2 x hx

theorem Sys.step_fenceInv (st st1 : Sys) (e : Event) (h : st.step e = some st1)
    (hinv : st.FenceInv) :
    st1.FenceInv ∧ st1.app.m_inFlightFences = st.app.m_inFlightFences ∧
      st1.app.m_commandBuffers = st.app.m_commandBuffers := by
  obtain ⟨hnd, hmem, huns⟩ := hinv
  cases e with
  | frame driver =>
    obtain ⟨inFlight, _, _, cmd, _, hF, _, _, hs, rfl⟩ := Sys.step_frame st st1 driver h
    refine ⟨⟨?_, ?_, ?_⟩, rfl, rfl⟩
    · simp only [List.map_append, List.map_cons, List.map_nil]
      rw [List.nodup_append]
      refine ⟨hnd, List.nodup_singleton _, ?_⟩
      intro x hx hx2
      simp only [List.mem_singleton] at hx2
      subst hx2
      obtain ⟨sub, hsub, rfl⟩ := List.mem_map.1 hx
      exact huns sub hsub hs
    · intro sub hsub
      simp only [List.mem_append, List.mem_singleton] at hsub
      rcases hsub with hsub | rfl
      · exact hmem sub hsub
      · exact List.getElem?_mem hF
    · intro sub hsub hsig
      simp only [List.mem_filter, List.mem_singleton, decide_eq_true_eq] at hsig
      simp only [List.mem_append, List.mem_singleton] at hsub
      rcases hsub with hsub | rfl
      · exact huns sub hsub hsig.1
      · exact hsig.2 rfl
  | gpuComplete k =>
    obtain ⟨sub, hk, rfl⟩ := Sys.step_gpuComplete st st1 k h
    refine ⟨⟨?_, ?_, ?_⟩, rfl, rfl⟩
    · exact hnd.sublist ((List.eraseIdx_sublist _ _).map _)
    · intro x hx
      exact hmem x ((List.eraseIdx_sublist _ _).subset hx)
    · intro x hx hsig
      simp only [List.mem_cons] at hsig
      rcases hsig with heq | hsig
      · exact eraseIdx_fence_ne _ k sub hk hnd x hx heq
      · exact huns x ((List.eraseIdx_sublist _ _).subset hx) hsig

theorem Sys.run_fenceInv (st st1 : Sys) (events : List Event) (h : st.run events = some st1)
    (hinv : st.FenceInv) :
    st1.FenceInv ∧ st1.app.m_inFlightFences = st.app.m_inFlightFences ∧
      st1.app.m_commandBuffers = st.app.m_commandBuffers := by
  induction events generalizing st with
  | nil =>
    simp only [Sys.run, Option.some.injEq] at h
    subst h
    exact ⟨hinv, rfl, rfl⟩
  | cons e rest ih =>
    simp only [Sys.run] at h
    cases hs : st.step e with
    | none => simp [hs] at h
    | some st2 =>
      simp only [hs, Option.some_bind] at h
      obtain ⟨h1, h2, h3⟩ := Sys.step_fenceInv st st2 e hs hinv
      obtain ⟨h4, h5, h6⟩ := ih st2 h h1
      exact ⟨h4, h5.trans h2, h6.trans h3⟩

theorem Sys.init_fenceInv (s : FrameState) : (Sys.init s).FenceInv := by
  simp [Sys.FenceInv, Sys.init]

/-- C17: in every state the system reaches from the start of the frame loop, by `drawFrame`
iterations (each waiting for `inFlight[f]` to be signaled, resetting it and submitting one frame
that arms it) and GPU completions at arbitrary times, the number of submitted-but-not-completed
frames is at most `N = 2`. -/
theorem bounded_frames_in_flight (s : FrameState) (events : List Event) (st : Sys)
    (hlen : s.m_inFlightFences.length = MAX_FRAMES_IN_FLIGHT)
    (hrun : (Sys.init s).run events = some st) :
    st.gpu.outstanding.length ≤ MAX_FRAMES_IN_FLIGHT := by
  obtain ⟨⟨hnd, hmem, _⟩, hF, _⟩ := Sys.run_fenceInv _ st events hrun (Sys.init_fenceInv s)
  have hsub : st.gpu.outstanding.map Submission.fence ⊆ st.app.m_inFlightFences := by
    intro x hx
    obtain ⟨sub, hsub, rfl⟩ := List.mem_map.1 hx
    exact hmem sub hsub
  have := (List.subperm_of_subset hnd hsub).length_le
  rw [List.length_map, hF] at this
  simpa [Sys.init, hlen] using this

/-- C17 witness: in the example state two iterations leave two frames outstanding; a third
iteration cannot start before the GPU completes the first frame, and after that completion it
leaves two frames outstanding again. -/
theorem bounded_frames_in_flight_witness :
    (Sys.init exampleState).run
        [.frame (successDriver 0), .frame (successDriver 1), .frame (successDriver 2)] = none ∧
    (Sys.init exampleState).run
        [.frame (successDriver 0), .frame (successDriver 1), .gpuComplete 0,
          .frame (successDriver 2)]
      = some ⟨{ exampleState with m_currentFrame := 1 },
          ⟨[], [⟨[41], 71⟩, ⟨[42], 70⟩]⟩, 3, some 2⟩ ∧
    (⟨{ exampleState with m_currentFrame := 1 },
        ⟨[], [⟨[41], 71⟩, ⟨[42], 70⟩]⟩, 3, some 2⟩ : Sys).gpu.outstanding.length
      ≤ MAX_FRAMES_IN_FLIGHT :=
  ⟨by decide, by decide,
    bounded_frames_in_flight exampleState
      [.frame (successDriver 0), .frame (successDriver 1), .gpuComplete 0,
        .frame (successDriver 2)] _ (by decide) (by decide)⟩

theorem Sys.step_lastInv (st st1 : Sys) (e : Event) (h : st.step e = some st1)
    (hlen : st.app.m_inFlightFences.length = MAX_FRAMES_IN_FLIGHT)
    (hinv : st.FenceInv) (hlast : st.LastInv) : st1.LastInv := by
  obtain ⟨hnd, hmem, huns⟩ := hinv
  obtain ⟨hcf, hl⟩ := hlast
  cases e with
  | frame driver =>
    obtain ⟨inFlight, _, _, cmd, _, hF, hC, _, hs, rfl⟩ := Sys.step_frame st st1 driver h
    refine ⟨Nat.mod_lt _ (by decide), ?_⟩
    intro sub hsub hne
    simp only [List.mem_append, List.mem_singleton] at hsub
    rcases hsub with hsub | rfl
    · exfalso
      apply hne
      obtain ⟨n, hn⟩ := List.mem_iff_getElem?.1 (hmem sub hsub)
      have hnlt : n < MAX_FRAMES_IN_FLIGHT := by
        rw [← hlen]
        exact (List.getElem?_eq_some.1 hn).1
      have hnf : n ≠ st.app.m_currentFrame := by
        rintro rfl
        rw [hF] at hn
        simp only [Option.some.injEq] at hn
        exact huns sub hsub (hn ▸ hs)
      have : (st.app.m_currentFrame + 1) % MAX_FRAMES_IN_FLIGHT = n := by
        simp only [MAX_FRAMES_IN_FLIGHT] at hnlt hcf ⊢
        omega
      show st.app.m_inFlightFences[(st.app.m_currentFrame + 1) % MAX_FRAMES_IN_FLIGHT]? = _
      rw [this, hn]
    · exact ⟨driver.imageIndex, cmd, rfl, hC, rfl⟩
  | gpuComplete k =>
    obtain ⟨sub, hk, rfl⟩ := Sys.step_gpuComplete st st1 k h
    refine ⟨hcf, ?_⟩
    intro x hx hne
    exact hl x ((List.eraseIdx_sublist _ _).subset hx) hne

theorem Sys.run_lastInv (st st1 : Sys) (events : List Event) (h : st.run events = some st1)
    (hlen : st.app.m_inFlightFences.length = MAX_FRAMES_IN_FLIGHT)
    (hinv : st.FenceInv) (hlast : st.LastInv) : st1.LastInv := by
  induction events generalizing st with
  | nil =>
    simp only [Sys.run, Option.some.injEq] at h
    subst h
    exact hlast
  | cons e rest ih =>
    simp only [Sys.run] at h
    cases hs : st.step e with
    | none => simp [hs] at h
    | some st2 =>
      simp only [hs, Option.some_bind] at h
      obtain ⟨h1, h2, _⟩ := Sys.step_fenceInv st st2 e hs hinv
      exact ih st2 h (h2 ▸ hlen) h1 (Sys.step_lastInv st st2 e hs hlen hinv hlast)

/-- C18 counterexample: with three swapchain images, an iteration in slot 0 acquires image 0
and submits command buffer 40; the next iteration, in slot 1, passes its wait (the fence of
slot 1 is still signaled), acquires image 0 again and resets command buffer 40 while the
submission of the first iteration is outstanding. -/
theorem fence_prevents_overwrite_counterexample :
    (successDriver 0).imageIndex < exampleState.m_swapchainImages.length ∧
    (Sys.init exampleState).run [.frame (successDriver 0)]
      = some ⟨{ exampleState with m_currentFrame := 1 }, ⟨[71], [⟨[40], 70⟩]⟩, 1, some 0⟩ ∧
    ((⟨{ exampleState with m_currentFrame := 1 }, ⟨[71], [⟨[40], 70⟩]⟩, 1, some 0⟩ : Sys).step
      (.frame (successDriver 0))).isSome = true ∧
    GpuCall.vkResetCommandBuffer 40 0 ∈
      (drawFrame { exampleState with m_currentFrame := 1 } (successDriver 0)).calls ∧
    (⟨{ exampleState with m_currentFrame := 1 }, ⟨[71], [⟨[40], 70⟩]⟩, 1, some 0⟩ : Sys).hazard
      (successDriver 0) = true := by
  decide

/-- C18 (amended): in every state the system reaches from the start of the frame loop, when a
`drawFrame` iteration runs in slot `f` no outstanding submission is armed with `inFlight[f]`;
and when the image index it acquires differs from the index acquired by the previous iteration
(the command-buffer handles being pairwise distinct), no submission outstanding at its start,
and so none outstanding when it resets `commandBuffers[i]`, contains that command buffer. -/
theorem slot_fence_protects_slot (s : FrameState) (events : List Event) (st st1 : Sys)
    (driver : FrameDriver)
    (hlen : s.m_inFlightFences.length = MAX_FRAMES_IN_FLIGHT)
    (hcf : s.m_currentFrame < MAX_FRAMES_IN_FLIGHT)
    (hnd : s.m_commandBuffers.Nodup)
    (hrun : (Sys.init s).run events = some st)
    (hstep : st.step (.frame driver) = some st1) :
    (∀ sub ∈ st.gpu.outstanding,
      st.app.m_inFlightFences[st.app.m_currentFrame]? ≠ some sub.fence) ∧
    (st.lastImage ≠ some driver.imageIndex → st.hazard driver = false) := by
  obtain ⟨hinv, hF, hC⟩ := Sys.run_fenceInv _ st events hrun (Sys.init_fenceInv s)
  have hlast : st.LastInv :=
    Sys.run_lastInv _ st events hrun hlen (Sys.init_fenceInv s) ⟨hcf, by simp [Sys.init]⟩
  obtain ⟨inFlight, _, _, cmd, _, hFl, hCl, hcalls, hs, _⟩ := Sys.step_frame st st1 driver hstep
  have hfence : ∀ sub ∈ st.gpu.outstanding,
      st.app.m_inFlightFences[st.app.m_currentFrame]? ≠ some sub.fence := by
    intro sub hsub heq
    rw [hFl] at heq
    simp only [Option.some.injEq] at heq
    exact hinv.2.2 sub hsub (heq ▸ hs)
  refine ⟨hfence, fun hne => ?_⟩
  have hhaz : st.hazard driver
      = st.gpu.outstanding.any (fun sub => decide (cmd ∈ sub.commandBuffers)) := by
    simp [Sys.hazard, hcalls, frameCalls]
  rw [hhaz, Bool.eq_false_iff]
  intro hany
  obtain ⟨sub, hsub, hin⟩ := List.any_eq_true.1 hany
  simp only [decide_eq_true_eq] at hin
  obtain ⟨j, cmdj, hj, hcj, hsubc⟩ := hlast.2 sub hsub (hfence sub hsub)
  rw [hsubc, List.mem_singleton] at hin
  subst hin
  have hCs : st.app.m_commandBuffers.Nodup := by
    rw [hC]; exact hnd
  have := nodup_getElem?_unique hCs hcj hCl
  exact hne (this ▸ hj)

/-- C18 witness: in the example state, after an iteration that acquired image 0, an iteration
acquiring image 1 resets command buffer 41, which no outstanding submission contains. -/
theorem slot_fence_protects_slot_witness :
    (Sys.init exampleState).run [.frame (successDriver 0)]
      = some ⟨{ exampleState with m_currentFrame := 1 }, ⟨[71], [⟨[40], 70⟩]⟩, 1, some 0⟩ ∧
    (⟨{ exampleState with m_currentFrame := 1 }, ⟨[71], [⟨[40], 70⟩]⟩, 1, some 0⟩ : Sys).hazard
      (successDriver 1) = false :=
  ⟨by decide,
    (slot_fence_protects_slot exampleState [.frame (successDriver 0)]
      ⟨{ exampleState with m_currentFrame := 1 }, ⟨[71], [⟨[40], 70⟩]⟩, 1, some 0⟩
      ⟨exampleState, ⟨[], [⟨[40], 70⟩, ⟨[41], 71⟩]⟩, 2, some 1⟩
      (successDriver 1) (by decide) (by decide) (by decide) (by decide) (by decide)).2
      (by decide)⟩

/-! ### Synchronisation objects -/

theorem resize_length (v : List Handle) (n : Nat) : (resize v n).length = n := by
  simp only [resize, List.length_append, List.length_take, List.length_replicate]
  omega

theorem set_set_of_length_two (v : List Handle) (a b : Handle) (h : v.length = 2) :
    (v.set 0 a).set 1 b = [a, b] := by
  match v, h with
  | [x, y], _ => rfl

theorem set_preserves_length_two (v : List Handle) (a : Handle) (h : v.length = 2) :
    (v.set 0 a).length = 2 := by
  rw [List.length_set, h]

theorem createSyncObjects_completed (s : FrameState) (d : SyncDriver)
    (h : (createSyncObjects s d).outcome = .completed) :
    createSyncObjects s d =
      ⟨{ s with
          m_imageAvailableSemaphores := [d.imageAvailable 0, d.imageAvailable 1]
          m_renderFinishedSemaphores := [d.renderFinished 0, d.renderFinished 1]
          m_inFlightFences := [d.fence 0, d.fence 1] },
        [.vkCreateSemaphore s.m_device (d.imageAvailable 0),
         .vkCreateSemaphore s.m_device (d.renderFinished 0),
         .vkCreateFence s.m_device VK_FENCE_CREATE_SIGNALED_BIT (d.fence 0),
         .vkCreateSemaphore s.m_device (d.imageAvailable 1),
         .vkCreateSemaphore s.m_device (d.renderFinished 1),
         .vkCreateFence s.m_device VK_FENCE_CREATE_SIGNALED_BIT (d.fence 1)],
        .completed⟩ := by
  have hA := resize_length s.m_imageAvailableSemaphores 2
  have hR := resize_length s.m_renderFinishedSemaphores 2
  have hF := resize_length s.m_inFlightFences 2
  simp only [createSyncObjects, MAX_FRAMES_IN_FLIGHT, createSyncObjects.loop] at h ⊢
  by_cases a0 : d.createImageAvailable 0 ≠ VK_SUCCESS
  · simp [a0] at h
  by_cases r0 : d.createRenderFinished 0 ≠ VK_SUCCESS
  · simp [a0, r0] at h
  by_cases f0 : d.createFence 0 ≠ VK_SUCCESS
  · simp [a0, r0, f0] at h
  by_cases a1 : d.createImageAvailable 1 ≠ VK_SUCCESS
  · simp [a0, r0, f0, a1] at h
  by_cases r1 : d.createRenderFinished 1 ≠ VK_SUCCESS
  · simp [a0, r0, f0, a1, r1] at h
  by_cases f1 : d.createFence 1 ≠ VK_SUCCESS
  · simp [a0, r0, f0, a1, r1, f1] at h
  simp only [if_neg a0, if_neg r0, if_neg f0, if_neg a1, if_neg r1, if_neg f1,
    set_set_of_length_two _ _ _ hA, set_set_of_length_two _ _ _ hR,
    set_set_of_length_two _ _ _ hF, List.nil_append, List.cons_append]

theorem Sys.step_firstWaitInv (fences : List Handle) (st st1 : Sys) (e : Event)
    (h : st.step e = some st1)
    (hlen : fences.length = MAX_FRAMES_IN_FLIGHT) (hnd : fences.Nodup)
    (hinv : st.FirstWaitInv fences) : st1.FirstWaitInv fences := by
  obtain ⟨hF, hcf, hsig⟩ := hinv
  cases e with
  | frame driver =>
    obtain ⟨inFlight, _, _, cmd, _, hFl, _, _, _, rfl⟩ := Sys.step_frame st st1 driver h
    refine ⟨hF, ?_, ?_⟩
    · show (st.app.m_currentFrame + 1) % MAX_FRAMES_IN_FLIGHT
        = (st.frames + 1) % MAX_FRAMES_IN_FLIGHT
      rw [hcf]
      simp only [MAX_FRAMES_IN_FLIGHT]
      omega
    · intro j fence hj hfj
      replace hj : st.frames + 1 ≤ j := hj
      have hjlt : j < MAX_FRAMES_IN_FLIGHT := by
        rw [← hlen]
        exact (List.getElem?_eq_some.1 hfj).1
      simp only [List.mem_filter, List.mem_singleton, decide_eq_true_eq]
      refine ⟨hsig j fence (by omega) hfj, ?_⟩
      rintro rfl
      rw [hF] at hFl
      have := nodup_getElem?_unique hnd hfj hFl
      simp only [MAX_FRAMES_IN_FLIGHT] at hjlt hcf
      omega
  | gpuComplete k =>
    obtain ⟨sub, hk, rfl⟩ := Sys.step_gpuComplete st st1 k h
    exact ⟨hF, hcf, fun j fence hj hfj => List.mem_cons_of_mem _ (hsig j fence hj hfj)⟩

theorem Sys.run_firstWaitInv (fences : List Handle) (st st1 : Sys) (events : List Event)
    (h : st.run events = some st1)
    (hlen : fences.length = MAX_FRAMES_IN_FLIGHT) (hnd : fences.Nodup)
    (hinv : st.FirstWaitInv fences) : st1.FirstWaitInv fences := by
  induction events generalizing st with
  | nil =>
    simp only [Sys.run, Option.some.injEq] at h
    subst h
    exact hinv
  | cons e rest ih =>
    simp only [Sys.run] at h
    cases hs : st.step e with
    | none => simp [hs] at h
    | some st2 =>
      simp only [hs, Option.some_bind] at h
      exact ih st2 h (Sys.step_firstWaitInv fences st st2 e hs hlen hnd hinv)

theorem createSyncObjects_success (s : FrameState) (d : SyncDriver) (h : d.AllSucceed) :
    createSyncObjects s d =
      ⟨{ s with
          m_imageAvailableSemaphores := [d.imageAvailable 0, d.imageAvailable 1]
          m_renderFinishedSemaphores := [d.renderFinished 0, d.renderFinished 1]
          m_inFlightFences := [d.fence 0, d.fence 1] },
        [.vkCreateSemaphore s.m_device (d.imageAvailable 0),
         .vkCreateSemaphore s.m_device (d.renderFinished 0),
         .vkCreateFence s.m_device VK_FENCE_CREATE_SIGNALED_BIT (d.fence 0),
         .vkCreateSemaphore s.m_device (d.imageAvailable 1),
         .vkCreateSemaphore s.m_device (d.renderFinished 1),
         .vkCreateFence s.m_device VK_FENCE_CREATE_SIGNALED_BIT (d.fence 1)],
        .completed⟩ := by
  have hA := resize_length s.m_imageAvailableSemaphores 2
  have hR := resize_length s.m_renderFinishedSemaphores 2
  have hF := resize_length s.m_inFlightFences 2
  obtain ⟨a0, r0, f0⟩ := h 0 (by decide)
  obtain ⟨a1, r1, f1⟩ := h 1 (by decide)
  simp only [createSyncObjects, MAX_FRAMES_IN_FLIGHT, createSyncObjects.loop, a0, r0, f0, a1, r1,
    f1, ne_eq, not_true_eq_false, if_false, set_set_of_length_two _ _ _ hA,
    set_set_of_length_two _ _ _ hR, set_set_of_length_two _ _ _ hF, List.nil_append,
    List.cons_append]

theorem createSyncObjects_outcome (s : FrameState) (d : SyncDriver) :
    ((createSyncObjects s d).outcome = .completed ↔ d.AllSucceed) ∧
    ((createSyncObjects s d).outcome ≠ .completed →
      (createSyncObjects s d).outcome = .threw "Failed to create sync objects") := by
  have hall : d.AllSucceed ↔
      (d.createImageAvailable 0 = VK_SUCCESS ∧ d.createRenderFinished 0 = VK_SUCCESS ∧
        d.createFence 0 = VK_SUCCESS) ∧
      (d.createImageAvailable 1 = VK_SUCCESS ∧ d.createRenderFinished 1 = VK_SUCCESS ∧
        d.createFence 1 = VK_SUCCESS) := by
    constructor
    · intro h
      exact ⟨h 0 (by decide), h 1 (by decide)⟩
    · rintro ⟨h0, h1⟩ i hi
      have : i = 0 ∨ i = 1 := by
        simp only [MAX_FRAMES_IN_FLIGHT] at hi
        omega
      rcases this with rfl | rfl
      · exact h0
      · exact h1
  rw [hall]
  simp only [createSyncObjects, MAX_FRAMES_IN_FLIGHT, createSyncObjects.loop]
  by_cases a0 : d.createImageAvailable 0 ≠ VK_SUCCESS
  · simp [a0]
  by_cases r0 : d.createRenderFinished 0 ≠ VK_SUCCESS
  · simp [a0, r0]
  by_cases f0 : d.createFence 0 ≠ VK_SUCCESS
  · simp [a0, r0, f0]
  by_cases a1 : d.createImageAvailable 1 ≠ VK_SUCCESS
  · simp [a0, r0, f0, a1]
  by_cases r1 : d.createRenderFinished 1 ≠ VK_SUCCESS
  · simp [a0, r0, f0, a1, r1]
  by_cases f1 : d.createFence 1 ≠ VK_SUCCESS
  · simp [a0, r0, f0, a1, r1, f1]
  simp [a0, r0, f0, a1, r1, f1, not_not.1 a0, not_not.1 r0, not_not.1 f0, not_not.1 a1,
    not_not.1 r1, not_not.1 f1]

theorem GpuSync.trackAll_frameCalls (g : GpuSync) (s : FrameState)
    (inFlight imageAvailable renderFinished cmd framebuffer : Handle) (imageIndex : Nat) :
    g.trackAll (frameCalls s inFlight imageAvailable renderFinished cmd framebuffer imageIndex) =
      { signaled := g.signaled.filter (fun f => decide (f ∉ [inFlight])),
        outstanding := g.outstanding ++ [⟨[cmd], inFlight⟩] } := by
  simp [frameCalls, GpuSync.trackAll, GpuSync.track]

theorem Sys.stepAny_frame (st st1 : Sys) (driver : FrameDriver)
    (h : st.stepAny (.frame driver) = some st1) :
    ∃ inFlight imageAvailable renderFinished cmd framebuffer : Handle,
      st.app.m_inFlightFences[st.app.m_currentFrame]? = some inFlight ∧
      (drawFrame st.app driver).calls =
        frameCalls st.app inFlight imageAvailable renderFinished cmd framebuffer
          driver.imageIndex ∧
      st1 = ⟨{ st.app with m_currentFrame := (st.app.m_currentFrame + 1) % MAX_FRAMES_IN_FLIGHT },
              { signaled := st.gpu.signaled.filter (fun f => decide (f ∉ [inFlight])),
                outstanding := st.gpu.outstanding ++ [⟨[cmd], inFlight⟩] },
              st.frames + 1, some driver.imageIndex⟩ := by
  simp only [Sys.stepAny] at h
  by_cases hc : (drawFrame st.app driver).outcome = .completed
  · obtain ⟨inFlight, imageAvailable, renderFinished, cmd, framebuffer, hF, _, _, _, _, heq⟩ :=
      drawFrame_completed st.app driver hc
    rw [if_pos hc, heq] at h
    simp only [GpuSync.trackAll_frameCalls, Option.some.injEq] at h
    exact ⟨inFlight, imageAvailable, renderFinished, cmd, framebuffer, hF, by rw [heq], h.symm⟩
  · rw [if_neg hc] at h
    simp at h

theorem Sys.step_stepAny (st st1 : Sys) (e : Event) (h : st.step e = some st1) :
    st.stepAny e = some st1 := by
  cases e with
  | frame driver =>
    obtain ⟨inFlight, imageAvailable, renderFinished, cmd, framebuffer, _, _, hcalls, _, rfl⟩ :=
      Sys.step_frame st st1 driver h
    have hc : (drawFrame st.app driver).outcome = .completed := by
      simp only [Sys.step] at h
      by_contra hne
      rw [if_neg hne] at h
      simp at h
    obtain ⟨i2, a2, r2, c2, f2, _, _, _, _, _, heq⟩ := drawFrame_completed st.app driver hc
    simp only [Sys.stepAny]
    rw [if_pos hc, hcalls, GpuSync.trackAll_frameCalls, heq]
  | gpuComplete k => exact h

theorem Sys.run_runAny (st st1 : Sys) (events : List Event) (h : st.run events = some st1) :
    st.runAny events = some st1 := by
  induction events generalizing st with
  | nil => exact h
  | cons e rest ih =>
    simp only [Sys.run] at h
    cases hs : st.step e with
    | none => simp [hs] at h
    | some st2 =>
      simp only [hs, Option.some_bind] at h
      simp only [Sys.runAny, Sys.step_stepAny st st2 e hs, Option.some_bind]
      exact ih st2 h

theorem Sys.stepAny_firstWaitInv (fences : List Handle) (st st1 : Sys) (e : Event)
    (h : st.stepAny e = some st1)
    (hlen : fences.length = MAX_FRAMES_IN_FLIGHT) (hnd : fences.Nodup)
    (hinv : st.FirstWaitInv fences) :
    st1.FirstWaitInv fences ∧ st1.app.m_device = st.app.m_device := by
  obtain ⟨hF, hcf, hsig⟩ := hinv
  cases e with
  | frame driver =>
    obtain ⟨inFlight, _, _, cmd, _, hFl, _, rfl⟩ := Sys.stepAny_frame st st1 driver h
    refine ⟨⟨hF, ?_, ?_⟩, rfl⟩
    · show (st.app.m_currentFrame + 1) % MAX_FRAMES_IN_FLIGHT
        = (st.frames + 1) % MAX_FRAMES_IN_FLIGHT
      rw [hcf]
      simp only [MAX_FRAMES_IN_FLIGHT]
      omega
    · intro j fence hj hfj
      replace hj : st.frames + 1 ≤ j := hj
      have hjlt : j < MAX_FRAMES_IN_FLIGHT := by
        rw [← hlen]
        exact (List.getElem?_eq_some.1 hfj).1
      simp only [List.mem_filter, List.mem_singleton, decide_eq_true_eq]
      refine ⟨hsig j fence (by omega) hfj, ?_⟩
      rintro rfl
      rw [hF] at hFl
      have := nodup_getElem?_unique hnd hfj hFl
      simp only [MAX_FRAMES_IN_FLIGHT] at hjlt hcf
      omega
  | gpuComplete k =>
    simp only [Sys.stepAny] at h
    obtain ⟨sub, hk, rfl⟩ := Sys.step_gpuComplete st st1 k h
    exact ⟨⟨hF, hcf, fun j fence hj hfj => List.mem_cons_of_mem _ (hsig j fence hj hfj)⟩, rfl⟩

theorem Sys.runAny_firstWaitInv (fences : List Handle) (st st1 : Sys) (events : List Event)
    (h : st.runAny events = some st1)
    (hlen : fences.length = MAX_FRAMES_IN_FLIGHT) (hnd : fences.Nodup)
    (hinv : st.FirstWaitInv fences) :
    st1.FirstWaitInv fences ∧ st1.app.m_device = st.app.m_device := by
  induction events generalizing st with
  | nil =>
    simp only [Sys.runAny, Option.some.injEq] at h
    subst h
    exact ⟨hinv, rfl⟩
  | cons e rest ih =>
    simp only [Sys.runAny] at h
    cases hs : st.stepAny e with
    | none => simp [hs] at h
    | some st2 =>
      simp only [hs, Option.some_bind] at h
      obtain ⟨h1, h2⟩ := Sys.stepAny_firstWaitInv fences st st2 e hs hlen hnd hinv
      obtain ⟨h3, h4⟩ := ih st2 h h1
      exact ⟨h3, h4.trans h2⟩

theorem drawFrame_first_call (s : FrameState) (driver : FrameDriver) (inFlight : Handle)
    (h : s.m_inFlightFences[s.m_currentFrame]? = some inFlight) :
    (drawFrame s driver).calls.head?
      = some (.vkWaitForFences s.m_device [inFlight] true UINT64_MAX) := by
  unfold drawFrame
  rw [h]
  simp only []
  repeat' split
  all_goals rfl

/-- C15: `createSyncObjects` completes exactly when its six creation calls succeed, and throws
"Failed to create sync objects" otherwise. When they succeed, whatever the members held before
(the swapchain vectors among them, which it leaves alone, and the three vectors it fills,
empty after construction), it leaves exactly `N = 2` image-available semaphores, `N`
render-finished semaphores and `N` fences, the handles the driver wrote, having made four
semaphore creations and two fence creations, each fence with the signaled bit, so that both
fences start signaled. Consequently, the two fences being different handles and the slot index
starting at 0: in every state the frame loop and the GPU reach before `N` iterations have run,
whatever the waits of earlier iterations returned, the slot index `f` is the number of
iterations run, every iteration started there begins with the wait on `inFlight[f]`, that fence
is signaled and the wait returns at once; and no call made so far, by `createSyncObjects` or by
an earlier iteration, resets that fence. -/
theorem frame_sync_set_shape (s : FrameState) (d : SyncDriver) :
    ((createSyncObjects s d).outcome = .completed ↔ d.AllSucceed) ∧
    ((createSyncObjects s d).outcome ≠ .completed →
      (createSyncObjects s d).outcome = .threw "Failed to create sync objects") ∧
    (d.AllSucceed →
      (createSyncObjects s d).state =
        { s with
          m_imageAvailableSemaphores := [d.imageAvailable 0, d.imageAvailable 1]
          m_renderFinishedSemaphores := [d.renderFinished 0, d.renderFinished 1]
          m_inFlightFences := [d.fence 0, d.fence 1] } ∧
      (createSyncObjects s d).state.m_imageAvailableSemaphores.length = MAX_FRAMES_IN_FLIGHT ∧
      (createSyncObjects s d).state.m_renderFinishedSemaphores.length = MAX_FRAMES_IN_FLIGHT ∧
      (createSyncObjects s d).state.m_inFlightFences.length = MAX_FRAMES_IN_FLIGHT ∧
      (createSyncObjects s d).state.m_swapchainImages = s.m_swapchainImages ∧
      ((createSyncObjects s d).calls.filter GpuCall.isCreateSemaphore).length
        = 2 * MAX_FRAMES_IN_FLIGHT ∧
      (createSyncObjects s d).calls.filter GpuCall.isCreateFence
        = [.vkCreateFence s.m_device VK_FENCE_CREATE_SIGNALED_BIT (d.fence 0),
           .vkCreateFence s.m_device VK_FENCE_CREATE_SIGNALED_BIT (d.fence 1)] ∧
      GpuSync.execAll ⟨[], []⟩ (createSyncObjects s d).calls
        = some ⟨[d.fence 1, d.fence 0], []⟩ ∧
      GpuSync.trackAll ⟨[], []⟩ (createSyncObjects s d).calls = ⟨[d.fence 1, d.fence 0], []⟩) ∧
    (d.AllSucceed → d.fence 0 ≠ d.fence 1 → s.m_currentFrame = 0 →
      ∀ (events : List Event) (st : Sys),
        Sys.runAny ⟨(createSyncObjects s d).state,
          GpuSync.trackAll ⟨[], []⟩ (createSyncObjects s d).calls, 0, none⟩ events = some st →
        st.frames < MAX_FRAMES_IN_FLIGHT →
        st.app.m_currentFrame = st.frames ∧
        st.app.m_inFlightFences[st.app.m_currentFrame]? = some (d.fence st.frames) ∧
        d.fence st.frames ∈ st.gpu.signaled ∧
        (∀ driver : FrameDriver, (drawFrame st.app driver).calls.head?
          = some (.vkWaitForFences s.m_device [d.fence st.frames] true UINT64_MAX)) ∧
        GpuSync.exec st.gpu (.vkWaitForFences s.m_device [d.fence st.frames] true UINT64_MAX)
          = some st.gpu) ∧
    (d.AllSucceed → d.fence 0 ≠ d.fence 1 → s.m_currentFrame = 0 →
      ∀ (events : List Event) (st : Sys),
        Sys.run ⟨(createSyncObjects s d).state,
          GpuSync.trackAll ⟨[], []⟩ (createSyncObjects s d).calls, 0, none⟩ events = some st →
        st.frames < MAX_FRAMES_IN_FLIGHT →
        st.app.m_currentFrame = st.frames ∧
        st.app.m_inFlightFences[st.app.m_currentFrame]? = some (d.fence st.frames) ∧
        d.fence st.frames ∈ st.gpu.signaled) ∧
    (d.AllSucceed → d.fence 0 ≠ d.fence 1 → s.m_currentFrame = 0 →
      ∀ drivers : List FrameDriver,
        (drawFrames (createSyncObjects s d).state drivers).outcome = .completed →
        drivers.length < MAX_FRAMES_IN_FLIGHT →
        ∀ c ∈ (createSyncObjects s d).calls
            ++ (drawFrames (createSyncObjects s d).state drivers).calls,
          c.isResetFences = true → d.fence drivers.length ∉ c.fences) := by
  have hany : d.AllSucceed → d.fence 0 ≠ d.fence 1 → s.m_currentFrame = 0 →
      ∀ (events : List Event) (st : Sys),
        Sys.runAny ⟨(createSyncObjects s d).state,
          GpuSync.trackAll ⟨[], []⟩ (createSyncObjects s d).calls, 0, none⟩ events = some st →
        st.frames < MAX_FRAMES_IN_FLIGHT →
        st.app.m_currentFrame = st.frames ∧
        st.app.m_inFlightFences[st.app.m_currentFrame]? = some (d.fence st.frames) ∧
        d.fence st.frames ∈ st.gpu.signaled ∧ st.app.m_device = s.m_device := by
    intro hall hne hcf events st hrun hlt
    rw [createSyncObjects_success s d hall] at hrun
    have htrack : GpuSync.trackAll ⟨[], []⟩
        [.vkCreateSemaphore s.m_device (d.imageAvailable 0),
         .vkCreateSemaphore s.m_device (d.renderFinished 0),
         .vkCreateFence s.m_device VK_FENCE_CREATE_SIGNALED_BIT (d.fence 0),
         .vkCreateSemaphore s.m_device (d.imageAvailable 1),
         .vkCreateSemaphore s.m_device (d.renderFinished 1),
         .vkCreateFence s.m_device VK_FENCE_CREATE_SIGNALED_BIT (d.fence 1)]
        = ⟨[d.fence 1, d.fence 0], []⟩ := by
      simp [GpuSync.trackAll, GpuSync.track, VK_FENCE_CREATE_SIGNALED_BIT]
    simp only [htrack] at hrun
    have hinv0 : Sys.FirstWaitInv [d.fence 0, d.fence 1]
        (⟨{ s with
            m_imageAvailableSemaphores := [d.imageAvailable 0, d.imageAvailable 1]
            m_renderFinishedSemaphores := [d.renderFinished 0, d.renderFinished 1]
            m_inFlightFences := [d.fence 0, d.fence 1] },
          ⟨[d.fence 1, d.fence 0], []⟩, 0, none⟩ : Sys) := by
      refine ⟨rfl, by simp [hcf], ?_⟩
      intro j fence _ hj
      have := List.getElem?_mem hj
      simp only [List.mem_cons, List.mem_singleton, List.not_mem_nil, or_false] at this ⊢
      rcases this with h | h
      · exact Or.inr h
      · exact Or.inl h
    obtain ⟨⟨hF, hcur, hsig⟩, hdev⟩ := Sys.runAny_firstWaitInv [d.fence 0, d.fence 1] _ st
      events hrun rfl (by simp [hne]) hinv0
    have hcur2 : st.app.m_currentFrame = st.frames := by
      rw [hcur]; exact Nat.mod_eq_of_lt hlt
    have hget : [d.fence 0, d.fence 1][st.frames]? = some (d.fence st.frames) := by
      have : st.frames = 0 ∨ st.frames = 1 := by
        simp only [MAX_FRAMES_IN_FLIGHT] at hlt
        omega
      rcases this with h | h <;> rw [h] <;> rfl
    exact ⟨hcur2, by rw [hF, hcur2]; exact hget, hsig st.frames _ (Nat.le_refl _) hget, hdev⟩
  refine ⟨(createSyncObjects_outcome s d).1, (createSyncObjects_outcome s d).2, ?_, ?_, ?_, ?_⟩
  · intro hall
    rw [createSyncObjects_success s d hall]
    refine ⟨rfl, rfl, rfl, rfl, rfl, ?_, ?_, ?_, ?_⟩
    · simp [GpuCall.isCreateSemaphore, MAX_FRAMES_IN_FLIGHT]
    · simp [GpuCall.isCreateFence]
    · simp [GpuSync.execAll, GpuSync.exec, VK_FENCE_CREATE_SIGNALED_BIT]
    · simp [GpuSync.trackAll, GpuSync.track, VK_FENCE_CREATE_SIGNALED_BIT]
  · intro hall hne hcf events st hrun hlt
    obtain ⟨h1, h2, h3, h4⟩ := hany hall hne hcf events st hrun hlt
    refine ⟨h1, h2, h3, ?_, ?_⟩
    · intro driver
      rw [← h4]
      exact drawFrame_first_call st.app driver _ h2
    · simp [GpuSync.exec, h3]
  · intro hall hne hcf events st hrun hlt
    obtain ⟨h1, h2, h3, _⟩ := hany hall hne hcf events st (Sys.run_runAny _ _ _ hrun) hlt
    exact ⟨h1, h2, h3⟩
  · intro hall hne hcf drivers hout hlen c hc hreset
    rw [createSyncObjects_success s d hall] at hc hout
    simp only at hc hout
    rcases List.mem_append.1 hc with hc | hc
    · simp only [List.mem_cons, List.mem_singleton, List.not_mem_nil, or_false] at hc
      rcases hc with rfl | rfl | rfl | rfl | rfl | rfl <;> simp [GpuCall.isResetFences] at hreset
    · match drivers, hlen with
      | [], _ => simp [drawFrames] at hc
      | [driver], _ =>
        simp only [drawFrames] at hc hout
        cases ho : (drawFrame { s with
            m_imageAvailableSemaphores := [d.imageAvailable 0, d.imageAvailable 1]
            m_renderFinishedSemaphores := [d.renderFinished 0, d.renderFinished 1]
            m_inFlightFences := [d.fence 0, d.fence 1] } driver).outcome with
        | completed =>
          obtain ⟨inFlight, ia, rf, cmd, fb, hF, _, _, _, _, heq⟩ := drawFrame_completed _ driver ho
          simp only [ho, heq, List.append_nil] at hc
          simp only [hcf, List.getElem?_cons_zero, Option.some.injEq] at hF
          intro hmem
          have := frameCalls_fences _ _ _ _ _ _ _ c hc _ hmem
          rw [← hF] at this
          exact hne this.symm
        | threw msg => simp [ho] at hout
        | outOfBounds => simp [ho] at hout

/-! ### Buffer upload -/

theorem createBuffer_ok (s : FrameState) (memoryTypes : List Nat) (gpu gpu1 : Gpu)
    (d : CreateBufferDriver) (size usage properties : Nat) (buffer : Handle)
    (h : createBuffer s memoryTypes gpu d size usage properties = .ok (gpu1, buffer)) :
    buffer = gpu.buffers.length + 1 ∧
    ∃ t, findMemoryType memoryTypes d.memoryTypeBits properties = .ok t ∧
      d.createBuffer = VK_SUCCESS ∧ d.allocateMemory = VK_SUCCESS ∧
      gpu1 = { gpu with
        buffers := gpu.buffers ++
          [⟨size, usage, t, List.replicate size 0, false,
            decide (d.bindBufferMemory = VK_SUCCESS)⟩]
        log := gpu.log ++
          [.vkCreateBuffer s.m_device size usage buffer,
           .vkAllocateMemory s.m_device t buffer,
           .vkBindBufferMemory s.m_device buffer buffer 0] } := by
  simp only [createBuffer] at h
  by_cases hc : d.createBuffer ≠ VK_SUCCESS
  · simp [hc] at h
  rw [if_neg hc] at h
  cases hf : findMemoryType memoryTypes d.memoryTypeBits properties with
  | error e => simp [hf] at h
  | ok t =>
    simp only [hf] at h
    by_cases ha : d.allocateMemory ≠ VK_SUCCESS
    · simp [ha] at h
    rw [if_neg ha] at h
    simp only [Except.ok.injEq, Prod.mk.injEq] at h
    obtain ⟨h1, h2⟩ := h
    subst h2
    exact ⟨rfl, t, rfl, not_not.1 hc, not_not.1 ha, h1.symm⟩

theorem createBuffer_success (s : FrameState) (memoryTypes : List Nat) (gpu : Gpu)
    (d : CreateBufferDriver) (size usage properties t : Nat)
    (h1 : d.createBuffer = VK_SUCCESS)
    (h2 : findMemoryType memoryTypes d.memoryTypeBits properties = .ok t)
    (h3 : d.allocateMemory = VK_SUCCESS) :
    createBuffer s memoryTypes gpu d size usage properties =
      .ok ({ gpu with
        buffers := gpu.buffers ++
          [⟨size, usage, t, List.replicate size 0, false,
            decide (d.bindBufferMemory = VK_SUCCESS)⟩]
        log := gpu.log ++
          [.vkCreateBuffer s.m_device size usage (gpu.buffers.length + 1),
           .vkAllocateMemory s.m_device t (gpu.buffers.length + 1),
           .vkBindBufferMemory s.m_device (gpu.buffers.length + 1) (gpu.buffers.length + 1) 0] },
        gpu.buffers.length + 1) := by
  simp [createBuffer, h1, h2, h3]

theorem lookupBuffer_append_last (buffers : List BufferObject) (b : BufferObject) :
    lookupBuffer (buffers ++ [b]) (buffers.length + 1) = some b := by
  simp [lookupBuffer, VK_NULL_HANDLE]

theorem lookupBuffer_append_two_fst (buffers : List BufferObject) (a b : BufferObject) :
    lookupBuffer (buffers ++ [a] ++ [b]) (buffers.length + 1) = some a := by
  have : (buffers ++ [a] ++ [b])[buffers.length]? = some a := by
    rw [List.append_assoc, List.getElem?_append_right (Nat.le_refl _)]
    simp
  simp only [lookupBuffer, VK_NULL_HANDLE, Nat.add_sub_cancel]
  rw [if_neg (Nat.succ_ne_zero _), this]

theorem lookupBuffer_append_two_snd (buffers : List BufferObject) (a b : BufferObject) :
    lookupBuffer (buffers ++ [a] ++ [b]) (buffers.length + 1 + 1) = some b := by
  have : (buffers ++ [a] ++ [b])[buffers.length + 1]? = some b := by
    rw [List.append_assoc, List.getElem?_append_right (Nat.le_succ _)]
    simp
  simp only [lookupBuffer, VK_NULL_HANDLE, Nat.add_sub_cancel]
  rw [if_neg (Nat.succ_ne_zero _), this]

theorem set_append_two_fst (buffers : List BufferObject) (a b c : BufferObject) :
    (buffers ++ [a] ++ [b]).set buffers.length c = buffers ++ [c] ++ [b] := by
  induction buffers with
  | nil => rfl
  | cons x rest ih => simp [List.set, ih]

theorem set_append_two_snd (buffers : List BufferObject) (a b c : BufferObject) :
    (buffers ++ [a] ++ [b]).set (buffers.length + 1) c = buffers ++ [a] ++ [c] := by
  induction buffers with
  | nil => rfl
  | cons x rest ih => simp [List.set, ih]

theorem set_append_last (buffers : List BufferObject) (a b : BufferObject) :
    (buffers ++ [a]).set buffers.length b = buffers ++ [b] := by
  induction buffers with
  | nil => rfl
  | cons x rest ih => simp [List.set, ih]

theorem take_append_drop_replicate (src : List Byte) (n : Nat) (h : src.length = n) :
    src.take n ++ (List.replicate n (0 : Byte)).drop n = src := by
  subst h
  simp

theorem mapCopyUnmap_last (buffers : List BufferObject) (recorded : List (Handle × CopyCommand))
    (pending : List CopyCommand) (log : List GpuCall) (recording : List Handle)
    (device : Handle) (src : List Byte) (size usage t : Nat) (bound : Bool)
    (h : src.length = size) :
    Gpu.mapCopyUnmap
        ⟨buffers ++ [⟨size, usage, t, List.replicate size 0, false, bound⟩], recorded, pending,
          log, recording⟩
        device (buffers.length + 1) VK_SUCCESS src size
      = .ok ⟨buffers ++ [⟨size, usage, t, src, false, bound⟩], recorded, pending,
          log ++ [.vkMapMemory device (buffers.length + 1) 0 size,
            .memcpy (buffers.length + 1) src size,
            .vkUnmapMemory device (buffers.length + 1)], recording⟩ := by
  simp only [Gpu.mapCopyUnmap, lookupBuffer_append_last, Nat.add_sub_cancel, set_append_last,
    take_append_drop_replicate src size h, ne_eq, not_true_eq_false, if_false]

theorem execCopy_staging (buffers : List BufferObject) (src : List Byte)
    (size u1 u2 t1 t2 : Nat) (h : src.length = size) :
    execCopy (buffers ++ [⟨size, u1, t1, src, false, true⟩] ++
        [⟨size, u2, t2, List.replicate size 0, false, true⟩])
        ⟨buffers.length + 1, buffers.length + 1 + 1, ⟨0, 0, size⟩⟩
      = buffers ++ [⟨size, u1, t1, src, false, true⟩] ++ [⟨size, u2, t2, src, false, true⟩] := by
  simp only [execCopy, lookupBuffer_append_two_fst, lookupBuffer_append_two_snd,
    Nat.add_sub_cancel, set_append_two_snd, Bool.false_eq_true, or_self, if_false,
    List.take_zero, List.drop_zero, List.nil_append, Nat.zero_add]
  subst h
  simp

theorem usable_append_two_fst (buffers : List BufferObject)
    (recorded : List (Handle × CopyCommand)) (pending : List CopyCommand) (log : List GpuCall)
    (recording : List Handle) (a b : BufferObject) (ha : a.destroyed = false)
    (hb : a.bound = true) :
    Gpu.usable ⟨buffers ++ [a] ++ [b], recorded, pending, log, recording⟩ (buffers.length + 1)
      = true := by
  simp only [Gpu.usable]
  rw [lookupBuffer_append_two_fst]
  simp [ha, hb]

theorem usable_append_two_snd (buffers : List BufferObject)
    (recorded : List (Handle × CopyCommand)) (pending : List CopyCommand) (log : List GpuCall)
    (recording : List Handle) (a b : BufferObject) (ha : b.destroyed = false)
    (hb : b.bound = true) :
    Gpu.usable ⟨buffers ++ [a] ++ [b], recorded, pending, log, recording⟩
      (buffers.length + 1 + 1) = true := by
  simp only [Gpu.usable]
  rw [lookupBuffer_append_two_snd]
  simp [ha, hb]

theorem uploadBuffer_success (s : FrameState) (gpu : Gpu) (d : UploadDriver) (src : List Byte)
    (bufferSize usage t1 t2 : Nat) (hall : d.AllSucceed)
    (hf1 : findMemoryType d.memoryTypes d.staging.memoryTypeBits
      (VK_MEMORY_PROPERTY_HOST_VISIBLE_BIT ||| VK_MEMORY_PROPERTY_HOST_COHERENT_BIT) = .ok t1)
    (hf2 : findMemoryType d.memoryTypes d.destination.memoryTypeBits
      VK_MEMORY_PROPERTY_DEVICE_LOCAL_BIT = .ok t2)
    (hp : gpu.pending = []) (hr : gpu.recorded = []) (hlen : src.length = bufferSize) :
    ∃ gpu1 : Gpu,
      uploadBuffer s gpu d src bufferSize usage = .ok (gpu1, gpu.buffers.length + 2) ∧
      gpu1.buffers = gpu.buffers ++
        [⟨bufferSize, VK_BUFFER_USAGE_TRANSFER_SRC_BIT, t1, [], true, true⟩,
         ⟨bufferSize, VK_BUFFER_USAGE_TRANSFER_DST_BIT ||| usage, t2, src, false, true⟩] ∧
      gpu1.pending = [] ∧ gpu1.recorded = [] ∧
      gpu1.log = gpu.log ++
        uploadCalls s (gpu.buffers.length + 1) (gpu.buffers.length + 2) t1 t2 d.commandBuffer
          src bufferSize usage := by
  obtain ⟨buffers, recorded, pending, log, recording⟩ := gpu
  obtain ⟨c1, a1, b1, m, c2, a2, b2, ac, bc, ec, qs, qw⟩ := hall
  simp only at hp hr
  subst hp hr
  simp only [uploadBuffer]
  rw [createBuffer_success s d.memoryTypes _ d.staging bufferSize _ _ t1 c1 hf1 a1]
  simp only [b1, m, decide_True]
  rw [mapCopyUnmap_last _ _ _ _ _ _ _ _ _ _ _ hlen]
  simp only []
  rw [createBuffer_success s d.memoryTypes _ d.destination bufferSize _ _ t2 c2 hf2 a2]
  simp only [b2, decide_True, beginSingleTimeCommands, ac, bc, ne_eq, not_true_eq_false,
    if_false, if_true, List.length_append, List.length_singleton]
  simp only [Gpu.cmdCopyBuffer]
  rw [if_pos ⟨List.mem_cons_self _ _, usable_append_two_fst _ _ _ _ _ _ _ rfl rfl,
    usable_append_two_snd _ _ _ _ _ _ _ rfl rfl⟩]
  simp only [endSingleTimeCommands, List.mem_cons, true_or, not_true_eq_false, if_false, ec, qs,
    qw, ne_eq, if_true, List.nil_append, List.map_cons, List.map_nil, List.filter_cons,
    beq_self_eq_true, List.filter_nil, List.foldl_cons, List.foldl_nil]
  rw [execCopy_staging _ _ _ _ _ _ _ hlen]
  simp only [Gpu.destroyBufferAndMemory, lookupBuffer_append_two_fst, Nat.add_sub_cancel]
  rw [set_append_two_fst]
  refine ⟨_, rfl, ?_, rfl, ?_, ?_⟩
  · simp only [List.append_assoc, List.singleton_append]
  · simp
  · simp [uploadCalls]

theorem uploadBuffer_submit_failure (s : FrameState) (gpu : Gpu) (d : UploadDriver)
    (src : List Byte) (bufferSize usage t1 t2 : Nat) (result : VkResult) (hall : d.AllSucceed)
    (hres : result ≠ VK_SUCCESS)
    (hf1 : findMemoryType d.memoryTypes d.staging.memoryTypeBits
      (VK_MEMORY_PROPERTY_HOST_VISIBLE_BIT ||| VK_MEMORY_PROPERTY_HOST_COHERENT_BIT) = .ok t1)
    (hf2 : findMemoryType d.memoryTypes d.destination.memoryTypeBits
      VK_MEMORY_PROPERTY_DEVICE_LOCAL_BIT = .ok t2)
    (hp : gpu.pending = []) (hr : gpu.recorded = []) (hlen : src.length = bufferSize) :
    ∃ gpu1 : Gpu,
      uploadBuffer s gpu { d with queueSubmit := result } src bufferSize usage
        = .ok (gpu1, gpu.buffers.length + 2) ∧
      gpu1.buffers = gpu.buffers ++
        [⟨bufferSize, VK_BUFFER_USAGE_TRANSFER_SRC_BIT, t1, [], true, true⟩,
         ⟨bufferSize, VK_BUFFER_USAGE_TRANSFER_DST_BIT ||| usage, t2,
           List.replicate bufferSize 0, false, true⟩] ∧
      gpu1.log = gpu.log ++
        uploadCalls s (gpu.buffers.length + 1) (gpu.buffers.length + 2) t1 t2 d.commandBuffer
          src bufferSize usage := by
  obtain ⟨buffers, recorded, pending, log, recording⟩ := gpu
  obtain ⟨c1, a1, b1, m, c2, a2, b2, ac, bc, ec, _, qw⟩ := hall
  simp only at hp hr
  subst hp hr
  simp only [uploadBuffer]
  rw [createBuffer_success s d.memoryTypes _ d.staging bufferSize _ _ t1 c1 hf1 a1]
  simp only [b1, m, decide_True]
  rw [mapCopyUnmap_last _ _ _ _ _ _ _ _ _ _ _ hlen]
  simp only []
  rw [createBuffer_success s d.memoryTypes _ d.destination bufferSize _ _ t2 c2 hf2 a2]
  simp only [b2, decide_True, beginSingleTimeCommands, ac, bc, ne_eq, not_true_eq_false,
    if_false, if_true, List.length_append, List.length_singleton]
  simp only [Gpu.cmdCopyBuffer]
  rw [if_pos ⟨List.mem_cons_self _ _, usable_append_two_fst _ _ _ _ _ _ _ rfl rfl,
    usable_append_two_snd _ _ _ _ _ _ _ rfl rfl⟩]
  simp only [endSingleTimeCommands, List.mem_cons, true_or, not_true_eq_false, if_false, ec,
    hres, qw, ne_eq, if_true, List.foldl_nil]
  simp only [Gpu.destroyBufferAndMemory, lookupBuffer_append_two_fst, Nat.add_sub_cancel]
  rw [set_append_two_fst]
  refine ⟨_, rfl, ?_, ?_⟩
  · simp only [List.append_assoc, List.singleton_append]
  · simp [uploadCalls]

theorem lookupBuffer_append_pair_snd (buffers : List BufferObject) (a b : BufferObject) :
    lookupBuffer (buffers ++ [a, b]) (buffers.length + 2) = some b := by
  have := lookupBuffer_append_two_snd buffers a b
  rwa [List.append_assoc] at this

theorem le32_length (w : Word32) : (le32 w).length = 4 := rfl

theorem vertexBytes_length (vertices : List VulkanVertex) :
    (vertexBytes vertices).length = sizeofVulkanVertex * vertices.length := by
  induction vertices with
  | nil => rfl
  | cons v rest ih =>
    simp only [vertexBytes, List.flatMap_cons, List.length_append, List.length_cons] at ih ⊢
    rw [ih]
    simp [VulkanVertex.bytes, le32, sizeofVulkanVertex]
    omega

theorem indexBytes_length (indices : List Word32) :
    (indexBytes indices).length = sizeofUint32 * indices.length := by
  induction indices with
  | nil => rfl
  | cons v rest ih =>
    simp only [indexBytes, List.flatMap_cons, List.length_append, List.length_cons] at ih ⊢
    rw [ih]
    simp [le32, sizeofUint32]
    omega

theorem findMemoryType.loop_ok_flags (typeFilter properties : Nat) (l : List Nat) (i r : Nat)
    (h : findMemoryType.loop typeFilter properties l i = .ok r) :
    ∃ (j : Nat) (propertyFlags : Nat), r = i + j ∧ l[j]? = some propertyFlags ∧
      typeFilter &&& (1 <<< r) ≠ 0 ∧ propertyFlags &&& properties = properties := by
  induction l generalizing i with
  | nil => simp [findMemoryType.loop] at h
  | cons flags rest ih =>
    simp only [findMemoryType.loop] at h
    by_cases hc : typeFilter &&& (1 <<< i) ≠ 0 ∧ flags &&& properties = properties
    · rw [if_pos hc] at h
      simp only [Except.ok.injEq] at h
      subst h
      exact ⟨0, flags, rfl, by simp, hc.1, hc.2⟩
    · rw [if_neg hc] at h
      obtain ⟨j, pf, hr, hj, h1, h2⟩ := ih (i + 1) h
      exact ⟨j + 1, pf, by omega, by simpa using hj, h1, h2⟩

theorem findMemoryType_ok_flags (memoryTypes : List Nat) (typeFilter properties r : Nat)
    (h : findMemoryType memoryTypes typeFilter properties = .ok r) :
    ∃ propertyFlags : Nat, memoryTypes[r]? = some propertyFlags ∧
      propertyFlags &&& properties = properties := by
  obtain ⟨j, pf, hr, hj, _, h2⟩ := findMemoryType.loop_ok_flags _ _ _ _ _ h
  rw [Nat.zero_add] at hr
  subst hr
  exact ⟨pf, hj, h2⟩

/-- Round trip of the upload when every Vulkan call succeeds, over buffers as byte arrays and
with the queue idle at entry: `createVertexBuffer` (`createIndexBuffer`) returns, and the
destination buffer stored in `m_vertexBuffer` (`m_indexBuffer`) has the byte length of the
input, 24 bytes per vertex (4 per index), holds exactly the input bytes, has the
transfer-destination usage bit and bound memory of a device-local type; the calls are those of
`uploadCalls`, with the `memcpy` of the whole input into the staging memory, the single copy
region `(0, 0, size)` and the wait for queue idle before the staging buffer is destroyed, and
nothing is pending on the queue afterwards. -/
theorem upload_round_trip (s : FrameState) (gpu : Gpu) (d : UploadDriver) (t1 t2 : Nat)
    (hall : d.AllSucceed)
    (hf1 : findMemoryType d.memoryTypes d.staging.memoryTypeBits
      (VK_MEMORY_PROPERTY_HOST_VISIBLE_BIT ||| VK_MEMORY_PROPERTY_HOST_COHERENT_BIT) = .ok t1)
    (hf2 : findMemoryType d.memoryTypes d.destination.memoryTypeBits
      VK_MEMORY_PROPERTY_DEVICE_LOCAL_BIT = .ok t2)
    (hp : gpu.pending = []) (hr : gpu.recorded = []) :
    (∃ (s1 : FrameState) (gpu1 : Gpu) (b : BufferObject),
      createVertexBuffer s gpu d = .ok (s1, gpu1) ∧
      lookupBuffer gpu1.buffers s1.m_vertexBuffer = some b ∧
      b.contents = vertexBytes s.m_vertices ∧
      b.size = sizeofVulkanVertex * s.m_vertices.length ∧
      b.contents.length = b.size ∧
      b.usage &&& VK_BUFFER_USAGE_TRANSFER_DST_BIT ≠ 0 ∧ b.destroyed = false ∧
      b.bound = true ∧ b.memoryTypeIndex = t2 ∧
      (∃ propertyFlags : Nat, d.memoryTypes[t2]? = some propertyFlags ∧
        propertyFlags &&& VK_MEMORY_PROPERTY_DEVICE_LOCAL_BIT
          = VK_MEMORY_PROPERTY_DEVICE_LOCAL_BIT) ∧
      gpu1.pending = [] ∧
      gpu1.log = gpu.log ++ uploadCalls s (gpu.buffers.length + 1) s1.m_vertexBuffer t1 t2
        d.commandBuffer (vertexBytes s.m_vertices) b.size VK_BUFFER_USAGE_VERTEX_BUFFER_BIT) ∧
    (∃ (s1 : FrameState) (gpu1 : Gpu) (b : BufferObject),
      createIndexBuffer s gpu d = .ok (s1, gpu1) ∧
      lookupBuffer gpu1.buffers s1.m_indexBuffer = some b ∧
      b.contents = indexBytes s.m_indices ∧
      b.size = sizeofUint32 * s.m_indices.length ∧
      b.contents.length = b.size ∧
      b.usage &&& VK_BUFFER_USAGE_TRANSFER_DST_BIT ≠ 0 ∧ b.destroyed = false ∧
      b.bound = true ∧ b.memoryTypeIndex = t2 ∧
      (∃ propertyFlags : Nat, d.memoryTypes[t2]? = some propertyFlags ∧
        propertyFlags &&& VK_MEMORY_PROPERTY_DEVICE_LOCAL_BIT
          = VK_MEMORY_PROPERTY_DEVICE_LOCAL_BIT) ∧
      gpu1.pending = [] ∧
      gpu1.log = gpu.log ++ uploadCalls s (gpu.buffers.length + 1) s1.m_indexBuffer t1 t2
        d.commandBuffer (indexBytes s.m_indices) b.size VK_BUFFER_USAGE_INDEX_BUFFER_BIT) := by
  constructor
  · have hlen := vertexBytes_length s.m_vertices
    obtain ⟨g, hu, hbuf, hpend, _, hlog⟩ := uploadBuffer_success s gpu d _ _
      VK_BUFFER_USAGE_VERTEX_BUFFER_BIT t1 t2 hall hf1 hf2 hp hr hlen
    refine ⟨{ s with m_vertexBuffer := gpu.buffers.length + 2,
                     m_vertexBufferMemory := gpu.buffers.length + 2 }, g,
      ⟨sizeofVulkanVertex * s.m_vertices.length,
        VK_BUFFER_USAGE_TRANSFER_DST_BIT ||| VK_BUFFER_USAGE_VERTEX_BUFFER_BIT, t2,
        vertexBytes s.m_vertices, false, true⟩, ?_, ?_, rfl, rfl, hlen,
      (by decide : (VK_BUFFER_USAGE_TRANSFER_DST_BIT ||| VK_BUFFER_USAGE_VERTEX_BUFFER_BIT)
        &&& VK_BUFFER_USAGE_TRANSFER_DST_BIT ≠ 0), rfl, rfl, rfl,
      findMemoryType_ok_flags _ _ _ _ hf2, hpend, hlog⟩
    · simp only [createVertexBuffer, hu]
    · show lookupBuffer g.buffers (gpu.buffers.length + 2) = _
      rw [hbuf]
      exact lookupBuffer_append_pair_snd gpu.buffers _ _
  · have hlen := indexBytes_length s.m_indices
    obtain ⟨g, hu, hbuf, hpend, _, hlog⟩ := uploadBuffer_success s gpu d _ _
      VK_BUFFER_USAGE_INDEX_BUFFER_BIT t1 t2 hall hf1 hf2 hp hr hlen
    refine ⟨{ s with m_indexBuffer := gpu.buffers.length + 2,
                     m_indexBufferMemory := gpu.buffers.length + 2 }, g,
      ⟨sizeofUint32 * s.m_indices.length,
        VK_BUFFER_USAGE_TRANSFER_DST_BIT ||| VK_BUFFER_USAGE_INDEX_BUFFER_BIT, t2,
        indexBytes s.m_indices, false, true⟩, ?_, ?_, rfl, rfl, hlen,
      (by decide : (VK_BUFFER_USAGE_TRANSFER_DST_BIT ||| VK_BUFFER_USAGE_INDEX_BUFFER_BIT)
        &&& VK_BUFFER_USAGE_TRANSFER_DST_BIT ≠ 0), rfl, rfl, rfl,
      findMemoryType_ok_flags _ _ _ _ hf2, hpend, hlog⟩
    · simp only [createIndexBuffer, hu]
    · show lookupBuffer g.buffers (gpu.buffers.length + 2) = _
      rw [hbuf]
      exact lookupBuffer_append_pair_snd gpu.buffers _ _

/-- The unchecked `vkQueueSubmit` in general: when every call of the upload succeeds except the
`vkQueueSubmit` of `endSingleTimeCommands`, `createVertexBuffer` and `createIndexBuffer` still
return, and the destination buffer holds the zero bytes it was created with instead of the
input bytes. -/
theorem upload_submit_failure (s : FrameState) (gpu : Gpu) (d : UploadDriver) (t1 t2 : Nat)
    (result : VkResult) (hall : d.AllSucceed) (hres : result ≠ VK_SUCCESS)
    (hf1 : findMemoryType d.memoryTypes d.staging.memoryTypeBits
      (VK_MEMORY_PROPERTY_HOST_VISIBLE_BIT ||| VK_MEMORY_PROPERTY_HOST_COHERENT_BIT) = .ok t1)
    (hf2 : findMemoryType d.memoryTypes d.destination.memoryTypeBits
      VK_MEMORY_PROPERTY_DEVICE_LOCAL_BIT = .ok t2)
    (hp : gpu.pending = []) (hr : gpu.recorded = []) :
    (∃ (s1 : FrameState) (gpu1 : Gpu) (b : BufferObject),
      createVertexBuffer s gpu { d with queueSubmit := result } = .ok (s1, gpu1) ∧
      lookupBuffer gpu1.buffers s1.m_vertexBuffer = some b ∧
      b.contents = List.replicate (sizeofVulkanVertex * s.m_vertices.length) 0) ∧
    (∃ (s1 : FrameState) (gpu1 : Gpu) (b : BufferObject),
      createIndexBuffer s gpu { d with queueSubmit := result } = .ok (s1, gpu1) ∧
      lookupBuffer gpu1.buffers s1.m_indexBuffer = some b ∧
      b.contents = List.replicate (sizeofUint32 * s.m_indices.length) 0) := by
  constructor
  · obtain ⟨g, hu, hbuf, _⟩ := uploadBuffer_submit_failure s gpu d _ _
      VK_BUFFER_USAGE_VERTEX_BUFFER_BIT t1 t2 result hall hres hf1 hf2 hp hr
      (vertexBytes_length s.m_vertices)
    refine ⟨{ s with m_vertexBuffer := gpu.buffers.length + 2,
                     m_vertexBufferMemory := gpu.buffers.length + 2 }, g,
      ⟨sizeofVulkanVertex * s.m_vertices.length,
        VK_BUFFER_USAGE_TRANSFER_DST_BIT ||| VK_BUFFER_USAGE_VERTEX_BUFFER_BIT, t2,
        List.replicate (sizeofVulkanVertex * s.m_vertices.length) 0, false, true⟩, ?_, ?_, rfl⟩
    · simp only [createVertexBuffer, hu]
    · show lookupBuffer g.buffers (gpu.buffers.length + 2) = _
      rw [hbuf]
      exact lookupBuffer_append_pair_snd gpu.buffers _ _
  · obtain ⟨g, hu, hbuf, _⟩ := uploadBuffer_submit_failure s gpu d _ _
      VK_BUFFER_USAGE_INDEX_BUFFER_BIT t1 t2 result hall hres hf1 hf2 hp hr
      (indexBytes_length s.m_indices)
    refine ⟨{ s with m_indexBuffer := gpu.buffers.length + 2,
                     m_indexBufferMemory := gpu.buffers.length + 2 }, g,
      ⟨sizeofUint32 * s.m_indices.length,
        VK_BUFFER_USAGE_TRANSFER_DST_BIT ||| VK_BUFFER_USAGE_INDEX_BUFFER_BIT, t2,
        List.replicate (sizeofUint32 * s.m_indices.length) 0, false, true⟩, ?_, ?_, rfl⟩
    · simp only [createIndexBuffer, hu]
    · show lookupBuffer g.buffers (gpu.buffers.length + 2) = _
      rw [hbuf]
      exact lookupBuffer_append_pair_snd gpu.buffers _ _

/-- The upload of the quad into an empty device when every call succeeds: both functions
return; the vertex buffer holds the 96 bytes of the four vertices and the index buffer the 24
bytes of the six indices. -/
theorem upload_round_trip_example :
    (match createVertexBuffer exampleState Gpu.empty (successUpload 90) with
      | .ok (s1, gpu1) => lookupBuffer gpu1.buffers s1.m_vertexBuffer
      | .error _ => none)
      = some ⟨96, 130, 0, vertexBytes quadVertices, false, true⟩ ∧
    (match createIndexBuffer exampleState Gpu.empty (successUpload 90) with
      | .ok (s1, gpu1) => lookupBuffer gpu1.buffers s1.m_indexBuffer
      | .error _ => none)
      = some ⟨24, 66, 0, [0, 0, 0, 0, 1, 0, 0, 0, 2, 0, 0, 0, 0, 0, 0, 0, 2, 0, 0, 0, 3, 0, 0, 0],
          false, true⟩ := by
  decide

/-- C16, failing input: the quad is uploaded into an empty device and every call succeeds
except the `vkQueueSubmit` of `endSingleTimeCommands`, which returns
`VK_ERROR_OUT_OF_HOST_MEMORY`; the code discards that result. `createVertexBuffer` and
`createIndexBuffer` return, the destination buffers have the byte length of the input (96 and
24) and hold zero bytes, not the input bytes: the copy was recorded and never submitted. The
same result of `vkQueueSubmit` makes `drawFrame` throw. -/
theorem upload_unchecked_submit_failure :
    (match createVertexBuffer exampleState Gpu.empty
        { successUpload 90 with queueSubmit := VK_ERROR_OUT_OF_HOST_MEMORY } with
      | .ok (s1, gpu1) => lookupBuffer gpu1.buffers s1.m_vertexBuffer
      | .error _ => none)
      = some ⟨96, 130, 0, List.replicate 96 0, false, true⟩ ∧
    (vertexBytes exampleState.m_vertices).length = 96 ∧
    vertexBytes exampleState.m_vertices ≠ List.replicate 96 0 ∧
    (match createIndexBuffer exampleState Gpu.empty
        { successUpload 90 with queueSubmit := VK_ERROR_OUT_OF_HOST_MEMORY } with
      | .ok (s1, gpu1) => lookupBuffer gpu1.buffers s1.m_indexBuffer
      | .error _ => none)
      = some ⟨24, 66, 0, List.replicate 24 0, false, true⟩ ∧
    (indexBytes exampleState.m_indices).length = 24 ∧
    indexBytes exampleState.m_indices ≠ List.replicate 24 0 ∧
    (drawFrame exampleState
        { successDriver 0 with queueSubmit := VK_ERROR_OUT_OF_HOST_MEMORY }).outcome
      = .threw "Failed to submit draw command buffer" := by
  decide

/-! ### Initialisation -/

theorem bind_eq_ok {ε α β : Type} (x : Except ε α) (f : α → Except ε β) (r : β) :
    (x >>= f) = .ok r ↔ ∃ a, x = .ok a ∧ f a = .ok r := by
  cases x with
  | error e => simp [bind, Except.bind]
  | ok a => simp [bind, Except.bind]

theorem createLoop_length (result : Nat → VkResult) (handle : Nat → Handle) (message : String)
    (k i : Nat) (v w : List Handle) (h : createLoop result handle message k i v = .ok w) :
    w.length = v.length := by
  induction k generalizing i v with
  | zero =>
    simp only [createLoop, Except.ok.injEq] at h
    rw [← h]
  | succ k ih =>
    simp only [createLoop] at h
    by_cases hr : result i ≠ VK_SUCCESS
    · simp [hr] at h
    · rw [if_neg hr] at h
      rw [ih _ _ h, List.length_set]

theorem createInstance_vectors (s s1 : FrameState) (d : InitDriver)
    (h : createInstance s d = .ok s1) : s1.vectors = s.vectors := by
  simp only [createInstance] at h
  split at h
  · simp at h
  · simp only [Except.ok.injEq] at h; subst h; rfl

theorem createSurface_vectors (s s1 : FrameState) (d : InitDriver)
    (h : createSurface s d = .ok s1) : s1.vectors = s.vectors := by
  simp only [createSurface] at h
  split at h
  · simp at h
  · simp only [Except.ok.injEq] at h; subst h; rfl

theorem pickStep_vectors (s s1 : FrameState) (d : InitDriver)
    (h : initVulkan.pickStep s d = .ok s1) : s1.vectors = s.vectors := by
  simp only [initVulkan.pickStep] at h
  split at h
  · simp at h
  · simp only [Except.ok.injEq] at h; subst h; rfl

theorem createLogicalDevice_vectors (s s1 : FrameState) (d : InitDriver)
    (h : createLogicalDevice s d = .ok s1) : s1.vectors = s.vectors := by
  simp only [createLogicalDevice] at h
  split at h
  · simp at h
  · split at h
    · split at h
      · simp at h
      · simp only [Except.ok.injEq] at h; subst h; rfl
    · simp at h

theorem createSwapchain_vectors (s s1 : FrameState) (d : InitDriver)
    (h : createSwapchain s d = .ok s1) :
    s1.vectors = (d.swapchainImages, s.m_swapchainImageViews, s.m_swapchainFramebuffers,
      s.m_commandBuffers) := by
  simp only [createSwapchain] at h
  split at h
  · simp at h
  · split at h
    · simp at h
    · split at h
      · split at h
        · simp at h
        · simp only [Except.ok.injEq] at h; subst h; rfl
      · simp at h

theorem createImageViews_vectors (s s1 : FrameState) (d : InitDriver)
    (h : createImageViews s d = .ok s1) :
    s1.m_swapchainImages = s.m_swapchainImages ∧
    s1.m_swapchainImageViews.length = s.m_swapchainImages.length ∧
    s1.m_swapchainFramebuffers = s.m_swapchainFramebuffers ∧
    s1.m_commandBuffers = s.m_commandBuffers := by
  simp only [createImageViews] at h
  split at h
  · simp at h
  · rename_i views hv
    simp only [Except.ok.injEq] at h; subst h
    exact ⟨rfl, by rw [createLoop_length _ _ _ _ _ _ _ hv, resize_length], rfl, rfl⟩

theorem createRenderPass_vectors (s s1 : FrameState) (d : InitDriver)
    (h : createRenderPass s d = .ok s1) : s1.vectors = s.vectors := by
  simp only [createRenderPass] at h
  split at h
  · simp at h
  · simp only [Except.ok.injEq] at h; subst h; rfl

theorem createGraphicsPipeline_vectors (s s1 : FrameState) (d : InitDriver)
    (h : createGraphicsPipeline s d = .ok s1) : s1.vectors = s.vectors := by
  simp only [createGraphicsPipeline] at h
  repeat' split at h
  all_goals first
    | (simp at h; done)
    | (simp only [Except.ok.injEq] at h; subst h; rfl)

theorem createFramebuffers_vectors (s s1 : FrameState) (d : InitDriver)
    (h : createFramebuffers s d = .ok s1) :
    s1.m_swapchainImages = s.m_swapchainImages ∧
    s1.m_swapchainImageViews = s.m_swapchainImageViews ∧
    s1.m_swapchainFramebuffers.length = s.m_swapchainImageViews.length ∧
    s1.m_commandBuffers = s.m_commandBuffers := by
  simp only [createFramebuffers] at h
  split at h
  · simp at h
  · rename_i fbs hv
    simp only [Except.ok.injEq] at h; subst h
    exact ⟨rfl, rfl, by rw [createLoop_length _ _ _ _ _ _ _ hv, resize_length], rfl⟩

theorem createCommandPool_vectors (s s1 : FrameState) (d : InitDriver)
    (h : createCommandPool s d = .ok s1) : s1.vectors = s.vectors := by
  simp only [createCommandPool] at h
  split at h
  · simp at h
  · split at h
    · simp at h
    · split at h
      · simp at h
      · simp only [Except.ok.injEq] at h; subst h; rfl

theorem createVertexBuffer_vectors (s s1 : FrameState) (gpu gpu1 : Gpu) (d : UploadDriver)
    (h : createVertexBuffer s gpu d = .ok (s1, gpu1)) : s1.vectors = s.vectors := by
  simp only [createVertexBuffer] at h
  split at h
  · simp at h
  · simp only [Except.ok.injEq, Prod.mk.injEq] at h
    obtain ⟨h1, _⟩ := h
    subst h1; rfl

theorem createIndexBuffer_vectors (s s1 : FrameState) (gpu gpu1 : Gpu) (d : UploadDriver)
    (h : createIndexBuffer s gpu d = .ok (s1, gpu1)) : s1.vectors = s.vectors := by
  simp only [createIndexBuffer] at h
  split at h
  · simp at h
  · simp only [Except.ok.injEq, Prod.mk.injEq] at h
    obtain ⟨h1, _⟩ := h
    subst h1; rfl

theorem createCommandBuffers_vectors (s s1 : FrameState) (d : InitDriver)
    (h : createCommandBuffers s d = .ok s1) :
    s1.m_swapchainImages = s.m_swapchainImages ∧
    s1.m_swapchainImageViews = s.m_swapchainImageViews ∧
    s1.m_swapchainFramebuffers = s.m_swapchainFramebuffers ∧
    s1.m_commandBuffers.length = s.m_swapchainFramebuffers.length := by
  simp only [createCommandBuffers] at h
  split at h
  · simp at h
  · simp only [Except.ok.injEq] at h; subst h
    exact ⟨rfl, rfl, rfl, by simp⟩

theorem createSyncObjects_loop_vectors (d : SyncDriver) (k i : Nat) (s : FrameState)
    (calls : List GpuCall) :
    (createSyncObjects.loop d k i s calls).state.vectors = s.vectors := by
  induction k generalizing i s calls with
  | zero => rfl
  | succ k ih =>
    simp only [createSyncObjects.loop]
    split
    · rfl
    · split
      · rfl
      · split
        · rfl
        · rw [ih]; rfl

theorem syncStep_vectors (s s1 : FrameState) (d : InitDriver)
    (h : initVulkan.syncStep s d = .ok s1) : s1.vectors = s.vectors := by
  simp only [initVulkan.syncStep] at h
  split at h
  · simp only [Except.ok.injEq] at h
    subst h
    simp only [createSyncObjects]
    rw [createSyncObjects_loop_vectors]
    rfl
  · simp at h
  · simp at h

theorem drawFrame_vectors (s : FrameState) (driver : FrameDriver) :
    (drawFrame s driver).state.vectors = s.vectors := by
  by_cases h : (drawFrame s driver).outcome = .completed
  · obtain ⟨_, _, _, _, _, _, _, _, _, _, heq⟩ := drawFrame_completed s driver h
    rw [heq]; rfl
  · rw [drawFrame_state_of_not_completed s driver h]

/-- C14: after a successful `initVulkan` the swapchain images are the images the swapchain
reports, whatever their number, and the numbers of images, image views, framebuffers and
command buffers are equal; and `drawFrame` changes none of these four vectors. -/
theorem length_invariant (s s1 : FrameState) (gpu gpu1 : Gpu) (d : InitDriver)
    (h : initVulkan s gpu d = .ok (s1, gpu1)) :
    s1.m_swapchainImages = d.swapchainImages ∧
    s1.LengthInvariant ∧
    (∀ (t : FrameState) (driver : FrameDriver),
      (drawFrame t driver).state.m_swapchainImages = t.m_swapchainImages ∧
      (drawFrame t driver).state.m_swapchainImageViews = t.m_swapchainImageViews ∧
      (drawFrame t driver).state.m_swapchainFramebuffers = t.m_swapchainFramebuffers ∧
      (drawFrame t driver).state.m_commandBuffers = t.m_commandBuffers) := by
  refine ⟨?_, ?_, ?_⟩
  rotate_left 2
  · intro t driver
    have := drawFrame_vectors t driver
    simp only [FrameState.vectors, Prod.mk.injEq] at this
    exact this
  all_goals
    simp only [initVulkan, bind_eq_ok, pure, Except.pure, Except.ok.injEq,
      Prod.mk.injEq] at h
    obtain ⟨a1, h1, a2, h2, a3, h3, a4, h4, a5, h5, a6, h6, a7, h7, a8, h8, a9, h9, a10, h10,
      ⟨a11, g11⟩, h11, ⟨a12, g12⟩, h12, a13, h13, a14, h14, hs, _⟩ := h
    subst hs
    have e1 := createInstance_vectors _ _ _ h1
    have e2 := createSurface_vectors _ _ _ h2
    have e3 := pickStep_vectors _ _ _ h3
    have e4 := createLogicalDevice_vectors _ _ _ h4
    have e5 := createSwapchain_vectors _ _ _ h5
    have e6 := createImageViews_vectors _ _ _ h6
    have e7 := createRenderPass_vectors _ _ _ h7
    have e8 := createGraphicsPipeline_vectors _ _ _ h8
    have e9 := createFramebuffers_vectors _ _ _ h9
    have e10 := createCommandPool_vectors _ _ _ h10
    have e11 := createVertexBuffer_vectors _ _ _ _ _ h11
    have e12 := createIndexBuffer_vectors _ _ _ _ _ h12
    have e13 := createCommandBuffers_vectors _ _ _ h13
    have e14 := syncStep_vectors _ _ _ h14
    simp only [FrameState.vectors, Prod.mk.injEq] at e1 e2 e3 e4 e5 e7 e8 e10 e11 e12 e14
    try simp only [FrameState.LengthInvariant]
    obtain ⟨i5, -, -, -⟩ := e5
    obtain ⟨i6, v6, f6, c6⟩ := e6
    obtain ⟨i7, v7, f7, c7⟩ := e7
    obtain ⟨i8, v8, f8, c8⟩ := e8
    obtain ⟨i9, v9, f9, c9⟩ := e9
    obtain ⟨i10, v10, f10, c10⟩ := e10
    obtain ⟨i11, v11, f11, c11⟩ := e11
    obtain ⟨i12, v12, f12, c12⟩ := e12
    obtain ⟨i13, v13, f13, c13⟩ := e13
    obtain ⟨i14, v14, f14, c14⟩ := e14
    first
      | (rw [i14, i13, i12, i11, i10, i9, i8, i7, i6, i5]; done)
      | (refine ⟨?_, ?_, ?_⟩
         · rw [i14, i13, i12, i11, i10, i9, i8, i7, i6, v14, v13, v12, v11, v10, v9, v8, v7, v6]
         · rw [v14, v13, v12, v11, v10, v9, f14, f13, f12, f11, f10, f9]
         · rw [f14, f13, c14, c13])

/-- C14 witness: initialising the quad on a swapchain that reports three images succeeds and
leaves three images, three views, three framebuffers and three command buffers; with five
images it leaves five of each. -/
theorem length_invariant_witness :
    (∃ (s1 : FrameState) (gpu1 : Gpu),
      initVulkan (construct quadVertices quadIndices) Gpu.empty (successInit [20, 21, 22])
        = .ok (s1, gpu1) ∧
      s1.m_swapchainImages = [20, 21, 22] ∧ s1.m_swapchainImageViews = [25, 26, 27] ∧
      s1.m_swapchainFramebuffers = [30, 31, 32] ∧ s1.m_commandBuffers = [40, 41, 42] ∧
      s1.LengthInvariant) ∧
    (∃ (s1 : FrameState) (gpu1 : Gpu),
      initVulkan (construct quadVertices quadIndices) Gpu.empty
        (successInit [20, 21, 22, 23, 24]) = .ok (s1, gpu1) ∧
      s1.m_commandBuffers.length = 5 ∧ s1.LengthInvariant) :=
  ⟨⟨_, _, rfl, rfl, rfl, rfl, rfl,
      (length_invariant (construct quadVertices quadIndices) _ Gpu.empty _
        (successInit [20, 21, 22]) rfl).2.1⟩,
   ⟨_, _, rfl, rfl,
      (length_invariant (construct quadVertices quadIndices) _ Gpu.empty _
        (successInit [20, 21, 22, 23, 24]) rfl).2.1⟩⟩

/-- C15 witness: with the three vectors empty and three swapchain images, the six creations
succeed and `createSyncObjects` stores semaphores 50, 51 and 60, 61 and fences 70, 71, both
created signaled; its result is the example state. After one iteration, in slot 0, the slot
index is 1, fence 71 is still signaled, the next iteration begins with the wait on fence 71 and
that wait returns at once. -/
theorem frame_sync_set_shape_witness :
    (successInit [20, 21, 22]).sync.AllSucceed ∧
    exampleStateNoSync.m_inFlightFences = [] ∧
    createSyncObjects exampleStateNoSync (successInit [20, 21, 22]).sync
      = ⟨exampleState,
          [.vkCreateSemaphore 1 50, .vkCreateSemaphore 1 60, .vkCreateFence 1 1 70,
           .vkCreateSemaphore 1 51, .vkCreateSemaphore 1 61, .vkCreateFence 1 1 71],
          .completed⟩ ∧
    (createSyncObjects exampleStateNoSync (successInit [20, 21, 22]).sync).state.m_inFlightFences
      = [70, 71] ∧
    GpuSync.trackAll ⟨[], []⟩
      (createSyncObjects exampleStateNoSync (successInit [20, 21, 22]).sync).calls
      = ⟨[71, 70], []⟩ ∧
    Sys.runAny ⟨exampleState, ⟨[71, 70], []⟩, 0, none⟩ [.frame (successDriver 2)]
      = some ⟨{ exampleState with m_currentFrame := 1 }, ⟨[71], [⟨[42], 70⟩]⟩, 1, some 2⟩ ∧
    ((1 : Nat) = 1 ∧ exampleState.m_inFlightFences[1]? = some 71 ∧ (71 : Handle) ∈ [71] ∧
      (∀ driver : FrameDriver,
        (drawFrame { exampleState with m_currentFrame := 1 } driver).calls.head?
          = some (.vkWaitForFences 1 [71] true UINT64_MAX)) ∧
      GpuSync.exec ⟨[71], [⟨[42], 70⟩]⟩ (.vkWaitForFences 1 [71] true UINT64_MAX)
        = some ⟨[71], [⟨[42], 70⟩]⟩) :=
  ⟨fun _ _ => ⟨rfl, rfl, rfl⟩, rfl, by decide,
    ((frame_sync_set_shape exampleStateNoSync (successInit [20, 21, 22]).sync).2.2.1
      (fun _ _ => ⟨rfl, rfl, rfl⟩)).1 ▸ rfl,
    ((frame_sync_set_shape exampleStateNoSync (successInit [20, 21, 22]).sync).2.2.1
      (fun _ _ => ⟨rfl, rfl, rfl⟩)).2.2.2.2.2.2.2.2,
    by decide,
    (frame_sync_set_shape exampleStateNoSync (successInit [20, 21, 22]).sync).2.2.2.1
      (fun _ _ => ⟨rfl, rfl, rfl⟩) (by decide) rfl [.frame (successDriver 2)]
      ⟨{ exampleState with m_currentFrame := 1 }, ⟨[71], [⟨[42], 70⟩]⟩, 1, some 2⟩
      (by decide) (by decide)⟩

/-! ### Swapchain selection inside `createSwapchain` -/

theorem chooseSwapSurfaceFormat_some_of_ne_nil (formats : List VkSurfaceFormatKHR)
    (h : formats ≠ []) : ∃ r, chooseSwapSurfaceFormat formats = some r := by
  cases hl : chooseSwapSurfaceFormat.loop formats with
  | some r => exact ⟨r, by simp [chooseSwapSurfaceFormat, hl]⟩
  | none =>
    cases formats with
    | nil => exact absurd rfl h
    | cons f rest => exact ⟨f, by simp [chooseSwapSurfaceFormat, hl]⟩

theorem pickPhysicalDevice_ok_suitable (devices : List PhysicalDevice) (dev : PhysicalDevice)
    (h : pickPhysicalDevice devices = .ok dev) : Suitable dev := by
  cases devices with
  | nil => simp [pickPhysicalDevice] at h
  | cons d rest =>
    have h2 : pickPhysicalDevice.loop (d :: rest) = .ok dev := by
      simpa [pickPhysicalDevice] using h
    obtain ⟨_, _, hs, _⟩ := (pickPhysicalDevice.loop_ok _ _).1 h2
    exact hs

theorem pickPhysicalDevice_error_of_unsuitable (devices : List PhysicalDevice)
    (h : ∀ dev ∈ devices, ¬ Suitable dev) : ∃ msg, pickPhysicalDevice devices = .error msg := by
  cases devices with
  | nil => exact ⟨"No Vulkan physical devices found", rfl⟩
  | cons d rest =>
    obtain ⟨msg, hmsg⟩ := (pickPhysicalDevice.loop_error (d :: rest)).2 h
    exact ⟨msg, by simpa [pickPhysicalDevice] using hmsg⟩

/-- C20 counterexample: with one surface format and an empty present-mode list the selection of
`createSwapchain` produces that format and FIFO instead of failing; with an empty format list
it reads `formats[0]` outside the vector, which throws nothing. -/
theorem swapchain_rejects_empty_lists_counterexample :
    createSwapchain.selection
        ⟨⟨2, 8, ⟨1280, 720⟩, ⟨1, 1⟩, ⟨4096, 4096⟩⟩, [⟨VK_FORMAT_B8G8R8A8_SRGB, 0⟩], []⟩
      = .ok (⟨VK_FORMAT_B8G8R8A8_SRGB, 0⟩, VK_PRESENT_MODE_FIFO_KHR, ⟨1280, 720⟩, 3) ∧
    createSwapchain.selection
        ⟨⟨2, 8, ⟨1280, 720⟩, ⟨1, 1⟩, ⟨4096, 4096⟩⟩, [], [VK_PRESENT_MODE_FIFO_KHR]⟩
      = .error .undefinedBehaviour :=
  ⟨rfl, rfl⟩

/-- C20 (amended): empty capability lists are rejected by `pickPhysicalDevice`, not by
`createSwapchain`. A device that `pickPhysicalDevice` selects has a non-empty surface-format
list and a non-empty present-mode list, so the selection of `createSwapchain` on it produces a
format and a present mode; `pickPhysicalDevice` fails with an error when every enumerated device
has an empty format list or an empty present-mode list. The selection itself throws no error:
for a non-empty format list it produces a format and the present mode chosen by
`chooseSwapPresentMode`, which is FIFO for an empty present-mode list. -/
theorem empty_lists_rejected_at_device_selection (devices : List PhysicalDevice)
    (sc : SwapChainSupportDetails) :
    (∀ dev, pickPhysicalDevice devices = .ok dev →
      (querySwapChainSupport dev).formats ≠ [] ∧ (querySwapChainSupport dev).presentModes ≠ [] ∧
      ∃ r, createSwapchain.selection (querySwapChainSupport dev) = .ok r) ∧
    ((∀ dev ∈ devices, (querySwapChainSupport dev).formats = [] ∨
        (querySwapChainSupport dev).presentModes = []) →
      ∃ msg, pickPhysicalDevice devices = .error msg) ∧
    (sc.formats ≠ [] →
      ∃ surfaceFormat, createSwapchain.selection sc =
        .ok (surfaceFormat, chooseSwapPresentMode sc.presentModes,
          chooseSwapExtent WIDTH HEIGHT sc.capabilities,
          createSwapchain.imageCount sc.capabilities)) ∧
    (sc.presentModes = [] → chooseSwapPresentMode sc.presentModes = VK_PRESENT_MODE_FIFO_KHR) ∧
    (∀ msg, createSwapchain.selection sc ≠ .error (.threw msg)) := by
  refine ⟨?_, ?_, ?_, ?_, ?_⟩
  · intro dev h
    obtain ⟨_, hf, hm, _⟩ := pickPhysicalDevice_ok_suitable devices dev h
    obtain ⟨r, hr⟩ := chooseSwapSurfaceFormat_some_of_ne_nil _ hf
    exact ⟨hf, hm, (r, chooseSwapPresentMode dev.swapChainSupport.presentModes,
      chooseSwapExtent WIDTH HEIGHT dev.swapChainSupport.capabilities,
      createSwapchain.imageCount dev.swapChainSupport.capabilities),
      by simp only [createSwapchain.selection, querySwapChainSupport, hr]⟩
  · intro h
    apply pickPhysicalDevice_error_of_unsuitable
    intro dev hdev hs
    obtain ⟨_, hf, hm, _⟩ := hs
    rcases h dev hdev with h1 | h1
    · exact hf h1
    · exact hm h1
  · intro hf
    obtain ⟨r, hr⟩ := chooseSwapSurfaceFormat_some_of_ne_nil _ hf
    exact ⟨r, by simp only [createSwapchain.selection, hr]⟩
  · intro h
    rw [h]
    rfl
  · intro msg h
    simp only [createSwapchain.selection] at h
    split at h <;> simp at h

/-- C20 witness: a device whose present-mode list is empty is not selected, and a list holding
only such a device makes `pickPhysicalDevice` fail; the example device is selected and the
selection on it gives its format, MAILBOX, the current extent and three images. -/
theorem empty_lists_rejected_at_device_selection_witness :
    pickPhysicalDevice [{ exampleDevice with
        swapChainSupport := { exampleDevice.swapChainSupport with presentModes := [] } }]
      = .error "Failed to find suitable GPU" ∧
    pickPhysicalDevice [{ exampleDevice with
        swapChainSupport := { exampleDevice.swapChainSupport with presentModes := [] } },
        exampleDevice] = .ok exampleDevice ∧
    createSwapchain.selection exampleDevice.swapChainSupport
      = .ok (⟨VK_FORMAT_B8G8R8A8_SRGB, 0⟩, VK_PRESENT_MODE_MAILBOX_KHR, ⟨1280, 720⟩, 3) ∧
    ((querySwapChainSupport exampleDevice).formats ≠ [] ∧
      (querySwapChainSupport exampleDevice).presentModes ≠ [] ∧
      ∃ r, createSwapchain.selection (querySwapChainSupport exampleDevice) = .ok r) :=
  ⟨rfl, rfl, rfl,
    (empty_lists_rejected_at_device_selection
      [{ exampleDevice with
          swapChainSupport := { exampleDevice.swapChainSupport with presentModes := [] } },
        exampleDevice]
      exampleDevice.swapChainSupport).1 exampleDevice rfl⟩

/-! ### Memory-type selection -/

theorem and_one_shiftLeft_ne_zero (n i : Nat) : n &&& (1 <<< i) ≠ 0 ↔ n.testBit i = true := by
  rw [Nat.one_shiftLeft]
  constructor
  · intro h
    by_contra hc
    apply h
    apply Nat.eq_of_testBit_eq
    intro j
    simp only [Nat.testBit_and, Nat.testBit_two_pow, Nat.zero_testBit]
    by_cases hj : i = j
    · subst hj; simp [hc]
    · simp [hj]
  · intro h hc
    have := congrArg (fun m => m.testBit i) hc
    simp [Nat.testBit_and, Nat.testBit_two_pow, h] at this

theorem findMemoryType.loop_ok_iff (typeFilter properties : Nat) (l : List Nat) (i r : Nat) :
    findMemoryType.loop typeFilter properties l i = .ok r ↔
      ∃ j : Nat, r = i + j ∧ findMemoryType.Accepts l (typeFilter >>> i) properties j ∧
        ∀ k : Nat, k < j → ¬ findMemoryType.Accepts l (typeFilter >>> i) properties k := by
  induction l generalizing i with
  | nil =>
    simp [findMemoryType.loop, findMemoryType.Accepts]
  | cons flags rest ih =>
    simp only [findMemoryType.loop]
    by_cases hc : typeFilter &&& (1 <<< i) ≠ 0 ∧ flags &&& properties = properties
    · rw [if_pos hc]
      have hacc : findMemoryType.Accepts (flags :: rest) (typeFilter >>> i) properties 0 :=
        ⟨by simpa [Nat.testBit_shiftRight] using (and_one_shiftLeft_ne_zero _ _).1 hc.1,
          flags, by simp, hc.2⟩
      constructor
      · intro h
        simp only [Except.ok.injEq] at h
        exact ⟨0, by omega, hacc, by intro k hk; omega⟩
      · rintro ⟨j, hr, _, hmin⟩
        have hj : j = 0 := by
          by_contra hne
          exact hmin 0 (Nat.pos_of_ne_zero hne) hacc
        subst hj
        simp [hr]
    · rw [if_neg hc, ih (i + 1)]
      have hnot : ¬ findMemoryType.Accepts (flags :: rest) (typeFilter >>> i) properties 0 := by
        rintro ⟨hb, pf, hpf, hp⟩
        simp only [List.getElem?_cons_zero, Option.some.injEq] at hpf
        subst hpf
        exact hc ⟨(and_one_shiftLeft_ne_zero _ _).2
          (by simpa [Nat.testBit_shiftRight] using hb), hp⟩
      have hshift : ∀ k : Nat,
          findMemoryType.Accepts (flags :: rest) (typeFilter >>> i) properties (k + 1) ↔
            findMemoryType.Accepts rest (typeFilter >>> (i + 1)) properties k := by
        intro k
        simp only [findMemoryType.Accepts, Nat.testBit_shiftRight, List.getElem?_cons_succ]
        rw [show i + (k + 1) = i + 1 + k by omega]
      constructor
      · rintro ⟨j, hr, hacc, hmin⟩
        refine ⟨j + 1, by omega, (hshift j).2 hacc, ?_⟩
        intro k hk
        cases k with
        | zero => exact hnot
        | succ k => exact fun h => hmin k (by omega) ((hshift k).1 h)
      · rintro ⟨j, hr, hacc, hmin⟩
        cases j with
        | zero => exact absurd hacc hnot
        | succ j =>
          exact ⟨j, by omega, (hshift j).1 hacc,
            fun k hk h => hmin (k + 1) (by omega) ((hshift k).2 h)⟩

theorem findMemoryType.loop_error_message (typeFilter properties : Nat) (l : List Nat) (i : Nat)
    (e : String) (h : findMemoryType.loop typeFilter properties l i = .error e) :
    e = "Failed to find suitable memory type" := by
  induction l generalizing i with
  | nil =>
    simp only [findMemoryType.loop, Except.error.injEq] at h
    exact h.symm
  | cons flags rest ih =>
    simp only [findMemoryType.loop] at h
    split at h
    · simp at h
    · exact ih _ h

/-- C21: over a memory-type table of at most 32 entries, `findMemoryType` returns `r` exactly
when `r` is the smallest index below the count whose bit is set in `typeFilter` and whose
property flags contain every bit of `properties`; it fails, with the message
"Failed to find suitable memory type", exactly when no index is acceptable; and the shift
`1 << r` of a returned index stays inside 32 bits. -/
theorem findMemoryType_spec (memoryTypes : List Nat) (typeFilter properties : Nat)
    (hcount : memoryTypes.length ≤ 32) :
    (∀ r : Nat, findMemoryType memoryTypes typeFilter properties = .ok r ↔
      (r < memoryTypes.length ∧ findMemoryType.Accepts memoryTypes typeFilter properties r ∧
        ∀ j : Nat, j < r → ¬ findMemoryType.Accepts memoryTypes typeFilter properties j)) ∧
    (findMemoryType memoryTypes typeFilter properties
        = .error "Failed to find suitable memory type" ↔
      ¬ ∃ i : Nat, i < memoryTypes.length ∧
        findMemoryType.Accepts memoryTypes typeFilter properties i) ∧
    (∀ e : String, findMemoryType memoryTypes typeFilter properties = .error e →
      e = "Failed to find suitable memory type") ∧
    (∀ r : Nat, findMemoryType memoryTypes typeFilter properties = .ok r →
      r < 32 ∧ 1 <<< r < 2 ^ 32) := by
  have hlt : ∀ i : Nat, findMemoryType.Accepts memoryTypes typeFilter properties i →
      i < memoryTypes.length := by
    rintro i ⟨_, pf, hpf, _⟩
    exact (List.getElem?_eq_some_iff.1 hpf).1
  have hok : ∀ r : Nat, findMemoryType memoryTypes typeFilter properties = .ok r ↔
      (r < memoryTypes.length ∧ findMemoryType.Accepts memoryTypes typeFilter properties r ∧
        ∀ j : Nat, j < r → ¬ findMemoryType.Accepts memoryTypes typeFilter properties j) := by
    intro r
    unfold findMemoryType
    rw [findMemoryType.loop_ok_iff]
    simp only [Nat.shiftRight_zero, Nat.zero_add]
    constructor
    · rintro ⟨j, rfl, hacc, hmin⟩
      exact ⟨hlt _ hacc, hacc, hmin⟩
    · rintro ⟨_, hacc, hmin⟩
      exact ⟨r, rfl, hacc, hmin⟩
  refine ⟨hok, ?_, ?_, ?_⟩
  · constructor
    · rintro h ⟨i, _, hacc⟩
      classical
      have hex : ∃ i : Nat, findMemoryType.Accepts memoryTypes typeFilter properties i :=
        ⟨i, hacc⟩
      have hleast := (hok (Nat.find hex)).2
        ⟨hlt _ (Nat.find_spec hex), Nat.find_spec hex, fun j hj => Nat.find_min hex hj⟩
      rw [h] at hleast
      cases hleast
    · intro hno
      cases hres : findMemoryType memoryTypes typeFilter properties with
      | ok r => exact absurd ⟨r, ((hok r).1 hres).1, ((hok r).1 hres).2.1⟩ hno
      | error e => rw [findMemoryType.loop_error_message _ _ _ _ _ hres]
  · intro e h
    exact findMemoryType.loop_error_message _ _ _ _ _ h
  · intro r h
    have hr := ((hok r).1 h).1
    have h32 : r < 32 := by omega
    exact ⟨h32, by rw [Nat.one_shiftLeft]; exact Nat.pow_lt_pow_right (by decide) h32⟩

theorem findMemoryType_spec_witness :
    ([6, 1, 7] : List Nat).length ≤ 32 ∧ findMemoryType [6, 1, 7] 6 1 = .ok 1 ∧
    (1 < ([6, 1, 7] : List Nat).length ∧ findMemoryType.Accepts [6, 1, 7] 6 1 1 ∧
      ∀ j : Nat, j < 1 → ¬ findMemoryType.Accepts [6, 1, 7] 6 1 j) :=
  ⟨by decide, rfl, ((findMemoryType_spec [6, 1, 7] 6 1 (by decide)).1 1).1 rfl⟩

/-! ### Queue-family selection -/

/-- The record after the body of one iteration of the loop of `findQueueFamilies`. -/
theorem findQueueFamilies.loop_cons (q : QueueFamily) (rest : List QueueFamily) (i : Nat)
    (indices : QueueFamilyIndices) :
    findQueueFamilies.loop (q :: rest) i indices =
      if (QueueFamilyIndices.mk
          (if q.queueFlags &&& VK_QUEUE_GRAPHICS_BIT ≠ 0 then some i else indices.graphicsFamily)
          (if q.presentSupport = true then some i else indices.presentFamily)).isComplete = true
      then QueueFamilyIndices.mk
          (if q.queueFlags &&& VK_QUEUE_GRAPHICS_BIT ≠ 0 then some i else indices.graphicsFamily)
          (if q.presentSupport = true then some i else indices.presentFamily)
      else findQueueFamilies.loop rest (i + 1) (QueueFamilyIndices.mk
          (if q.queueFlags &&& VK_QUEUE_GRAPHICS_BIT ≠ 0 then some i else indices.graphicsFamily)
          (if q.presentSupport = true then some i else indices.presentFamily)) := by
  by_cases hg : q.queueFlags &&& VK_QUEUE_GRAPHICS_BIT ≠ 0 <;>
  by_cases hp : q.presentSupport = true <;>
  simp [findQueueFamilies.loop, hg, hp]

theorem findQueueFamilies.loop_spec (families : List QueueFamily) (i : Nat)
    (indices : QueueFamilyIndices) :
    ((findQueueFamilies.loop families i indices).isComplete = true ↔
      (indices.graphicsFamily.isSome = true ∨ ∃ q ∈ families, q.graphicsCapable) ∧
      (indices.presentFamily.isSome = true ∨ ∃ q ∈ families, q.presentCapable)) ∧
    (∀ g : Nat, (findQueueFamilies.loop families i indices).graphicsFamily = some g →
      indices.graphicsFamily = some g ∨
        ∃ (j : Nat) (q : QueueFamily), g = i + j ∧ families[j]? = some q ∧ q.graphicsCapable) ∧
    (∀ p : Nat, (findQueueFamilies.loop families i indices).presentFamily = some p →
      indices.presentFamily = some p ∨
        ∃ (j : Nat) (q : QueueFamily), p = i + j ∧ families[j]? = some q ∧ q.presentCapable) := by
  induction families generalizing i indices with
  | nil =>
    refine ⟨?_, fun g h => Or.inl h, fun p h => Or.inl h⟩
    simp [findQueueFamilies.loop, QueueFamilyIndices.isComplete]
  | cons q rest ih =>
    have hgs : (if q.queueFlags &&& VK_QUEUE_GRAPHICS_BIT ≠ 0 then some i
        else indices.graphicsFamily).isSome = true ↔
        (indices.graphicsFamily.isSome = true ∨ q.graphicsCapable) := by
      unfold QueueFamily.graphicsCapable
      split <;> simp [*]
    have hps : (if q.presentSupport = true then some i
        else indices.presentFamily).isSome = true ↔
        (indices.presentFamily.isSome = true ∨ q.presentCapable) := by
      unfold QueueFamily.presentCapable
      split <;> simp [*]
    have hgv : ∀ g : Nat, (if q.queueFlags &&& VK_QUEUE_GRAPHICS_BIT ≠ 0 then some i
        else indices.graphicsFamily) = some g →
        indices.graphicsFamily = some g ∨ (g = i ∧ q.graphicsCapable) := by
      intro g h
      split at h
      · rename_i hc
        exact Or.inr ⟨by simpa using h.symm, hc⟩
      · exact Or.inl h
    have hpv : ∀ p : Nat, (if q.presentSupport = true then some i
        else indices.presentFamily) = some p →
        indices.presentFamily = some p ∨ (p = i ∧ q.presentCapable) := by
      intro p h
      split at h
      · rename_i hc
        exact Or.inr ⟨by simpa using h.symm, hc⟩
      · exact Or.inl h
    rw [findQueueFamilies.loop_cons]
    generalize hind2 : QueueFamilyIndices.mk
      (if q.queueFlags &&& VK_QUEUE_GRAPHICS_BIT ≠ 0 then some i else indices.graphicsFamily)
      (if q.presentSupport = true then some i else indices.presentFamily) = ind2
    have hg2 : ind2.graphicsFamily = (if q.queueFlags &&& VK_QUEUE_GRAPHICS_BIT ≠ 0 then some i
        else indices.graphicsFamily) := by rw [← hind2]
    have hp2 : ind2.presentFamily = (if q.presentSupport = true then some i
        else indices.presentFamily) := by rw [← hind2]
    rw [← hg2] at hgs hgv
    rw [← hp2] at hps hpv
    by_cases hc : ind2.isComplete = true
    · rw [if_pos hc]
      have hc2 := hc
      simp only [QueueFamilyIndices.isComplete, Bool.and_eq_true] at hc2
      refine ⟨?_, ?_, ?_⟩
      · refine ⟨fun _ => ?_, fun _ => hc⟩
        refine ⟨?_, ?_⟩
        · rcases hgs.1 hc2.1 with h | h
          · exact Or.inl h
          · exact Or.inr ⟨q, List.mem_cons_self _ _, h⟩
        · rcases hps.1 hc2.2 with h | h
          · exact Or.inl h
          · exact Or.inr ⟨q, List.mem_cons_self _ _, h⟩
      · intro g h
        rcases hgv g h with h1 | ⟨h1, h2⟩
        · exact Or.inl h1
        · exact Or.inr ⟨0, q, by omega, by simp, h2⟩
      · intro p h
        rcases hpv p h with h1 | ⟨h1, h2⟩
        · exact Or.inl h1
        · exact Or.inr ⟨0, q, by omega, by simp, h2⟩
    · rw [if_neg hc]
      obtain ⟨ih1, ih2, ih3⟩ := ih (i + 1) ind2
      refine ⟨?_, ?_, ?_⟩
      · rw [ih1, hgs, hps]
        simp only [List.mem_cons, exists_eq_or_imp, or_assoc]
      · intro g h
        rcases ih2 g h with h1 | ⟨j, q1, hj, hq, hcap⟩
        · rcases hgv g h1 with h2 | ⟨h2, h3⟩
          · exact Or.inl h2
          · exact Or.inr ⟨0, q, by omega, by simp, h3⟩
        · exact Or.inr ⟨j + 1, q1, by omega, by simpa using hq, hcap⟩
      · intro p h
        rcases ih3 p h with h1 | ⟨j, q1, hj, hq, hcap⟩
        · rcases hpv p h1 with h2 | ⟨h2, h3⟩
          · exact Or.inl h2
          · exact Or.inr ⟨0, q, by omega, by simp, h3⟩
        · exact Or.inr ⟨j + 1, q1, by omega, by simpa using hq, hcap⟩

/-- C23: for every list of queue families, the result of `findQueueFamilies` is complete
exactly when some family is graphics-capable and some family is present-capable; a graphics
index that is set is below the family count and names a graphics-capable family, and a present
index that is set is below the family count and names a present-capable family. -/
theorem findQueueFamilies_spec (device : PhysicalDevice) :
    ((findQueueFamilies device).isComplete = true ↔
      (∃ q ∈ device.queueFamilies, q.graphicsCapable) ∧
      (∃ q ∈ device.queueFamilies, q.presentCapable)) ∧
    (∀ g : Nat, (findQueueFamilies device).graphicsFamily = some g →
      g < device.queueFamilies.length ∧
        ∃ q : QueueFamily, device.queueFamilies[g]? = some q ∧ q.graphicsCapable) ∧
    (∀ p : Nat, (findQueueFamilies device).presentFamily = some p →
      p < device.queueFamilies.length ∧
        ∃ q : QueueFamily, device.queueFamilies[p]? = some q ∧ q.presentCapable) := by
  obtain ⟨h1, h2, h3⟩ := findQueueFamilies.loop_spec device.queueFamilies 0
    { graphicsFamily := none, presentFamily := none }
  refine ⟨?_, ?_, ?_⟩
  · unfold findQueueFamilies
    rw [h1]
    simp
  · intro g h
    rcases h2 g h with h0 | ⟨j, q, hj, hq, hcap⟩
    · simp at h0
    · rw [Nat.zero_add] at hj
      subst hj
      exact ⟨(List.getElem?_eq_some_iff.1 hq).1, q, hq, hcap⟩
  · intro p h
    rcases h3 p h with h0 | ⟨j, q, hj, hq, hcap⟩
    · simp at h0
    · rw [Nat.zero_add] at hj
      subst hj
      exact ⟨(List.getElem?_eq_some_iff.1 hq).1, q, hq, hcap⟩

theorem findQueueFamilies_spec_witness :
    findQueueFamilies { exampleDevice with
      queueFamilies := [⟨2, false⟩, ⟨3, false⟩, ⟨4, true⟩, ⟨1, true⟩] }
      = { graphicsFamily := some 1, presentFamily := some 2 } ∧
    (1 < ([⟨2, false⟩, ⟨3, false⟩, ⟨4, true⟩, ⟨1, true⟩] : List QueueFamily).length ∧
      ∃ q : QueueFamily,
        ([⟨2, false⟩, ⟨3, false⟩, ⟨4, true⟩, ⟨1, true⟩] : List QueueFamily)[1]? = some q ∧
          q.graphicsCapable) ∧
    (2 < ([⟨2, false⟩, ⟨3, false⟩, ⟨4, true⟩, ⟨1, true⟩] : List QueueFamily).length ∧
      ∃ q : QueueFamily,
        ([⟨2, false⟩, ⟨3, false⟩, ⟨4, true⟩, ⟨1, true⟩] : List QueueFamily)[2]? = some q ∧
          q.presentCapable) :=
  ⟨rfl,
    (findQueueFamilies_spec { exampleDevice with
      queueFamilies := [⟨2, false⟩, ⟨3, false⟩, ⟨4, true⟩, ⟨1, true⟩] }).2.1 1 rfl,
    (findQueueFamilies_spec { exampleDevice with
      queueFamilies := [⟨2, false⟩, ⟨3, false⟩, ⟨4, true⟩, ⟨1, true⟩] }).2.2 2 rfl⟩

/-! ### Image-count limits -/

/-- C24: for capabilities with `minImageCount < 2^32 - 1` and with `maxImageCount = 0` or
`maxImageCount ≥ minImageCount`, the image count computed by `createSwapchain` is at least
`minImageCount`, at most `minImageCount + 1` and, when `maxImageCount` is nonzero, at most
`maxImageCount`. -/
theorem createSwapchain_imageCount_limits (capabilities : VkSurfaceCapabilitiesKHR)
    (hmin : capabilities.minImageCount < 2 ^ 32 - 1)
    (hmax : capabilities.maxImageCount = 0 ∨
      capabilities.maxImageCount ≥ capabilities.minImageCount) :
    capabilities.minImageCount ≤ createSwapchain.imageCount capabilities ∧
    createSwapchain.imageCount capabilities ≤ capabilities.minImageCount + 1 ∧
    (capabilities.maxImageCount ≠ 0 →
      createSwapchain.imageCount capabilities ≤ capabilities.maxImageCount) := by
  have hsum : (capabilities.minImageCount + 1) % 2 ^ 32 = capabilities.minImageCount + 1 :=
    Nat.mod_eq_of_lt (by omega)
  simp only [createSwapchain.imageCount, hsum]
  split
  · rename_i hc
    refine ⟨?_, ?_, fun _ => Nat.le_refl _⟩ <;> omega
  · rename_i hc
    refine ⟨by omega, Nat.le_refl _, fun h0 => ?_⟩
    by_contra hlt
    exact hc ⟨Nat.pos_of_ne_zero h0, by omega⟩

theorem createSwapchain_imageCount_limits_witness :
    (2 : Nat) < 2 ^ 32 - 1 ∧ ((2 : Nat) = 0 ∨ (2 : Nat) ≥ 2) ∧
    2 ≤ createSwapchain.imageCount ⟨2, 2, ⟨800, 600⟩, ⟨1, 1⟩, ⟨4096, 4096⟩⟩ ∧
    createSwapchain.imageCount ⟨2, 2, ⟨800, 600⟩, ⟨1, 1⟩, ⟨4096, 4096⟩⟩ ≤ 2 + 1 ∧
    ((2 : Nat) ≠ 0 →
      createSwapchain.imageCount ⟨2, 2, ⟨800, 600⟩, ⟨1, 1⟩, ⟨4096, 4096⟩⟩ ≤ 2) :=
  ⟨by decide, Or.inr (Nat.le_refl 2),
    createSwapchain_imageCount_limits ⟨2, 2, ⟨800, 600⟩, ⟨1, 1⟩, ⟨4096, 4096⟩⟩
      (by decide) (Or.inr (Nat.le_refl 2))⟩

/-! ### Drag gesture -/

section DragGesture

variable {K : Type} [LinearOrderedField K]

theorem updateCameraFromInput_released (c : Camera K) (x y : K) (keyW keyS : Bool) :
    (updateCameraFromInput c x y false keyW keyS).m_mousePressed = false ∧
    (updateCameraFromInput c x y false keyW keyS).m_yaw = c.m_yaw ∧
    (updateCameraFromInput c x y false keyW keyS).m_pitch = c.m_pitch ∧
    (updateCameraFromInput c x y false keyW keyS).m_lastMouseX = c.m_lastMouseX ∧
    (updateCameraFromInput c x y false keyW keyS).m_lastMouseY = c.m_lastMouseY := by
  simp [updateCameraFromInput]

theorem updateCameraFromInput_first_press (c : Camera K) (x y : K) (keyW keyS : Bool)
    (h : c.m_mousePressed = false) :
    (updateCameraFromInput c x y true keyW keyS).m_mousePressed = true ∧
    (updateCameraFromInput c x y true keyW keyS).m_lastMouseX = x ∧
    (updateCameraFromInput c x y true keyW keyS).m_lastMouseY = y ∧
    (updateCameraFromInput c x y true keyW keyS).m_yaw = c.m_yaw ∧
    (updateCameraFromInput c x y true keyW keyS).m_pitch = c.m_pitch := by
  simp [updateCameraFromInput, h]

theorem onScroll_rotation (c : Camera K) (xoffset yoffset : K) :
    (onScroll c xoffset yoffset).m_mousePressed = c.m_mousePressed ∧
    (onScroll c xoffset yoffset).m_yaw = c.m_yaw ∧
    (onScroll c xoffset yoffset).m_pitch = c.m_pitch := by
  simp [onScroll]

theorem Camera.run_released (c : Camera K) (inputs : List (CameraInput K))
    (hc : c.m_mousePressed = false) (h : ∀ i ∈ inputs, i.released = true) :
    (c.run inputs).m_mousePressed = false ∧ (c.run inputs).m_yaw = c.m_yaw ∧
    (c.run inputs).m_pitch = c.m_pitch := by
  induction inputs generalizing c with
  | nil => exact ⟨hc, rfl, rfl⟩
  | cons i rest ih =>
    have hi := h i (List.mem_cons_self _ _)
    have hrest : ∀ j ∈ rest, j.released = true := fun j hj => h j (List.mem_cons_of_mem _ hj)
    cases i with
    | scroll xoffset yoffset =>
      obtain ⟨h1, h2, h3⟩ := onScroll_rotation c xoffset yoffset
      obtain ⟨r1, r2, r3⟩ := ih (onScroll c xoffset yoffset) (h1.trans hc) hrest
      exact ⟨r1, r2.trans h2, r3.trans h3⟩
    | poll x y left keyW keyS =>
      have hl : left = false := by simpa [CameraInput.released] using hi
      subst hl
      obtain ⟨h1, h2, h3, _, _⟩ := updateCameraFromInput_released c x y keyW keyS
      obtain ⟨r1, r2, r3⟩ := ih (updateCameraFromInput c x y false keyW keyS) h1 hrest
      exact ⟨r1, r2.trans h2, r3.trans h3⟩

theorem Camera.run_append (c : Camera K) (a b : List (CameraInput K)) :
    c.run (a ++ b) = (c.run a).run b := by
  simp [Camera.run, List.foldl_append]

/-- C25: the drag gesture of `updateCameraFromInput`. On a poll with the left button pressed
and no drag active, the drag flag is set, the last cursor position becomes the current cursor
and yaw and pitch are unchanged. On a poll with the button not pressed, the drag flag is
cleared and yaw and pitch are unchanged, whatever the cursor position. Hence after a released
poll, any further scrolls and released polls, and then the first poll of the next press, yaw
and pitch are still those before the released poll. -/
theorem drag_state_machine (c : Camera K) (x y : K) (keyW keyS : Bool) :
    (c.m_mousePressed = false →
      (updateCameraFromInput c x y true keyW keyS).m_mousePressed = true ∧
      (updateCameraFromInput c x y true keyW keyS).m_lastMouseX = x ∧
      (updateCameraFromInput c x y true keyW keyS).m_lastMouseY = y ∧
      (updateCameraFromInput c x y true keyW keyS).m_yaw = c.m_yaw ∧
      (updateCameraFromInput c x y true keyW keyS).m_pitch = c.m_pitch) ∧
    ((updateCameraFromInput c x y false keyW keyS).m_mousePressed = false ∧
      (updateCameraFromInput c x y false keyW keyS).m_yaw = c.m_yaw ∧
      (updateCameraFromInput c x y false keyW keyS).m_pitch = c.m_pitch) ∧
    (∀ (later : List (CameraInput K)) (x1 y1 : K) (keyW1 keyS1 : Bool),
      (∀ i ∈ later, i.released = true) →
      (c.run (.poll x y false keyW keyS :: later ++ [.poll x1 y1 true keyW1 keyS1])).m_yaw
        = c.m_yaw ∧
      (c.run (.poll x y false keyW keyS :: later ++ [.poll x1 y1 true keyW1 keyS1])).m_pitch
        = c.m_pitch ∧
      (c.run (.poll x y false keyW keyS :: later
        ++ [.poll x1 y1 true keyW1 keyS1])).m_mousePressed = true ∧
      (c.run (.poll x y false keyW keyS :: later ++ [.poll x1 y1 true keyW1 keyS1])).m_lastMouseX
        = x1 ∧
      (c.run (.poll x y false keyW keyS :: later ++ [.poll x1 y1 true keyW1 keyS1])).m_lastMouseY
        = y1) := by
  obtain ⟨h1, h2, h3, _, _⟩ := updateCameraFromInput_released c x y keyW keyS
  refine ⟨updateCameraFromInput_first_press c x y keyW keyS, ⟨h1, h2, h3⟩, ?_⟩
  intro later x1 y1 keyW1 keyS1 hlater
  obtain ⟨r1, r2, r3⟩ :=
    Camera.run_released (updateCameraFromInput c x y false keyW keyS) later h1 hlater
  obtain ⟨p1, p2, p3, p4, p5⟩ := updateCameraFromInput_first_press
    ((updateCameraFromInput c x y false keyW keyS).run later) x1 y1 keyW1 keyS1 r1
  have hrun : c.run (.poll x y false keyW keyS :: later ++ [.poll x1 y1 true keyW1 keyS1])
      = updateCameraFromInput ((updateCameraFromInput c x y false keyW keyS).run later)
          x1 y1 true keyW1 keyS1 := by
    rw [Camera.run_append]
    rfl
  rw [hrun]
  exact ⟨p4.trans (r2.trans h2), p5.trans (r3.trans h3), p1, p2, p3⟩

theorem drag_state_machine_witness :
    (Camera.initial : Camera ℚ).m_mousePressed = false ∧
    ((updateCameraFromInput (Camera.initial : Camera ℚ) 300 200 true false false).m_mousePressed
        = true ∧
      (updateCameraFromInput (Camera.initial : Camera ℚ) 300 200 true false false).m_lastMouseX
        = 300 ∧
      (updateCameraFromInput (Camera.initial : Camera ℚ) 300 200 true false false).m_lastMouseY
        = 200 ∧
      (updateCameraFromInput (Camera.initial : Camera ℚ) 300 200 true false false).m_yaw
        = (Camera.initial : Camera ℚ).m_yaw ∧
      (updateCameraFromInput (Camera.initial : Camera ℚ) 300 200 true false false).m_pitch
        = (Camera.initial : Camera ℚ).m_pitch) ∧
    ((Camera.initial : Camera ℚ).run
        (.poll 500 400 false false false ::
          [.scroll 0 1, .poll 900 900 false true false] ++ [.poll 10 10 true false false])).m_yaw
      = (Camera.initial : Camera ℚ).m_yaw :=
  ⟨rfl, (drag_state_machine (Camera.initial : Camera ℚ) 300 200 false false).1 rfl,
    ((drag_state_machine (Camera.initial : Camera ℚ) 500 400 false false).2.2
      [.scroll 0 1, .poll 900 900 false true false] 10 10 false false
      (by simp [CameraInput.released])).1⟩

end DragGesture

/-! ### Camera position -/

theorem cos_pos_of_pitch_clamped (pitch : ℝ) (h1 : -1.4 ≤ pitch) (h2 : pitch ≤ 1.4) :
    0 < Real.cos pitch := by
  have hpi := Real.pi_gt_three
  apply Real.cos_pos_of_mem_Ioo
  constructor
  · norm_num at h1 ⊢
    linarith
  · norm_num at h2 ⊢
    linarith

theorem camPos_horizontal_ne_zero (yaw pitch distance : ℝ) (hc : 0 < Real.cos pitch)
    (hd : 1 ≤ distance) :
    (drawFrame.camPos Real.cos Real.sin yaw pitch distance).x ≠ 0 ∨
    (drawFrame.camPos Real.cos Real.sin yaw pitch distance).z ≠ 0 := by
  simp only [drawFrame.camPos]
  by_contra hne
  rw [not_or, not_not, not_not] at hne
  obtain ⟨hx, hz⟩ := hne
  have hdc : distance * Real.cos pitch ≠ 0 := by positivity
  have hs : Real.sin yaw = 0 := by
    rcases mul_eq_zero.1 hx with h | h
    · exact absurd h hdc
    · exact h
  have hcy : Real.cos yaw = 0 := by
    rcases mul_eq_zero.1 hz with h | h
    · exact absurd h hdc
    · exact h
  have := Real.sin_sq_add_cos_sq yaw
  rw [hs, hcy] at this
  norm_num at this

theorem camPos_norm_sq (yaw pitch distance : ℝ) :
    ((drawFrame.camPos Real.cos Real.sin yaw pitch distance).x - 0) ^ 2 +
    ((drawFrame.camPos Real.cos Real.sin yaw pitch distance).y - 0) ^ 2 +
    ((drawFrame.camPos Real.cos Real.sin yaw pitch distance).z - 0) ^ 2 = distance ^ 2 := by
  simp only [drawFrame.camPos]
  have h1 := Real.sin_sq_add_cos_sq yaw
  have h2 := Real.sin_sq_add_cos_sq pitch
  have hy : Real.sin yaw ^ 2 = 1 - Real.cos yaw ^ 2 := by linarith
  have hp : Real.sin pitch ^ 2 = 1 - Real.cos pitch ^ 2 := by linarith
  ring_nf
  rw [hy, hp]
  ring

/-- C22: in exact real arithmetic with the real cosine and sine, for every camera state
reachable from the initial state by `onScroll` and `updateCameraFromInput` calls and for every
yaw: `cos(pitch) > 0` and `distance >= 1`; the camera position
`distance * (cos(pitch)*sin(yaw), sin(pitch), cos(pitch)*cos(yaw))` has a nonzero `x` or `z`
component; so it is not the look-at target `(0, 0, 0)`, and the view direction from the
position to the target is not a multiple of the up vector `(0, 1, 0)`. -/
theorem no_gimbal_flip (inputs : List (CameraInput ℝ)) (yaw : ℝ) :
    0 < Real.cos ((Camera.initial : Camera ℝ).run inputs).m_pitch ∧
    1 ≤ ((Camera.initial : Camera ℝ).run inputs).m_distance ∧
    ((drawFrame.camPos Real.cos Real.sin yaw
        ((Camera.initial : Camera ℝ).run inputs).m_pitch
        ((Camera.initial : Camera ℝ).run inputs).m_distance).x ≠ 0 ∨
      (drawFrame.camPos Real.cos Real.sin yaw
        ((Camera.initial : Camera ℝ).run inputs).m_pitch
        ((Camera.initial : Camera ℝ).run inputs).m_distance).z ≠ 0) ∧
    drawFrame.camPos Real.cos Real.sin yaw
        ((Camera.initial : Camera ℝ).run inputs).m_pitch
        ((Camera.initial : Camera ℝ).run inputs).m_distance ≠ ⟨0, 0, 0⟩ ∧
    (¬ ∃ t : ℝ,
      (⟨0 - (drawFrame.camPos Real.cos Real.sin yaw
          ((Camera.initial : Camera ℝ).run inputs).m_pitch
          ((Camera.initial : Camera ℝ).run inputs).m_distance).x,
        0 - (drawFrame.camPos Real.cos Real.sin yaw
          ((Camera.initial : Camera ℝ).run inputs).m_pitch
          ((Camera.initial : Camera ℝ).run inputs).m_distance).y,
        0 - (drawFrame.camPos Real.cos Real.sin yaw
          ((Camera.initial : Camera ℝ).run inputs).m_pitch
          ((Camera.initial : Camera ℝ).run inputs).m_distance).z⟩ : Vec3 ℝ)
        = ⟨t * 0, t * 1, t * 0⟩) := by
  obtain ⟨h1, h2, h3, _⟩ := Camera.run_inRange _ inputs (Camera.initial_inRange : (Camera.initial : Camera ℝ).InRange)
  have hcos := cos_pos_of_pitch_clamped _ h1 h2
  have hxz := camPos_horizontal_ne_zero yaw _ _ hcos h3
  refine ⟨hcos, h3, hxz, ?_, ?_⟩
  · intro h
    rw [h] at hxz
    simp at hxz
  · rintro ⟨t, ht⟩
    simp only [Vec3.mk.injEq, mul_zero, zero_sub, neg_eq_zero] at ht
    rcases hxz with h | h
    · exact h ht.1
    · exact h ht.2.2

/-- C26: in exact real arithmetic, for every reachable camera state and every yaw and pitch,
the Euclidean distance from the camera position computed in `drawFrame` to the origin equals
the member `m_distance`, which lies in `[1, 10]` and so between the near plane `0.01` and the
far plane `10` of the projection. -/
theorem camera_distance_in_depth_range (inputs : List (CameraInput ℝ)) (yaw pitch : ℝ) :
    Real.sqrt
      (((drawFrame.camPos Real.cos Real.sin yaw pitch
          ((Camera.initial : Camera ℝ).run inputs).m_distance).x - 0) ^ 2 +
       ((drawFrame.camPos Real.cos Real.sin yaw pitch
          ((Camera.initial : Camera ℝ).run inputs).m_distance).y - 0) ^ 2 +
       ((drawFrame.camPos Real.cos Real.sin yaw pitch
          ((Camera.initial : Camera ℝ).run inputs).m_distance).z - 0) ^ 2)
      = ((Camera.initial : Camera ℝ).run inputs).m_distance ∧
    1 ≤ ((Camera.initial : Camera ℝ).run inputs).m_distance ∧
    ((Camera.initial : Camera ℝ).run inputs).m_distance ≤ 10 ∧
    (drawFrame.zNear : ℝ) ≤ ((Camera.initial : Camera ℝ).run inputs).m_distance ∧
    ((Camera.initial : Camera ℝ).run inputs).m_distance ≤ (drawFrame.zFar : ℝ) := by
  obtain ⟨_, _, h3, h4⟩ := Camera.run_inRange _ inputs (Camera.initial_inRange : (Camera.initial : Camera ℝ).InRange)
  refine ⟨?_, h3, h4, ?_, ?_⟩
  · rw [camPos_norm_sq, Real.sqrt_sq (by linarith)]
  · unfold drawFrame.zNear
    norm_num
    linarith
  · unfold drawFrame.zFar
    norm_num
    linarith

/-! ### Mesh normalisation -/

section MeshLemmas

variable {K : Type} [LinearOrderedField K]

theorem stdMin_eq_min (a b : K) : stdMin a b = min a b := by
  unfold stdMin
  split
  · rename_i h
    exact (min_eq_right (le_of_lt h)).symm
  · rename_i h
    exact (min_eq_left (not_lt.1 h)).symm

theorem stdMax_eq_max (a b : K) : stdMax a b = max a b := by
  unfold stdMax
  split
  · rename_i h
    exact (max_eq_right (le_of_lt h)).symm
  · rename_i h
    exact (max_eq_left (not_lt.1 h)).symm

theorem foldl_stdMin_spec {α : Type} (f : α → K) (l : List α) (a : K) :
    l.foldl (fun m v => stdMin m (f v)) a ≤ a ∧
    (∀ v ∈ l, l.foldl (fun m v => stdMin m (f v)) a ≤ f v) ∧
    (l.foldl (fun m v => stdMin m (f v)) a = a ∨
      ∃ v ∈ l, l.foldl (fun m v => stdMin m (f v)) a = f v) := by
  induction l generalizing a with
  | nil => exact ⟨le_refl _, by simp, Or.inl rfl⟩
  | cons u rest ih =>
    simp only [List.foldl_cons]
    obtain ⟨h1, h2, h3⟩ := ih (stdMin a (f u))
    rw [stdMin_eq_min] at h1 h2 h3 ⊢
    refine ⟨le_trans h1 (min_le_left _ _), ?_, ?_⟩
    · intro v hv
      rcases List.mem_cons.1 hv with rfl | hv
      · exact le_trans h1 (min_le_right _ _)
      · exact h2 v hv
    · rcases h3 with h | ⟨v, hv, h⟩
      · rcases min_choice a (f u) with hm | hm
        · exact Or.inl (h.trans hm)
        · exact Or.inr ⟨u, List.mem_cons_self _ _, h.trans hm⟩
      · exact Or.inr ⟨v, List.mem_cons_of_mem _ hv, h⟩

theorem foldl_stdMax_spec {α : Type} (f : α → K) (l : List α) (a : K) :
    a ≤ l.foldl (fun m v => stdMax m (f v)) a ∧
    (∀ v ∈ l, f v ≤ l.foldl (fun m v => stdMax m (f v)) a) ∧
    (l.foldl (fun m v => stdMax m (f v)) a = a ∨
      ∃ v ∈ l, l.foldl (fun m v => stdMax m (f v)) a = f v) := by
  induction l generalizing a with
  | nil => exact ⟨le_refl _, by simp, Or.inl rfl⟩
  | cons u rest ih =>
    simp only [List.foldl_cons]
    obtain ⟨h1, h2, h3⟩ := ih (stdMax a (f u))
    rw [stdMax_eq_max] at h1 h2 h3 ⊢
    refine ⟨le_trans (le_max_left _ _) h1, ?_, ?_⟩
    · intro v hv
      rcases List.mem_cons.1 hv with rfl | hv
      · exact le_trans (le_max_right _ _) h1
      · exact h2 v hv
    · rcases h3 with h | ⟨v, hv, h⟩
      · rcases max_choice a (f u) with hm | hm
        · exact Or.inl (h.trans hm)
        · exact Or.inr ⟨u, List.mem_cons_self _ _, h.trans hm⟩
      · exact Or.inr ⟨v, List.mem_cons_of_mem _ hv, h⟩

theorem foldl_stdMin_isMinOver {α : Type} (f : α → K) (l : List α) (a : K) (hne : l ≠ [])
    (hle : ∀ v ∈ l, f v ≤ a) : IsMinOver l f (l.foldl (fun m v => stdMin m (f v)) a) := by
  obtain ⟨_, h2, h3⟩ := foldl_stdMin_spec f l a
  refine ⟨?_, h2⟩
  rcases h3 with h | h
  · obtain ⟨v, hv⟩ := List.exists_mem_of_ne_nil l hne
    exact ⟨v, hv, le_antisymm (h2 v hv) (h.symm ▸ hle v hv)⟩
  · exact h

theorem foldl_stdMax_isMaxOver {α : Type} (f : α → K) (l : List α) (a : K) (hne : l ≠ [])
    (hle : ∀ v ∈ l, a ≤ f v) : IsMaxOver l f (l.foldl (fun m v => stdMax m (f v)) a) := by
  obtain ⟨_, h2, h3⟩ := foldl_stdMax_spec f l a
  refine ⟨?_, h2⟩
  rcases h3 with h | h
  · obtain ⟨v, hv⟩ := List.exists_mem_of_ne_nil l hne
    exact ⟨v, hv, le_antisymm (h.symm ▸ hle v hv) (h2 v hv)⟩
  · exact h

theorem foldl_extend_eq (vs : List (Vertex K)) (b : MeshBounds K) :
    vs.foldl computeBounds.extend b =
      { min := ⟨vs.foldl (fun m v => stdMin m v.pos.x) b.min.x,
          vs.foldl (fun m v => stdMin m v.pos.y) b.min.y,
          vs.foldl (fun m v => stdMin m v.pos.z) b.min.z⟩,
        max := ⟨vs.foldl (fun m v => stdMax m v.pos.x) b.max.x,
          vs.foldl (fun m v => stdMax m v.pos.y) b.max.y,
          vs.foldl (fun m v => stdMax m v.pos.z) b.max.z⟩,
        center := b.center, radius := b.radius } := by
  induction vs generalizing b with
  | nil => rfl
  | cons v rest ih =>
    rw [List.foldl_cons, ih]
    rfl

theorem foldl_update_spec (center : Vec3 K) (l : List (Vertex K)) (a : K) :
    a ≤ l.foldl (computeBounds.update center) a ∧
    (∀ v ∈ l, computeBounds.r2 center v ≤ l.foldl (computeBounds.update center) a) ∧
    (l.foldl (computeBounds.update center) a = a ∨
      ∃ v ∈ l, l.foldl (computeBounds.update center) a = computeBounds.r2 center v) := by
  have h := foldl_stdMax_spec (computeBounds.r2 center) l a
  have hfun : (fun m v => stdMax m (computeBounds.r2 center v))
      = computeBounds.update center := by
    funext m v
    rfl
  rw [hfun] at h
  exact h

end MeshLemmas

section MeshBox

variable {K : Type} [LinearOrderedField K]

theorem foldl_extend_box (vs : List (Vertex K)) (hne : vs ≠ [])
    (hfin : ∀ v ∈ vs, v.pos.InFloatRange) :
    IsMinOver vs (fun v => v.pos.x) (vs.foldl computeBounds.extend computeBounds.init).min.x ∧
    IsMinOver vs (fun v => v.pos.y) (vs.foldl computeBounds.extend computeBounds.init).min.y ∧
    IsMinOver vs (fun v => v.pos.z) (vs.foldl computeBounds.extend computeBounds.init).min.z ∧
    IsMaxOver vs (fun v => v.pos.x) (vs.foldl computeBounds.extend computeBounds.init).max.x ∧
    IsMaxOver vs (fun v => v.pos.y) (vs.foldl computeBounds.extend computeBounds.init).max.y ∧
    IsMaxOver vs (fun v => v.pos.z) (vs.foldl computeBounds.extend computeBounds.init).max.z := by
  rw [foldl_extend_eq]
  exact ⟨foldl_stdMin_isMinOver _ vs _ hne (fun v hv => (hfin v hv).2.1),
    foldl_stdMin_isMinOver _ vs _ hne (fun v hv => (hfin v hv).2.2.2.1),
    foldl_stdMin_isMinOver _ vs _ hne (fun v hv => (hfin v hv).2.2.2.2.2),
    foldl_stdMax_isMaxOver _ vs _ hne (fun v hv => (hfin v hv).1),
    foldl_stdMax_isMaxOver _ vs _ hne (fun v hv => (hfin v hv).2.2.1),
    foldl_stdMax_isMaxOver _ vs _ hne (fun v hv => (hfin v hv).2.2.2.2.1)⟩

theorem isMinOver_map_affine {α : Type} (l : List α) (g : α → α) (f : α → K) (m m1 c s : K)
    (hm : IsMinOver l f m) (hm1 : IsMinOver (l.map g) f m1)
    (hg : ∀ v ∈ l, f (g v) = (f v - c) * s) (hs : 0 < s) : m1 = (m - c) * s := by
  obtain ⟨⟨v, hv, hmv⟩, hmin⟩ := hm
  obtain ⟨⟨w1, hw1, hmw⟩, hmin1⟩ := hm1
  obtain ⟨w, hw, rfl⟩ := List.mem_map.1 hw1
  apply le_antisymm
  · have := hmin1 (g v) (List.mem_map_of_mem g hv)
    rw [hg v hv, ← hmv] at this
    exact this
  · rw [hmw, hg w hw]
    exact mul_le_mul_of_nonneg_right (sub_le_sub_right (hmin w hw) c) (le_of_lt hs)

theorem isMaxOver_map_affine {α : Type} (l : List α) (g : α → α) (f : α → K) (m m1 c s : K)
    (hm : IsMaxOver l f m) (hm1 : IsMaxOver (l.map g) f m1)
    (hg : ∀ v ∈ l, f (g v) = (f v - c) * s) (hs : 0 < s) : m1 = (m - c) * s := by
  obtain ⟨⟨v, hv, hmv⟩, hmax⟩ := hm
  obtain ⟨⟨w1, hw1, hmw⟩, hmax1⟩ := hm1
  obtain ⟨w, hw, rfl⟩ := List.mem_map.1 hw1
  apply le_antisymm
  · rw [hmw, hg w hw]
    exact mul_le_mul_of_nonneg_right (sub_le_sub_right (hmax w hw) c) (le_of_lt hs)
  · have := hmax1 (g v) (List.mem_map_of_mem g hv)
    rw [hg v hv, ← hmv] at this
    exact this

theorem isMinOver_of_all_eq {α : Type} (l : List α) (f : α → K) (m : K) (u : α)
    (hall : ∀ v ∈ l, f v = f u) (hm : IsMinOver l f m) : m = f u := by
  obtain ⟨⟨v, hv, hmv⟩, _⟩ := hm
  rw [hmv, hall v hv]

theorem isMaxOver_of_all_eq {α : Type} (l : List α) (f : α → K) (m : K) (u : α)
    (hall : ∀ v ∈ l, f v = f u) (hm : IsMaxOver l f m) : m = f u := by
  obtain ⟨⟨v, hv, hmv⟩, _⟩ := hm
  rw [hmv, hall v hv]

theorem r2_nonneg (center : Vec3 K) (v : Vertex K) : 0 ≤ computeBounds.r2 center v := by
  exact add_nonneg (add_nonneg (mul_self_nonneg _) (mul_self_nonneg _)) (mul_self_nonneg _)

theorem r2_eq_zero_iff (center : Vec3 K) (v : Vertex K) :
    computeBounds.r2 center v = 0 ↔ v.pos = center := by
  obtain ⟨⟨px, py, pz⟩, n⟩ := v
  obtain ⟨cx, cy, cz⟩ := center
  simp only [computeBounds.r2, Vec3.sub, Vec3.mk.injEq]
  constructor
  · intro h
    have hx := mul_self_nonneg (px - cx)
    have hy := mul_self_nonneg (py - cy)
    have hz := mul_self_nonneg (pz - cz)
    have h1 : (px - cx) * (px - cx) = 0 := by linarith
    have h2 : (py - cy) * (py - cy) = 0 := by linarith
    have h3 : (pz - cz) * (pz - cz) = 0 := by linarith
    exact ⟨sub_eq_zero.1 (mul_self_eq_zero.1 h1), sub_eq_zero.1 (mul_self_eq_zero.1 h2),
      sub_eq_zero.1 (mul_self_eq_zero.1 h3)⟩
  · rintro ⟨rfl, rfl, rfl⟩
    simp

end MeshBox

theorem computeBounds_spec (mesh : MeshData ℝ) (hne : mesh.vertices ≠ [])
    (hfin : ∀ v ∈ mesh.vertices, v.pos.InFloatRange) :
    (IsMinOver mesh.vertices (fun v => v.pos.x) (computeBounds Real.sqrt mesh).min.x ∧
      IsMinOver mesh.vertices (fun v => v.pos.y) (computeBounds Real.sqrt mesh).min.y ∧
      IsMinOver mesh.vertices (fun v => v.pos.z) (computeBounds Real.sqrt mesh).min.z ∧
      IsMaxOver mesh.vertices (fun v => v.pos.x) (computeBounds Real.sqrt mesh).max.x ∧
      IsMaxOver mesh.vertices (fun v => v.pos.y) (computeBounds Real.sqrt mesh).max.y ∧
      IsMaxOver mesh.vertices (fun v => v.pos.z) (computeBounds Real.sqrt mesh).max.z) ∧
    (computeBounds Real.sqrt mesh).center
      = Vec3.scale 0.5 (Vec3.add (computeBounds Real.sqrt mesh).min
          (computeBounds Real.sqrt mesh).max) ∧
    0 ≤ (computeBounds Real.sqrt mesh).radius ∧
    (∀ v ∈ mesh.vertices, computeBounds.r2 (computeBounds Real.sqrt mesh).center v
      ≤ (computeBounds Real.sqrt mesh).radius * (computeBounds Real.sqrt mesh).radius) ∧
    (∃ v ∈ mesh.vertices, computeBounds.r2 (computeBounds Real.sqrt mesh).center v
      = (computeBounds Real.sqrt mesh).radius * (computeBounds Real.sqrt mesh).radius) := by
  refine ⟨foldl_extend_box mesh.vertices hne hfin, rfl, ?_⟩
  obtain ⟨h0, hall, hatt⟩ := foldl_update_spec (computeBounds Real.sqrt mesh).center
    mesh.vertices (0.0 : ℝ)
  have hrad : (computeBounds Real.sqrt mesh).radius
      = if mesh.vertices.foldl (computeBounds.update (computeBounds Real.sqrt mesh).center)
          (0.0 : ℝ) > 0.0
        then Real.sqrt (mesh.vertices.foldl
          (computeBounds.update (computeBounds Real.sqrt mesh).center) (0.0 : ℝ))
        else 0.0 := rfl
  generalize mesh.vertices.foldl (computeBounds.update (computeBounds Real.sqrt mesh).center)
    (0.0 : ℝ) = M at h0 hall hatt hrad
  generalize (computeBounds Real.sqrt mesh).radius = r at hrad
  generalize (computeBounds Real.sqrt mesh).center = c at hall hatt
  have h00 : (0.0 : ℝ) = 0 := by norm_num
  rw [h00] at h0 hatt hrad
  have hsq : r * r = M := by
    rw [hrad]
    split
    · exact Real.mul_self_sqrt h0
    · rename_i hM
      have : M = 0 := le_antisymm (not_lt.1 hM) h0
      rw [this]
      norm_num
  have hr0 : 0 ≤ r := by
    rw [hrad]
    split
    · exact Real.sqrt_nonneg _
    · norm_num
  refine ⟨hr0, ?_, ?_⟩
  · intro v hv
    rw [hsq]
    exact hall v hv
  · rw [hsq]
    rcases hatt with h | ⟨v, hv, h⟩
    · obtain ⟨v, hv⟩ := List.exists_mem_of_ne_nil _ hne
      exact ⟨v, hv, le_antisymm (h ▸ hall v hv) (h.symm ▸ r2_nonneg c v)⟩
    · exact ⟨v, hv, h.symm⟩

theorem mulScalar_sub_norm_sq (c : Vec3 ℝ) (s : ℝ) (v : Vertex ℝ) :
    (Vec3.mulScalar (Vec3.sub v.pos c) s).x ^ 2 + (Vec3.mulScalar (Vec3.sub v.pos c) s).y ^ 2
      + (Vec3.mulScalar (Vec3.sub v.pos c) s).z ^ 2 = computeBounds.r2 c v * (s * s) := by
  simp only [Vec3.mulScalar, Vec3.sub, computeBounds.r2]
  ring

theorem r2_origin (v : Vertex ℝ) :
    computeBounds.r2 ⟨0, 0, 0⟩ v = v.pos.x ^ 2 + v.pos.y ^ 2 + v.pos.z ^ 2 := by
  simp only [Vec3.sub, computeBounds.r2]
  ring

theorem inFloatRange_of_norm_sq_le_one (p : Vec3 ℝ) (h : p.x ^ 2 + p.y ^ 2 + p.z ^ 2 ≤ 1) :
    p.InFloatRange := by
  have hx : p.x ^ 2 ≤ 1 := by nlinarith [sq_nonneg p.y, sq_nonneg p.z]
  have hy : p.y ^ 2 ≤ 1 := by nlinarith [sq_nonneg p.x, sq_nonneg p.z]
  have hz : p.z ^ 2 ≤ 1 := by nlinarith [sq_nonneg p.x, sq_nonneg p.y]
  have hx1 := abs_le_one_iff_mul_self_le_one.2 (by nlinarith : p.x * p.x ≤ 1)
  have hy1 := abs_le_one_iff_mul_self_le_one.2 (by nlinarith : p.y * p.y ≤ 1)
  have hz1 := abs_le_one_iff_mul_self_le_one.2 (by nlinarith : p.z * p.z ≤ 1)
  rw [abs_le] at hx1 hy1 hz1
  unfold Vec3.InFloatRange FLT_LOWEST FLT_MAX
  refine ⟨?_, ?_, ?_, ?_, ?_, ?_⟩ <;> linarith [hx1.1, hx1.2, hy1.1, hy1.2, hz1.1, hz1.2]

theorem scale_spec (mesh : MeshData ℝ) (hne : mesh.vertices ≠ [])
    (hfin : ∀ v ∈ mesh.vertices, v.pos.InFloatRange) :
    (∀ v ∈ mesh.vertices, computeBounds.r2 (computeBounds Real.sqrt mesh).center v
      * (normalizeToUnitSphere.scale (computeBounds Real.sqrt mesh).radius
        * normalizeToUnitSphere.scale (computeBounds Real.sqrt mesh).radius) ≤ 1) ∧
    (0 < (computeBounds Real.sqrt mesh).radius →
      0 < normalizeToUnitSphere.scale (computeBounds Real.sqrt mesh).radius ∧
      ∃ v ∈ mesh.vertices, computeBounds.r2 (computeBounds Real.sqrt mesh).center v
        * (normalizeToUnitSphere.scale (computeBounds Real.sqrt mesh).radius
          * normalizeToUnitSphere.scale (computeBounds Real.sqrt mesh).radius) = 1) ∧
    ((computeBounds Real.sqrt mesh).radius = 0 →
      normalizeToUnitSphere.scale (computeBounds Real.sqrt mesh).radius = 1 ∧
      ∀ v ∈ mesh.vertices, v.pos = (computeBounds Real.sqrt mesh).center) := by
  obtain ⟨_, _, hr0, hall, hatt⟩ := computeBounds_spec mesh hne hfin
  generalize (computeBounds Real.sqrt mesh).radius = r at hr0 hall hatt
  generalize (computeBounds Real.sqrt mesh).center = c at hall hatt
  have h00 : (0.0 : ℝ) = 0 := by norm_num
  have h10 : (1.0 : ℝ) = 1 := by norm_num
  have hpos : 0 < r → normalizeToUnitSphere.scale r = 1 / r := by
    intro h
    unfold normalizeToUnitSphere.scale
    rw [h00, h10, if_pos h]
  have hzero : r = 0 → normalizeToUnitSphere.scale r = 1 := by
    intro h
    unfold normalizeToUnitSphere.scale
    rw [h00, h10, if_neg (by rw [h]; exact lt_irrefl 0)]
  refine ⟨?_, ?_, ?_⟩
  · intro v hv
    rcases lt_or_eq_of_le hr0 with h | h
    · rw [hpos h]
      have hrr : 0 < r * r := mul_pos h h
      have : computeBounds.r2 c v * (1 / r * (1 / r)) = computeBounds.r2 c v / (r * r) := by
        field_simp
      rw [this]
      exact (div_le_one hrr).2 (hall v hv)
    · rw [hzero h.symm]
      have := hall v hv
      rw [← h] at this
      linarith
  · intro h
    rw [hpos h]
    refine ⟨by positivity, ?_⟩
    obtain ⟨v, hv, hvr⟩ := hatt
    refine ⟨v, hv, ?_⟩
    rw [hvr]
    field_simp
  · intro h
    refine ⟨hzero h, ?_⟩
    intro v hv
    have := hall v hv
    rw [h] at this
    exact (r2_eq_zero_iff c v).1 (le_antisymm (by linarith) (r2_nonneg c v))

theorem normalizeToUnitSphere_vertices (mesh : MeshData ℝ) :
    (normalizeToUnitSphere Real.sqrt mesh).1.vertices
      = mesh.vertices.map (fun v => { v with
          pos := Vec3.mulScalar (Vec3.sub v.pos (computeBounds Real.sqrt mesh).center)
            (normalizeToUnitSphere.scale (computeBounds Real.sqrt mesh).radius) }) := rfl

theorem normalizeToUnitSphere_norm_sq_le_one (mesh : MeshData ℝ) (hne : mesh.vertices ≠ [])
    (hfin : ∀ v ∈ mesh.vertices, v.pos.InFloatRange) :
    ∀ v ∈ (normalizeToUnitSphere Real.sqrt mesh).1.vertices,
      v.pos.x ^ 2 + v.pos.y ^ 2 + v.pos.z ^ 2 ≤ 1 := by
  intro v1 hv1
  rw [normalizeToUnitSphere_vertices] at hv1
  obtain ⟨v, hv, rfl⟩ := List.mem_map.1 hv1
  rw [mulScalar_sub_norm_sq]
  exact (scale_spec mesh hne hfin).1 v hv

theorem normalizeToUnitSphere_bounds (mesh : MeshData ℝ) (hne : mesh.vertices ≠ [])
    (hfin : ∀ v ∈ mesh.vertices, v.pos.InFloatRange)
    (hr : 0 < (computeBounds Real.sqrt mesh).radius) :
    (∃ v ∈ (normalizeToUnitSphere Real.sqrt mesh).1.vertices,
      v.pos.x ^ 2 + v.pos.y ^ 2 + v.pos.z ^ 2 = 1) ∧
    (normalizeToUnitSphere Real.sqrt mesh).2.center = ⟨0, 0, 0⟩ ∧
    (normalizeToUnitSphere Real.sqrt mesh).2.radius = 1 := by
  have hle := normalizeToUnitSphere_norm_sq_le_one mesh hne hfin
  obtain ⟨hs, u, hu, hu1⟩ := (scale_spec mesh hne hfin).2.1 hr
  obtain ⟨⟨bx, by1, bz, tx, ty, tz⟩, hcen, _, _, _⟩ := computeBounds_spec mesh hne hfin
  have hne1 : (normalizeToUnitSphere Real.sqrt mesh).1.vertices ≠ [] := by
    rw [normalizeToUnitSphere_vertices]
    simpa using hne
  have hfin1 : ∀ v ∈ (normalizeToUnitSphere Real.sqrt mesh).1.vertices, v.pos.InFloatRange :=
    fun v hv => inFloatRange_of_norm_sq_le_one _ (hle v hv)
  obtain ⟨⟨bx1, by2, bz1, tx1, ty1, tz1⟩, hcen1, hr1, hall1, hatt1⟩ :=
    computeBounds_spec (normalizeToUnitSphere Real.sqrt mesh).1 hne1 hfin1
  have hbounds : (normalizeToUnitSphere Real.sqrt mesh).2
      = computeBounds Real.sqrt (normalizeToUnitSphere Real.sqrt mesh).1 := rfl
  have hatt : ∃ v ∈ (normalizeToUnitSphere Real.sqrt mesh).1.vertices,
      v.pos.x ^ 2 + v.pos.y ^ 2 + v.pos.z ^ 2 = 1 := by
    refine ⟨{ u with
      pos := Vec3.mulScalar (Vec3.sub u.pos (computeBounds Real.sqrt mesh).center)
        (normalizeToUnitSphere.scale (computeBounds Real.sqrt mesh).radius) }, ?_, ?_⟩
    · rw [normalizeToUnitSphere_vertices]
      exact List.mem_map_of_mem _ hu
    · rw [mulScalar_sub_norm_sq]
      exact hu1
  have hcenter : (computeBounds Real.sqrt (normalizeToUnitSphere Real.sqrt mesh).1).center
      = ⟨0, 0, 0⟩ := by
    rw [normalizeToUnitSphere_vertices] at bx1 by2 bz1 tx1 ty1 tz1
    have ex := isMinOver_map_affine _ _ _ _ _ (computeBounds Real.sqrt mesh).center.x _ bx bx1
      (fun _ _ => rfl) hs
    have ey := isMinOver_map_affine _ _ _ _ _ (computeBounds Real.sqrt mesh).center.y _ by1 by2
      (fun _ _ => rfl) hs
    have ez := isMinOver_map_affine _ _ _ _ _ (computeBounds Real.sqrt mesh).center.z _ bz bz1
      (fun _ _ => rfl) hs
    have fx := isMaxOver_map_affine _ _ _ _ _ (computeBounds Real.sqrt mesh).center.x _ tx tx1
      (fun _ _ => rfl) hs
    have fy := isMaxOver_map_affine _ _ _ _ _ (computeBounds Real.sqrt mesh).center.y _ ty ty1
      (fun _ _ => rfl) hs
    have fz := isMaxOver_map_affine _ _ _ _ _ (computeBounds Real.sqrt mesh).center.z _ tz tz1
      (fun _ _ => rfl) hs
    rw [hcen1]
    simp only [Vec3.scale, Vec3.add, ex, ey, ez, fx, fy, fz, Vec3.mk.injEq]
    have hcx := congrArg Vec3.x hcen
    have hcy := congrArg Vec3.y hcen
    have hcz := congrArg Vec3.z hcen
    simp only [Vec3.scale, Vec3.add] at hcx hcy hcz
    refine ⟨?_, ?_, ?_⟩
    · rw [hcx]; ring
    · rw [hcy]; ring
    · rw [hcz]; ring
  refine ⟨hatt, hbounds ▸ hcenter, ?_⟩
  rw [hbounds]
  rw [hcenter] at hall1 hatt1
  generalize (computeBounds Real.sqrt (normalizeToUnitSphere Real.sqrt mesh).1).radius = r1
    at hr1 hall1 hatt1
  obtain ⟨w, hw, hw1⟩ := hatt
  obtain ⟨w2, hw2, hw3⟩ := hatt1
  have h1 : 1 ≤ r1 * r1 := by
    have := hall1 w hw
    rw [r2_origin, hw1] at this
    exact this
  have h2 : r1 * r1 ≤ 1 := by
    rw [← hw3, r2_origin]
    exact hle w2 hw2
  have h3 : r1 * r1 = 1 := le_antisymm h2 h1
  nlinarith

/-- C27: `normalizeToUnitSphere` in exact real arithmetic, on a mesh with at least one vertex
whose coordinates are finite `float` values. After the call every vertex position has
Euclidean norm at most 1. If two vertices differ in position, some vertex has norm exactly 1
and the returned bounds have radius 1 and centre `(0, 0, 0)`. If all vertices coincide, the
radius is 0, the scale is 1 and every vertex is moved to the origin. The number of vertices,
the vertex normals and the index list are unchanged. -/
theorem normalizeToUnitSphere_spec (mesh : MeshData ℝ) (hne : mesh.vertices ≠ [])
    (hfin : ∀ v ∈ mesh.vertices, v.pos.InFloatRange) :
    (∀ v ∈ (normalizeToUnitSphere Real.sqrt mesh).1.vertices,
      Real.sqrt (v.pos.x ^ 2 + v.pos.y ^ 2 + v.pos.z ^ 2) ≤ 1) ∧
    ((∃ v ∈ mesh.vertices, ∃ w ∈ mesh.vertices, v.pos ≠ w.pos) →
      (∃ v ∈ (normalizeToUnitSphere Real.sqrt mesh).1.vertices,
        Real.sqrt (v.pos.x ^ 2 + v.pos.y ^ 2 + v.pos.z ^ 2) = 1) ∧
      (normalizeToUnitSphere Real.sqrt mesh).2.radius = 1 ∧
      (normalizeToUnitSphere Real.sqrt mesh).2.center = ⟨0, 0, 0⟩) ∧
    ((∀ v ∈ mesh.vertices, ∀ w ∈ mesh.vertices, v.pos = w.pos) →
      (computeBounds Real.sqrt mesh).radius = 0 ∧
      normalizeToUnitSphere.scale (computeBounds Real.sqrt mesh).radius = 1 ∧
      ∀ v ∈ (normalizeToUnitSphere Real.sqrt mesh).1.vertices, v.pos = ⟨0, 0, 0⟩) ∧
    (normalizeToUnitSphere Real.sqrt mesh).1.vertices.length = mesh.vertices.length ∧
    (normalizeToUnitSphere Real.sqrt mesh).1.vertices.map (fun v => v.normal)
      = mesh.vertices.map (fun v => v.normal) ∧
    (normalizeToUnitSphere Real.sqrt mesh).1.indices = mesh.indices := by
  have hle := normalizeToUnitSphere_norm_sq_le_one mesh hne hfin
  obtain ⟨⟨bx, by1, bz, tx, ty, tz⟩, hcen, hr0, _, hatt⟩ := computeBounds_spec mesh hne hfin
  refine ⟨fun v hv => Real.sqrt_le_one.2 (hle v hv), ?_, ?_, ?_, ?_, rfl⟩
  · rintro ⟨v, hv, w, hw, hvw⟩
    have hr : 0 < (computeBounds Real.sqrt mesh).radius := by
      rcases lt_or_eq_of_le hr0 with h | h
      · exact h
      · have hall := ((scale_spec mesh hne hfin).2.2 h.symm).2
        exact absurd ((hall v hv).trans (hall w hw).symm) hvw
    obtain ⟨⟨u, hu, hu1⟩, hc, hrad⟩ := normalizeToUnitSphere_bounds mesh hne hfin hr
    exact ⟨⟨u, hu, by rw [hu1, Real.sqrt_one]⟩, hrad, hc⟩
  · intro hsame
    obtain ⟨u, hu⟩ := List.exists_mem_of_ne_nil _ hne
    have hcu : (computeBounds Real.sqrt mesh).center = u.pos := by
      have ex := isMinOver_of_all_eq _ _ _ u (fun v hv => congrArg Vec3.x (hsame v hv u hu)) bx
      have ey := isMinOver_of_all_eq _ _ _ u (fun v hv => congrArg Vec3.y (hsame v hv u hu)) by1
      have ez := isMinOver_of_all_eq _ _ _ u (fun v hv => congrArg Vec3.z (hsame v hv u hu)) bz
      have fx := isMaxOver_of_all_eq _ _ _ u (fun v hv => congrArg Vec3.x (hsame v hv u hu)) tx
      have fy := isMaxOver_of_all_eq _ _ _ u (fun v hv => congrArg Vec3.y (hsame v hv u hu)) ty
      have fz := isMaxOver_of_all_eq _ _ _ u (fun v hv => congrArg Vec3.z (hsame v hv u hu)) tz
      rw [hcen]
      obtain ⟨⟨ux, uy, uz⟩, un⟩ := u
      simp only [Vec3.scale, Vec3.add, ex, ey, ez, fx, fy, fz, Vec3.mk.injEq]
      refine ⟨?_, ?_, ?_⟩ <;> norm_num <;> ring
    have hrad : (computeBounds Real.sqrt mesh).radius = 0 := by
      obtain ⟨v, hv, hvr⟩ := hatt
      have : computeBounds.r2 (computeBounds Real.sqrt mesh).center v = 0 :=
        (r2_eq_zero_iff _ _).2 ((hsame v hv u hu).trans hcu.symm)
      rw [this] at hvr
      exact mul_self_eq_zero.1 hvr.symm
    obtain ⟨hscale, hall⟩ := (scale_spec mesh hne hfin).2.2 hrad
    refine ⟨hrad, hscale, ?_⟩
    intro v1 hv1
    rw [normalizeToUnitSphere_vertices] at hv1
    obtain ⟨v, hv, rfl⟩ := List.mem_map.1 hv1
    simp [Vec3.mulScalar, Vec3.sub, hall v hv]
  · rw [normalizeToUnitSphere_vertices, List.length_map]
  · rw [normalizeToUnitSphere_vertices, List.map_map]
    rfl

theorem normalizeToUnitSphere_spec_witness :
    (exampleMesh : MeshData ℝ).vertices ≠ [] ∧
    (∀ v ∈ (exampleMesh : MeshData ℝ).vertices, v.pos.InFloatRange) ∧
    (∀ v ∈ (normalizeToUnitSphere Real.sqrt (exampleMesh : MeshData ℝ)).1.vertices,
      Real.sqrt (v.pos.x ^ 2 + v.pos.y ^ 2 + v.pos.z ^ 2) ≤ 1) ∧
    (normalizeToUnitSphere Real.sqrt (exampleMesh : MeshData ℝ)).2.radius = 1 ∧
    (normalizeToUnitSphere Real.sqrt (exampleMesh : MeshData ℝ)).2.center = ⟨0, 0, 0⟩ :=
  ⟨by simp [exampleMesh],
    by simp [exampleMesh, Vec3.InFloatRange, FLT_MAX, FLT_LOWEST]; norm_num,
    (normalizeToUnitSphere_spec exampleMesh (by simp [exampleMesh])
      (by simp [exampleMesh, Vec3.InFloatRange, FLT_MAX, FLT_LOWEST]; norm_num)).1,
    ((normalizeToUnitSphere_spec exampleMesh (by simp [exampleMesh])
      (by simp [exampleMesh, Vec3.InFloatRange, FLT_MAX, FLT_LOWEST]; norm_num)).2.1
      ⟨⟨⟨0, 0, 0⟩, ⟨0, 0, 1⟩⟩, by simp [exampleMesh], ⟨⟨6, 8, 0⟩, ⟨0, 1, 0⟩⟩,
        by simp [exampleMesh], by simp⟩).2.1,
    ((normalizeToUnitSphere_spec exampleMesh (by simp [exampleMesh])
      (by simp [exampleMesh, Vec3.InFloatRange, FLT_MAX, FLT_LOWEST]; norm_num)).2.1
      ⟨⟨⟨0, 0, 0⟩, ⟨0, 0, 1⟩⟩, by simp [exampleMesh], ⟨⟨6, 8, 0⟩, ⟨0, 1, 0⟩⟩,
        by simp [exampleMesh], by simp⟩).2.2⟩

/-- The bounds of the example mesh, evaluated. -/
theorem computeBounds_example :
    computeBounds Real.sqrt (exampleMesh : MeshData ℝ)
      = { min := ⟨0, 0, 0⟩, max := ⟨6, 8, 0⟩, center := ⟨3, 4, 0⟩, radius := 5 } := by
  have h25 : Real.sqrt 25 = 5 := by
    rw [show (25 : ℝ) = 5 ^ 2 by norm_num, Real.sqrt_sq (by norm_num)]
  simp only [computeBounds, exampleMesh, List.foldl_cons, List.foldl_nil, computeBounds.extend,
    computeBounds.init, computeBounds.update, computeBounds.r2, stdMin, stdMax, FLT_MAX,
    FLT_LOWEST, Vec3.scale, Vec3.add, Vec3.sub]
  norm_num [h25]

/-- The vertices of the example mesh after normalisation, evaluated. -/
theorem normalizeToUnitSphere_example :
    (normalizeToUnitSphere Real.sqrt (exampleMesh : MeshData ℝ)).1.vertices
      = [⟨⟨-3 / 5, -4 / 5, 0⟩, ⟨0, 0, 1⟩⟩, ⟨⟨3 / 5, 4 / 5, 0⟩, ⟨0, 1, 0⟩⟩,
          ⟨⟨0, 0, 0⟩, ⟨1, 0, 0⟩⟩] := by
  rw [normalizeToUnitSphere_vertices, computeBounds_example]
  simp only [exampleMesh, List.map_cons, List.map_nil, normalizeToUnitSphere.scale,
    Vec3.mulScalar, Vec3.sub]
  norm_num

end VulkanApp
